import Mathlib

/-!
# Charging station message engine

A shallow embedding of `ocpp2.0/charging_station.go`: the outbound send
operations (`SendRequest`, `SendRequestAsync`), the reply loop
(`asyncCallbackHandler`), the timeout hook (`onRequestTimeout`) and the inbound
dispatch (`handleIncomingRequest`, `sendResponse`).

Stateful Go code is embedded by explicit state passing: every operation takes
the station and returns the new station together with the list of effects it
performed, in order (transport writes, handler calls, callback invocations).
A Go interface value that may be nil is an `Option`; Go channels are FIFO lists.
-/

namespace Ocpp2

/-! ## Values -/

/-- An `ocpp.Request`. Every request type returns its own feature-name constant
from `GetFeatureName`, so that name also identifies the dynamic Go type of the
value; `payload` stands for the remaining fields. -/
structure Request where
  GetFeatureName : String
  payload : String
deriving DecidableEq, Repr

/-- An `ocpp.Response`, with the same reading as `Request`. -/
structure Response where
  GetFeatureName : String
  payload : String
deriving DecidableEq, Repr

/-- A Go `error` value: either an `*ocpp.Error` built by `ocpp.NewError`
(code, description, message id) or the result of `fmt.Errorf` (its text). -/
inductive GoError where
  | ocpp (Code : String) (Description : String) (MessageId : String)
  | errorf (text : String)
deriving DecidableEq, Repr

/-- Modelled from the spec: the `Error` method of `ocpp.Error` is declared in
package `ocpp`, outside the sources at hand; the spec fixes only the three parts
of a structured error (message id, code, description), which the text shows in
that order. For a `fmt.Errorf` value the text is the formatted message. -/
def GoError.Error : GoError → String
  | .ocpp code description messageId =>
      "ocpp message (" ++ messageId ++ "): " ++ code ++ " - " ++ description
  | .errorf text => text

/-- The `Code` field of an `*ocpp.Error`; `none` for any other error value. -/
def GoError.code? : GoError → Option String
  | .ocpp code _ _ => some code
  | .errorf _ => none

/-- The `MessageId` field of an `*ocpp.Error`; `none` for any other error value. -/
def GoError.messageId? : GoError → Option String
  | .ocpp _ _ messageId => some messageId
  | .errorf _ => none

/-- The function `ocpp.NewError`, which fills the three fields of an `ocpp.Error`. -/
def ocpp.NewError (code description messageId : String) : GoError :=
  GoError.ocpp code description messageId

/-! ## Error taxonomy (package ocppj)

Modelled from the spec: the error-code constants are declared in package
`ocppj`, outside the sources at hand; section 6 of the spec lists them. -/

/-- Modelled from the spec: constant `ocppj.NotImplemented` (taxonomy, section 6). -/
def ocppj.NotImplemented : String := "NotImplemented"
/-- Modelled from the spec: constant `ocppj.NotSupported` (taxonomy, section 6). -/
def ocppj.NotSupported : String := "NotSupported"
/-- Modelled from the spec: constant `ocppj.InternalError` (taxonomy, section 6). -/
def ocppj.InternalError : String := "InternalError"
/-- Modelled from the spec: constant `ocppj.ProtocolError` (taxonomy, section 6). -/
def ocppj.ProtocolError : String := "ProtocolError"
/-- Modelled from the spec: constant `ocppj.SecurityError` (taxonomy, section 6). -/
def ocppj.SecurityError : String := "SecurityError"
/-- Modelled from the spec: constant `ocppj.FormationViolation` (taxonomy, section 6). -/
def ocppj.FormationViolation : String := "FormationViolation"
/-- Modelled from the spec: constant `ocppj.PropertyConstraintViolation` (taxonomy, section 6). -/
def ocppj.PropertyConstraintViolation : String := "PropertyConstraintViolation"
/-- Modelled from the spec: constant `ocppj.OccurrenceConstraintViolation` (taxonomy, section 6). -/
def ocppj.OccurrenceConstraintViolation : String := "OccurrenceConstraintViolation"
/-- Modelled from the spec: constant `ocppj.TypeConstraintViolation` (taxonomy, section 6). -/
def ocppj.TypeConstraintViolation : String := "TypeConstraintViolation"
/-- Modelled from the spec: constant `ocppj.GenericError` (taxonomy, section 6). -/
def ocppj.GenericError : String := "GenericError"

/-- The fixed error taxonomy of section 6 of the spec. -/
def ocppj.taxonomy : List String :=
  [ocppj.NotImplemented, ocppj.NotSupported, ocppj.InternalError, ocppj.ProtocolError,
   ocppj.FormationViolation, ocppj.PropertyConstraintViolation,
   ocppj.OccurrenceConstraintViolation, ocppj.TypeConstraintViolation,
   ocppj.SecurityError, ocppj.GenericError]

/-! ## Transport and client (package ocppj) -/

/-- The three logical message shapes written to the transport:
`Call = [2, id, action, payload]`, `CallResult = [3, id, payload]`,
`CallError = [4, id, code, description, details]` (details are always nil in
this file and are left out). -/
inductive Frame where
  | Call (id : String) (request : Request)
  | CallResult (id : String) (response : Response)
  | CallError (id : String) (code : String) (description : String)
deriving DecidableEq, Repr

/-- An `ocpp.Profile`: a named set of feature (action) names. -/
structure Profile where
  Name : String
  Features : List String
deriving DecidableEq, Repr

/-- The `ocppj.Client` as far as the charging station uses it: the registered
profiles, and the transport behind it. The transport is an external
collaborator, so the outcome of the n-th write (`none`: written, `some err`:
the write failed) and the correlation id given to a Call at the n-th write are
taken as parameters; `writes` counts the writes made so far. `invalidPayload`
is the error the client returns for a payload it refuses to encode. -/
structure Client where
  profiles : List Profile
  transport : Nat → Frame → Option GoError
  messageId : Nat → String
  writes : Nat
  invalidPayload : GoError

/-- A callback `func(ocpp.Response, error)` held by the callback queue: either
the function a caller passed to `SendRequestAsync` (named by a number), or the
closure of `SendRequest` that delivers the outcome to its channel
`asyncResponseC` (the channel named by a number). -/
inductive Callback where
  | async (fn : Nat)
  | asyncResponseC (chan : Nat)
deriving DecidableEq, Repr

/-- The sixteen handler fields of `chargingStation`. -/
inductive HandlerField where
  | securityHandler
  | provisioningHandler
  | authorizationHandler
  | localAuthListHandler
  | transactionsHandler
  | remoteControlHandler
  | availabilityHandler
  | reservationHandler
  | tariffCostHandler
  | meterHandler
  | smartChargingHandler
  | firmwareHandler
  | iso15118Handler
  | diagnosticsHandler
  | displayHandler
  | dataHandler
deriving DecidableEq, Repr

/-- What an operation does to the outside, in order of occurrence. -/
inductive Effect where
  /-- A frame handed to the transport by `client.SendRequest`,
  `client.SendResponse` or `client.SendError`, with the outcome of the write. -/
  | write (frame : Frame) (result : Option GoError)
  /-- A call of `callbacks.TryQueue(key, send, callback)` with the error it
  returned; the send function is the closure around `request`. -/
  | TryQueue (key : String) (request : Request) (callback : Callback) (err : Option GoError)
  /-- A handler method called with a request. -/
  | handler (field : HandlerField) (method : String) (request : Request)
  /-- A queued callback invoked with `(response, err)`. -/
  | callback (cb : Callback) (response : Option Response) (err : Option GoError)
deriving DecidableEq, Repr

/-- Result of a client write: the error returned, the client afterwards, the effects. -/
structure Written where
  err : Option GoError
  client : Client
  trace : List Effect

/-- One write of a frame to the transport. -/
def Client.writeFrame (c : Client) (frame : Frame) : Written :=
  { err := c.transport c.writes frame
    client := { c with writes := c.writes + 1 }
    trace := [Effect.write frame (c.transport c.writes frame)] }

/-- Modelled from the spec: `ocppj.Client.GetProfileForFeature` is declared in
package `ocppj`, outside the sources at hand. Spec 4.1:
`resolve(actionName) -> Profile | NotFound` over the registered profiles. -/
def Client.GetProfileForFeature (c : Client) (featureName : String) : Option Profile :=
  c.profiles.find? (fun p => p.Features.contains featureName)

/-- Modelled from the spec: `ocppj.Client.SendRequest` is declared in package
`ocppj`, outside the sources at hand. Spec 4.3: the send function "performs the
actual transport write and returns ... an error"; spec 4.2: the Call gets a
fresh correlation id. -/
def Client.SendRequest (c : Client) (request : Request) : Written :=
  c.writeFrame (Frame.Call (c.messageId c.writes) request)

/-- Modelled from the spec: `ocppj.Client.SendResponse` is declared in package
`ocppj`, outside the sources at hand. Spec 6: `CallResult = [3, id, payload]`
is written to the transport. The argument is the pointer held by the
interface value passed in; a nil pointer has no payload: it fails the
validation of the payload (spec 6, payload-schema collaborator), the error
is returned and nothing is written. -/
def Client.SendResponse (c : Client) (requestId : String) (response : Option Response) :
    Written :=
  match response with
  | some r => c.writeFrame (Frame.CallResult requestId r)
  | none => { err := some c.invalidPayload, client := c, trace := [] }

/-- Modelled from the spec: `ocppj.Client.SendError` is declared in package
`ocppj`, outside the sources at hand. Spec 6:
`CallError = [4, id, code, description, details]` is written to the transport. -/
def Client.SendError (c : Client) (requestId : String) (code : String)
    (description : String) : Written :=
  c.writeFrame (Frame.CallError requestId code description)

/-! ## Callback queue (package callbackqueue) -/

/-- A `QueueEntry` of spec section 3: a (send-function, callback) pair. The send
function built by the station is always the closure
`func() error { return cs.client.SendRequest(request) }`, which `send` names by
its request. -/
structure QueueEntry where
  send : Request
  callback : Callback
deriving DecidableEq, Repr

/-- The state kept under one queue key: the flight slot and the ordered buffer. -/
structure Lane where
  inFlight : Option QueueEntry
  buffer : List QueueEntry
deriving DecidableEq, Repr

/-- The `callbackqueue.CallbackQueue`, keyed by a string. -/
structure CallbackQueue where
  lanes : String → Lane
  closed : Bool

/-- Replace the state kept under one key. -/
def CallbackQueue.setLane (q : CallbackQueue) (id : String) (lane : Lane) : CallbackQueue :=
  { q with lanes := Function.update q.lanes id lane }

/-- The error `enqueue` fails with after shutdown (spec 4.3). -/
def QueueClosed : GoError := GoError.errorf "QueueClosed"

/-- Result of `TryQueue`. -/
structure TryQueued where
  err : Option GoError
  queue : CallbackQueue
  client : Client
  trace : List Effect

/-- Modelled from the spec: `callbackqueue.CallbackQueue.TryQueue` is declared
in package `callbackqueue`, outside the sources at hand. Spec 4.3, `enqueue(sendFn,
callback)`: after shutdown it fails with `QueueClosed`; if the slot is Idle the
send function is invoked and the callback registered (the entry is InFlight);
if the slot is InFlight the pair is appended to the buffer and the call returns.
The Go signature returns an `error`: when the send function fails on an Idle
slot, that error is returned and nothing is registered. -/
def CallbackQueue.TryQueue (q : CallbackQueue) (c : Client) (id : String)
    (send : Request) (callback : Callback) : TryQueued :=
  if q.closed then
    { err := some QueueClosed, queue := q, client := c, trace := [] }
  else
    match (q.lanes id).inFlight with
    | some e =>
      { err := none
        queue := q.setLane id ⟨some e, (q.lanes id).buffer ++ [⟨send, callback⟩]⟩
        client := c
        trace := [] }
    | none =>
      let w := c.SendRequest send
      match w.err with
      | some err => { err := some err, queue := q, client := w.client, trace := w.trace }
      | none =>
        { err := none
          queue := q.setLane id ⟨some ⟨send, callback⟩, (q.lanes id).buffer⟩
          client := w.client
          trace := w.trace }

/-- Result of `Dequeue`: the callback and the `ok` flag are one `Option`. -/
structure Dequeued where
  callback : Option Callback
  queue : CallbackQueue
  client : Client
  trace : List Effect

/-- Modelled from the spec: `callbackqueue.CallbackQueue.Dequeue` is declared in
package `callbackqueue`, outside the sources at hand. It is the part of spec 4.3
`resolve` that a call without a correlation id can do (the Go call passes the
key only): hand out the callback of the InFlight entry, free the slot, and, if
the buffer is non-empty, promote its head to InFlight, invoking its send
function. With an Idle slot it reports that there is no callback. -/
def CallbackQueue.Dequeue (q : CallbackQueue) (c : Client) (id : String) : Dequeued :=
  match (q.lanes id).inFlight with
  | none => { callback := none, queue := q, client := c, trace := [] }
  | some e =>
    match (q.lanes id).buffer with
    | [] =>
      { callback := some e.callback
        queue := q.setLane id ⟨none, []⟩
        client := c
        trace := [] }
    | next :: rest =>
      let w := c.SendRequest next.send
      { callback := some e.callback
        queue := q.setLane id ⟨some next, rest⟩
        client := w.client
        trace := w.trace }

/-! ## The charging station -/

/-- A handler installed in one of the sixteen fields: given the name of the
method called and the request, the pair `(response, err)` the method returns.
The response is a pointer to the response struct of the method (`none`: a nil
pointer). -/
abbrev Handler := String → Request → Option Response × Option GoError

/-- A value of the interface type `ocpp.Response` as `sendResponse` receives
it: the nil interface, or an interface that holds a pointer to a response
struct. The pointer held may be nil: the assignment
`response, err = cs.reservationHandler.OnCancelReservation(...)` stores the
pointer the handler returned, nil or not, in a non-nil interface value. -/
inductive ResponseInterface where
  | nil
  | pointer (p : Option Response)
deriving DecidableEq, Repr

/-- The struct `chargingStation`. The sixteen handler fields are one function
of `HandlerField` (`none`: the field is nil); channels are FIFO lists of the
values sent and not yet received; `errC` is `none` while the channel is nil. -/
structure chargingStation where
  client : Client
  handler : HandlerField → Option Handler
  responseHandler : List Response
  errorHandler : List GoError
  callbacks : CallbackQueue
  stopC : List Unit
  errC : Option (List GoError)

/-- Outcome of a station operation that returns nothing: the station
afterwards, the effects performed, and whether the goroutine panicked (a
method call on a nil handler or a failed type assertion). -/
structure Run where
  station : chargingStation
  trace : List Effect
  panicked : Bool

/-- Method `error`: push to the external error channel if it exists. -/
def chargingStation.error (cs : chargingStation) (err : GoError) : chargingStation :=
  match cs.errC with
  | some pending => { cs with errC := some (pending ++ [err]) }
  | none => cs

/-- Method `onRequestTimeout`: a `GenericError` for the request id is sent on
the channel `errorHandler`. -/
def chargingStation.onRequestTimeout (cs : chargingStation) (rID : String)
    (_action : String) (_request : Request) : chargingStation :=
  let err := ocpp.NewError ocppj.GenericError
    "request timed out, no response received from server" rID
  { cs with errorHandler := cs.errorHandler ++ [err] }

/-! ## Constants of the profile packages

The profile names and feature names are constants of the packages
`authorization`, `availability`, ... , `transactions`; of these only
`smartcharging.NotifyEVChargingNeedsFeatureName` is declared in the sources at
hand. -/

/-- Modelled from the spec: constant `authorization.ProfileName`, declared outside the sources
at hand; the name of the capability set (profile) of package `authorization`. -/
def authorization.ProfileName : String := "authorization"

/-- Modelled from the spec: constant `availability.ProfileName`, declared outside the sources
at hand; the name of the capability set (profile) of package `availability`. -/
def availability.ProfileName : String := "availability"

/-- Modelled from the spec: constant `data.ProfileName`, declared outside the sources
at hand; the name of the capability set (profile) of package `data`. -/
def data.ProfileName : String := "data"

/-- Modelled from the spec: constant `diagnostics.ProfileName`, declared outside the sources
at hand; the name of the capability set (profile) of package `diagnostics`. -/
def diagnostics.ProfileName : String := "diagnostics"

/-- Modelled from the spec: constant `display.ProfileName`, declared outside the sources
at hand; the name of the capability set (profile) of package `display`. -/
def display.ProfileName : String := "display"

/-- Modelled from the spec: constant `firmware.ProfileName`, declared outside the sources
at hand; the name of the capability set (profile) of package `firmware`. -/
def firmware.ProfileName : String := "firmware"

/-- Modelled from the spec: constant `iso15118.ProfileName`, declared outside the sources
at hand; the name of the capability set (profile) of package `iso15118`. -/
def iso15118.ProfileName : String := "iso15118"

/-- Modelled from the spec: constant `localauth.ProfileName`, declared outside the sources
at hand; the name of the capability set (profile) of package `localauth`. -/
def localauth.ProfileName : String := "localAuthList"

/-- Modelled from the spec: constant `meter.ProfileName`, declared outside the sources
at hand; the name of the capability set (profile) of package `meter`. -/
def meter.ProfileName : String := "meter"

/-- Modelled from the spec: constant `provisioning.ProfileName`, declared outside the sources
at hand; the name of the capability set (profile) of package `provisioning`. -/
def provisioning.ProfileName : String := "provisioning"

/-- Modelled from the spec: constant `remotecontrol.ProfileName`, declared outside the sources
at hand; the name of the capability set (profile) of package `remotecontrol`. -/
def remotecontrol.ProfileName : String := "remoteControl"

/-- Modelled from the spec: constant `reservation.ProfileName`, declared outside the sources
at hand; the name of the capability set (profile) of package `reservation`. -/
def reservation.ProfileName : String := "reservation"

/-- Modelled from the spec: constant `security.ProfileName`, declared outside the sources
at hand; the name of the capability set (profile) of package `security`. -/
def security.ProfileName : String := "security"

/-- Modelled from the spec: constant `smartcharging.ProfileName`, declared outside the sources
at hand; the name of the capability set (profile) of package `smartcharging`. -/
def smartcharging.ProfileName : String := "smartCharging"

/-- Modelled from the spec: constant `tariffcost.ProfileName`, declared outside the sources
at hand; the name of the capability set (profile) of package `tariffcost`. -/
def tariffcost.ProfileName : String := "tariffCost"

/-- Modelled from the spec: constant `transactions.ProfileName`, declared outside the sources
at hand; the name of the capability set (profile) of package `transactions`. -/
def transactions.ProfileName : String := "transactions"

/-- Modelled from the spec: constant `reservation.CancelReservationFeatureName`, declared outside the
sources at hand; the unique string name of the action (spec section 3). -/
def reservation.CancelReservationFeatureName : String := "CancelReservation"

/-- Modelled from the spec: constant `security.CertificateSignedFeatureName`, declared outside the
sources at hand; the unique string name of the action (spec section 3). -/
def security.CertificateSignedFeatureName : String := "CertificateSigned"

/-- Modelled from the spec: constant `availability.ChangeAvailabilityFeatureName`, declared outside the
sources at hand; the unique string name of the action (spec section 3). -/
def availability.ChangeAvailabilityFeatureName : String := "ChangeAvailability"

/-- Modelled from the spec: constant `authorization.ClearCacheFeatureName`, declared outside the
sources at hand; the unique string name of the action (spec section 3). -/
def authorization.ClearCacheFeatureName : String := "ClearCache"

/-- Modelled from the spec: constant `smartcharging.ClearChargingProfileFeatureName`, declared outside the
sources at hand; the unique string name of the action (spec section 3). -/
def smartcharging.ClearChargingProfileFeatureName : String := "ClearChargingProfile"

/-- Modelled from the spec: constant `display.ClearDisplayFeatureName`, declared outside the
sources at hand; the unique string name of the action (spec section 3). -/
def display.ClearDisplayFeatureName : String := "ClearDisplay"

/-- Modelled from the spec: constant `diagnostics.ClearVariableMonitoringFeatureName`, declared outside the
sources at hand; the unique string name of the action (spec section 3). -/
def diagnostics.ClearVariableMonitoringFeatureName : String := "ClearVariableMonitoring"

/-- Modelled from the spec: constant `tariffcost.CostUpdatedFeatureName`, declared outside the
sources at hand; the unique string name of the action (spec section 3). -/
def tariffcost.CostUpdatedFeatureName : String := "CostUpdated"

/-- Modelled from the spec: constant `diagnostics.CustomerInformationFeatureName`, declared outside the
sources at hand; the unique string name of the action (spec section 3). -/
def diagnostics.CustomerInformationFeatureName : String := "CustomerInformation"

/-- Modelled from the spec: constant `data.DataTransferFeatureName`, declared outside the
sources at hand; the unique string name of the action (spec section 3). -/
def data.DataTransferFeatureName : String := "DataTransfer"

/-- Modelled from the spec: constant `iso15118.DeleteCertificateFeatureName`, declared outside the
sources at hand; the unique string name of the action (spec section 3). -/
def iso15118.DeleteCertificateFeatureName : String := "DeleteCertificate"

/-- Modelled from the spec: constant `provisioning.GetBaseReportFeatureName`, declared outside the
sources at hand; the unique string name of the action (spec section 3). -/
def provisioning.GetBaseReportFeatureName : String := "GetBaseReport"

/-- Modelled from the spec: constant `smartcharging.GetChargingProfilesFeatureName`, declared outside the
sources at hand; the unique string name of the action (spec section 3). -/
def smartcharging.GetChargingProfilesFeatureName : String := "GetChargingProfiles"

/-- Modelled from the spec: constant `smartcharging.GetCompositeScheduleFeatureName`, declared outside the
sources at hand; the unique string name of the action (spec section 3). -/
def smartcharging.GetCompositeScheduleFeatureName : String := "GetCompositeSchedule"

/-- Modelled from the spec: constant `display.GetDisplayMessagesFeatureName`, declared outside the
sources at hand; the unique string name of the action (spec section 3). -/
def display.GetDisplayMessagesFeatureName : String := "GetDisplayMessages"

/-- Modelled from the spec: constant `iso15118.GetInstalledCertificateIdsFeatureName`, declared outside the
sources at hand; the unique string name of the action (spec section 3). -/
def iso15118.GetInstalledCertificateIdsFeatureName : String := "GetInstalledCertificateIds"

/-- Modelled from the spec: constant `localauth.GetLocalListVersionFeatureName`, declared outside the
sources at hand; the unique string name of the action (spec section 3). -/
def localauth.GetLocalListVersionFeatureName : String := "GetLocalListVersion"

/-- Modelled from the spec: constant `diagnostics.GetLogFeatureName`, declared outside the
sources at hand; the unique string name of the action (spec section 3). -/
def diagnostics.GetLogFeatureName : String := "GetLog"

/-- Modelled from the spec: constant `diagnostics.GetMonitoringReportFeatureName`, declared outside the
sources at hand; the unique string name of the action (spec section 3). -/
def diagnostics.GetMonitoringReportFeatureName : String := "GetMonitoringReport"

/-- Modelled from the spec: constant `authorization.AuthorizeFeatureName`, declared outside the
sources at hand; the unique string name of the action (spec section 3). -/
def authorization.AuthorizeFeatureName : String := "Authorize"

/-- Modelled from the spec: constant `provisioning.BootNotificationFeatureName`, declared outside the
sources at hand; the unique string name of the action (spec section 3). -/
def provisioning.BootNotificationFeatureName : String := "BootNotification"

/-- Modelled from the spec: constant `smartcharging.ClearedChargingLimitFeatureName`, declared outside the
sources at hand; the unique string name of the action (spec section 3). -/
def smartcharging.ClearedChargingLimitFeatureName : String := "ClearedChargingLimit"

/-- Modelled from the spec: constant `firmware.FirmwareStatusNotificationFeatureName`, declared outside the
sources at hand; the unique string name of the action (spec section 3). -/
def firmware.FirmwareStatusNotificationFeatureName : String := "FirmwareStatusNotification"

/-- Modelled from the spec: constant `iso15118.Get15118EVCertificateFeatureName`, declared outside the
sources at hand; the unique string name of the action (spec section 3). -/
def iso15118.Get15118EVCertificateFeatureName : String := "Get15118EVCertificate"

/-- Modelled from the spec: constant `iso15118.GetCertificateStatusFeatureName`, declared outside the
sources at hand; the unique string name of the action (spec section 3). -/
def iso15118.GetCertificateStatusFeatureName : String := "GetCertificateStatus"

/-- The constant `smartcharging.NotifyEVChargingNeedsFeatureName`. -/
def smartcharging.NotifyEVChargingNeedsFeatureName : String := "NotifyEVChargingNeeds"

/-! ## Outbound: SendRequest and SendRequestAsync -/

/-- Where `SendRequest` stands when its synchronous part is over: it has
returned `(response, err)`, or it is blocked receiving from its channel
`asyncResponseC`, to which the queued callback will deliver the outcome. -/
inductive SendRequestState where
  | returned (response : Option Response) (err : Option GoError)
  | awaiting (asyncResponseC : Nat)
deriving DecidableEq, Repr

/-- Outcome of `SendRequest` up to the receive on `asyncResponseC`. -/
structure SendRequestRun where
  station : chargingStation
  trace : List Effect
  state : SendRequestState

/-- Method `SendRequest`, up to the receive on `asyncResponseC`; `chan` names
the channel made for this call. -/
def chargingStation.SendRequest (cs : chargingStation) (request : Request) (chan : Nat) :
    SendRequestRun :=
  let featureName := request.GetFeatureName
  match cs.client.GetProfileForFeature featureName with
  | none =>
    { station := cs
      trace := []
      state := .returned none (some (GoError.errorf ("feature " ++ featureName ++
        " is unsupported on charging station (missing profile), cannot send request"))) }
  | some _ =>
    let queued := cs.callbacks.TryQueue cs.client "main" request (Callback.asyncResponseC chan)
    let cs1 := { cs with callbacks := queued.queue, client := queued.client }
    let trace :=
      Effect.TryQueue "main" request (Callback.asyncResponseC chan) queued.err :: queued.trace
    match queued.err with
    | some err => { station := cs1, trace := trace, state := .returned none (some err) }
    | none => { station := cs1, trace := trace, state := .awaiting chan }

/-- The receive `asyncResult, ok := <-asyncResponseC` and the return that
follows it: `some (r, e)` is the value the callback delivered, `none` a closed
channel. -/
def chargingStation.SendRequest.receive (request : Request)
    (asyncResult : Option (Option Response × Option GoError)) :
    Option Response × Option GoError :=
  match asyncResult with
  | none => (none, some (GoError.errorf ("internal error while receiving result for " ++
      request.GetFeatureName ++ " request")))
  | some (r, e) => (r, e)

/-- The feature names accepted by the switch of `SendRequestAsync`. -/
def SendRequestAsync.featureNames : List String :=
  [authorization.AuthorizeFeatureName, provisioning.BootNotificationFeatureName, smartcharging.ClearedChargingLimitFeatureName, data.DataTransferFeatureName,
   firmware.FirmwareStatusNotificationFeatureName, iso15118.Get15118EVCertificateFeatureName,
   iso15118.GetCertificateStatusFeatureName]

/-- Outcome of `SendRequestAsync`. -/
structure SendRequestAsyncRun where
  station : chargingStation
  trace : List Effect
  err : Option GoError

/-- Method `SendRequestAsync`. -/
def chargingStation.SendRequestAsync (cs : chargingStation) (request : Request)
    (callback : Callback) : SendRequestAsyncRun :=
  let featureName := request.GetFeatureName
  match cs.client.GetProfileForFeature featureName with
  | none =>
    { station := cs
      trace := []
      err := some (GoError.errorf ("feature " ++ featureName ++
        " is unsupported on charging station (missing profile), cannot send request")) }
  | some _ =>
    if featureName ∈ SendRequestAsync.featureNames then
      let queued := cs.callbacks.TryQueue cs.client "main" request callback
      { station := { cs with callbacks := queued.queue, client := queued.client }
        trace := Effect.TryQueue "main" request callback queued.err :: queued.trace
        err := queued.err }
    else
      { station := cs
        trace := []
        err := some (GoError.errorf ("unsupported action " ++ featureName ++
          " on charging station, cannot send request")) }

/-! ## The reply loop -/

/-- The cases of the `select` in `asyncCallbackHandler`. -/
inductive SelectCase where
  | responseHandler
  | errorHandler
  | stopC
deriving DecidableEq, Repr

/-- Outcome of one iteration of the loop of `asyncCallbackHandler`; `returned`
tells that the function has returned (the stop case). -/
structure Iteration where
  station : chargingStation
  trace : List Effect
  returned : Bool

/-- One iteration of the `for`/`select` loop of `asyncCallbackHandler`, for the
case that `select` takes; `none` when that channel holds no value (the case is
not ready). -/
def chargingStation.asyncCallbackHandler (cs : chargingStation) (ready : SelectCase) :
    Option Iteration :=
  match ready with
  | .responseHandler =>
    match cs.responseHandler with
    | [] => none
    | confirmation :: pending =>
      let d := cs.callbacks.Dequeue cs.client "main"
      let cs1 := { cs with responseHandler := pending, callbacks := d.queue, client := d.client }
      match d.callback with
      | some callback =>
        some { station := cs1
               trace := d.trace ++ [Effect.callback callback (some confirmation) none]
               returned := false }
      | none =>
        some { station := cs1.error (GoError.errorf
                 ("no callback available for incoming response " ++ confirmation.GetFeatureName))
               trace := d.trace
               returned := false }
  | .errorHandler =>
    match cs.errorHandler with
    | [] => none
    | protoError :: pending =>
      let d := cs.callbacks.Dequeue cs.client "main"
      let cs1 := { cs with errorHandler := pending, callbacks := d.queue, client := d.client }
      match d.callback with
      | some callback =>
        some { station := cs1
               trace := d.trace ++ [Effect.callback callback none (some protoError)]
               returned := false }
      | none =>
        some { station := cs1.error (GoError.errorf
                 ("no callback available for incoming error " ++ protoError.Error))
               trace := d.trace
               returned := false }
  | .stopC =>
    match cs.stopC with
    | [] => none
    | _ :: pending => some { station := { cs with stopC := pending }, trace := [], returned := true }

/-! ## Inbound: replies to a Call -/

/-- Method `sendResponse`. The test `response == nil` holds of the nil
interface only. -/
def chargingStation.sendResponse (cs : chargingStation) (response : ResponseInterface)
    (err : Option GoError) (requestId : String) : Run :=
  match err with
  | some e =>
    let w := cs.client.SendError requestId ocppj.ProtocolError e.Error
    let cs1 := { cs with client := w.client }
    match w.err with
    | some e1 =>
      { station := cs1.error (GoError.errorf ("replying cs to request " ++ requestId ++
          " with \x27protocol error\x27: " ++ e1.Error))
        trace := w.trace, panicked := false }
    | none => { station := cs1, trace := w.trace, panicked := false }
  | none =>
    match response with
    | .nil =>
      { station := cs.error (GoError.errorf ("empty response to request " ++ requestId))
        trace := [], panicked := false }
    | .pointer r =>
      let w := cs.client.SendResponse requestId r
      let cs1 := { cs with client := w.client }
      match w.err with
      | some e1 =>
        { station := cs1.error (GoError.errorf ("replying to request " ++ requestId ++
            " with \x27protocol error\x27: " ++ e1.Error))
          trace := w.trace, panicked := false }
      | none => { station := cs1, trace := w.trace, panicked := false }

/-- Method `notImplementedError`. -/
def chargingStation.notImplementedError (cs : chargingStation) (requestId : String)
    (action : String) : Run :=
  let w := cs.client.SendError requestId ocppj.NotImplemented
    ("no handler for action " ++ action ++ " implemented")
  let cs1 := { cs with client := w.client }
  match w.err with
  | some e1 =>
    { station := cs1.error (GoError.errorf ("replying csms to request " ++ requestId ++
        " with error: " ++ e1.Error))
      trace := w.trace, panicked := false }
  | none => { station := cs1, trace := w.trace, panicked := false }

/-- Method `notSupportedError`. -/
def chargingStation.notSupportedError (cs : chargingStation) (requestId : String)
    (action : String) : Run :=
  let w := cs.client.SendError requestId ocppj.NotSupported
    ("unsupported action " ++ action ++ " on charging station")
  let cs1 := { cs with client := w.client }
  match w.err with
  | some e1 =>
    { station := cs1.error (GoError.errorf ("replying csms to request " ++ requestId ++
        " with \x27not supported\x27: " ++ e1.Error))
      trace := w.trace, panicked := false }
  | none => { station := cs1, trace := w.trace, panicked := false }

/-! ## Inbound: dispatch -/

/-- The first switch of `handleIncomingRequest`, on `profile.Name`: the handler
field that the case of that name inspects; `none` when no case matches. -/
def handleIncomingRequest.profileCase (name : String) : Option HandlerField :=

  if name = authorization.ProfileName then some .authorizationHandler
  else if name = availability.ProfileName then some .availabilityHandler
  else if name = data.ProfileName then some .dataHandler
  else if name = diagnostics.ProfileName then some .diagnosticsHandler
  else if name = display.ProfileName then some .displayHandler
  else if name = firmware.ProfileName then some .firmwareHandler
  else if name = iso15118.ProfileName then some .iso15118Handler
  else if name = localauth.ProfileName then some .localAuthListHandler
  else if name = meter.ProfileName then some .meterHandler
  else if name = provisioning.ProfileName then some .provisioningHandler
  else if name = remotecontrol.ProfileName then some .remoteControlHandler
  else if name = reservation.ProfileName then some .reservationHandler
  else if name = security.ProfileName then some .securityHandler
  else if name = smartcharging.ProfileName then some .smartChargingHandler
  else if name = tariffcost.ProfileName then some .tariffCostHandler
  else if name = transactions.ProfileName then some .transactionsHandler
  else none


/-- The value of `supported` after the first switch of `handleIncomingRequest`:
it starts true and is set false in the case of the profile name when that
case finds its handler field nil. -/
def chargingStation.supported (cs : chargingStation) (profile : Profile) : Bool :=
  match handleIncomingRequest.profileCase profile.Name with
  | some field => (cs.handler field).isSome
  | none => true

/-- The second switch of `handleIncomingRequest`, on `action`: the handler
field whose method the case calls, and the name of that method; `none` is the
default case. The request type asserted in the case is the one whose feature
name is the case constant. -/
def handleIncomingRequest.actionCase (action : String) : Option (HandlerField × String) :=

  if action = reservation.CancelReservationFeatureName then
    some (.reservationHandler, "OnCancelReservation")
  else if action = security.CertificateSignedFeatureName then
    some (.securityHandler, "OnCertificateSigned")
  else if action = availability.ChangeAvailabilityFeatureName then
    some (.availabilityHandler, "OnChangeAvailability")
  else if action = authorization.ClearCacheFeatureName then
    some (.authorizationHandler, "OnClearCache")
  else if action = smartcharging.ClearChargingProfileFeatureName then
    some (.smartChargingHandler, "OnClearChargingProfile")
  else if action = display.ClearDisplayFeatureName then
    some (.displayHandler, "OnClearDisplay")
  else if action = diagnostics.ClearVariableMonitoringFeatureName then
    some (.diagnosticsHandler, "OnClearVariableMonitoring")
  else if action = tariffcost.CostUpdatedFeatureName then
    some (.tariffCostHandler, "OnCostUpdated")
  else if action = diagnostics.CustomerInformationFeatureName then
    some (.diagnosticsHandler, "OnCustomerInformation")
  else if action = data.DataTransferFeatureName then
    some (.dataHandler, "OnDataTransfer")
  else if action = iso15118.DeleteCertificateFeatureName then
    some (.iso15118Handler, "OnDeleteCertificate")
  else if action = provisioning.GetBaseReportFeatureName then
    some (.provisioningHandler, "OnGetBaseReport")
  else if action = smartcharging.GetChargingProfilesFeatureName then
    some (.smartChargingHandler, "OnGetChargingProfiles")
  else if action = smartcharging.GetCompositeScheduleFeatureName then
    some (.smartChargingHandler, "OnGetCompositeSchedule")
  else if action = display.GetDisplayMessagesFeatureName then
    some (.displayHandler, "OnGetDisplayMessages")
  else if action = iso15118.GetInstalledCertificateIdsFeatureName then
    some (.iso15118Handler, "OnGetInstalledCertificateIds")
  else if action = localauth.GetLocalListVersionFeatureName then
    some (.localAuthListHandler, "OnGetLocalListVersion")
  else if action = diagnostics.GetLogFeatureName then
    some (.diagnosticsHandler, "OnGetLog")
  else if action = diagnostics.GetMonitoringReportFeatureName then
    some (.diagnosticsHandler, "OnGetMonitoringReport")
  else none


/-- Method `handleIncomingRequest`. -/
def chargingStation.handleIncomingRequest (cs : chargingStation) (request : Request)
    (requestId : String) (action : String) : Run :=
  match cs.client.GetProfileForFeature action with
  | none => cs.notImplementedError requestId action
  | some profile =>
    if !cs.supported profile then
      cs.notSupportedError requestId action
    else
      match handleIncomingRequest.actionCase action with
      | none => cs.notSupportedError requestId action
      | some (field, method) =>
        match cs.handler field with
        | none => { station := cs, trace := [], panicked := true }
        | some h =>
          if request.GetFeatureName = action then
            let (response, err) := h method request
            let r := cs.sendResponse (ResponseInterface.pointer response) err requestId
            { r with trace := Effect.handler field method request :: r.trace }
          else
            { station := cs, trace := [], panicked := true }

/-! ## Concrete stations used to evaluate the definitions -/

/-- A transport on which every write succeeds. -/
def Examples.reliable : Nat → Frame → Option GoError := fun _ _ => none

/-- Correlation ids "1", "2", "3", ... for the first writes. -/
def Examples.ids : Nat → String := fun n =>
  if n = 0 then "1" else if n = 1 then "2" else if n = 2 then "3" else "4"

/-- The error with which the client of the examples refuses a payload. -/
def Examples.invalidPayload : GoError := GoError.errorf "invalid payload"

/-- A callback queue with every slot Idle and every buffer empty. -/
def Examples.idleQueue : CallbackQueue := ⟨fun _ => ⟨none, []⟩, false⟩

/-- A station with the given profiles and handlers, a reliable transport, an
idle callback queue, empty channels and an existing, empty error channel. -/
def Examples.station (profiles : List Profile) (handler : HandlerField → Option Handler) :
    chargingStation :=
  { client := ⟨profiles, Examples.reliable, Examples.ids, 0, Examples.invalidPayload⟩
    handler := handler
    responseHandler := []
    errorHandler := []
    callbacks := Examples.idleQueue
    stopC := []
    errC := some [] }

/-- No handler field is set. -/
def Examples.noHandlers : HandlerField → Option Handler := fun _ => none

/-- A request of the given feature with an empty payload object. -/
def Examples.request (featureName : String) : Request := ⟨featureName, "\x7b\x7d"⟩

/-- A handler whose every method returns the response "ok" of the request's
feature and a nil error. -/
def Examples.okHandler : Handler := fun _ request => (some ⟨request.GetFeatureName, "ok"⟩, none)

/-- A handler whose every method returns `(nil, nil)`. -/
def Examples.silentHandler : Handler := fun _ _ => (none, none)

/-- Only the field `reservationHandler` is set, to the given handler. -/
def Examples.onlyReservation (h : Handler) : HandlerField → Option Handler := fun field =>
  if field = HandlerField.reservationHandler then some h else none

/-- A profile with a name outside the sixteen built-in ones that lists the
action CancelReservation. -/
def Examples.customProfile : Profile := ⟨"custom", ["CancelReservation"]⟩

/-- The profile of the spec scenario, P = ["Ping"]. -/
def Examples.pingProfile : Profile := ⟨"P", ["Ping"]⟩

/-- The reservation profile under its built-in name. -/
def Examples.reservationProfile : Profile := ⟨"reservation", ["CancelReservation"]⟩

/-! ## Executions: sends, deliveries and loop iterations in any order -/

/-- The operations that act on a started station. -/
inductive Op where
  /-- A caller runs `SendRequest` (up to its receive on the channel `chan`). -/
  | SendRequest (request : Request) (chan : Nat)
  /-- A caller runs `SendRequestAsync`. -/
  | SendRequestAsync (request : Request) (callback : Callback)
  /-- A received response is sent on the channel `responseHandler`. -/
  | response (confirmation : Response)
  /-- A received error is sent on the channel `errorHandler`. -/
  | error (protoError : GoError)
  /-- The timeout hook `onRequestTimeout` runs. -/
  | onRequestTimeout (rID : String) (action : String) (request : Request)
  /-- The loop of `asyncCallbackHandler` runs one iteration, taking the given case. -/
  | asyncCallbackHandler (ready : SelectCase)
deriving DecidableEq, Repr

/-- A station in the course of an execution: the station, the effects so far,
and whether `asyncCallbackHandler` has returned. -/
structure Execution where
  station : chargingStation
  trace : List Effect
  returned : Bool

/-- One operation of an execution. An iteration whose case is not ready, or that
is asked of a loop that has returned, changes nothing. -/
def Execution.perform (x : Execution) : Op → Execution
  | .SendRequest request chan =>
    { x with station := (x.station.SendRequest request chan).station
             trace := x.trace ++ (x.station.SendRequest request chan).trace }
  | .SendRequestAsync request callback =>
    { x with station := (x.station.SendRequestAsync request callback).station
             trace := x.trace ++ (x.station.SendRequestAsync request callback).trace }
  | .response confirmation =>
    { x with station :=
        { x.station with responseHandler := x.station.responseHandler ++ [confirmation] } }
  | .error protoError =>
    { x with station :=
        { x.station with errorHandler := x.station.errorHandler ++ [protoError] } }
  | .onRequestTimeout rID action request =>
    { x with station := x.station.onRequestTimeout rID action request }
  | .asyncCallbackHandler ready =>
    if x.returned then x
    else
      match x.station.asyncCallbackHandler ready with
      | none => x
      | some it =>
        { station := it.station, trace := x.trace ++ it.trace, returned := it.returned }

/-- The execution of a list of operations on a station whose loop is running. -/
def chargingStation.execute (cs : chargingStation) (ops : List Op) : Execution :=
  ops.foldl Execution.perform ⟨cs, [], false⟩

/-- The callback of a callback invocation. -/
def Effect.invoked? : Effect → Option Callback
  | .callback cb _ _ => some cb
  | _ => none

/-- The callback of a `TryQueue` call that returned nil (an accepted send). -/
def Effect.accepted? : Effect → Option Callback
  | .TryQueue _ _ cb none => some cb
  | _ => none

/-- The request of a `TryQueue` call that returned an error (a rejected send). -/
def Effect.rejected? : Effect → Option Request
  | .TryQueue _ request _ (some _) => some request
  | _ => none

/-- The request of a `TryQueue` call. -/
def Effect.submitted? : Effect → Option Request
  | .TryQueue _ request _ _ => some request
  | _ => none

/-- The entry (send function, callback) of a `TryQueue` call. -/
def Effect.entry? : Effect → Option QueueEntry
  | .TryQueue _ request cb _ => some ⟨request, cb⟩
  | _ => none

/-- The request of a Call handed to the transport (an invocation of a send function). -/
def Effect.call? : Effect → Option Request
  | .write (Frame.Call _ request) _ => some request
  | _ => none

/-- The callbacks invoked in a trace, in order. -/
def invokedCallbacks (trace : List Effect) : List Callback := trace.filterMap Effect.invoked?

/-- The callbacks of the accepted sends of a trace, in submission order. -/
def acceptedCallbacks (trace : List Effect) : List Callback := trace.filterMap Effect.accepted?

/-- The requests of the rejected sends of a trace. -/
def rejectedRequests (trace : List Effect) : List Request := trace.filterMap Effect.rejected?

/-- The requests submitted to the queue in a trace, in submission order. -/
def submittedRequests (trace : List Effect) : List Request := trace.filterMap Effect.submitted?

/-- The entries submitted to the queue in a trace, in submission order. -/
def submittedEntries (trace : List Effect) : List QueueEntry := trace.filterMap Effect.entry?

/-- The requests written to the transport as Calls in a trace, in order. -/
def writtenCalls (trace : List Effect) : List Request := trace.filterMap Effect.call?

/-- The entries a lane holds, the InFlight one first, then the buffer in order. -/
def Lane.pending (lane : Lane) : List QueueEntry := lane.inFlight.toList ++ lane.buffer

/-- The lane of the key "main", the only key the station uses. -/
def chargingStation.main (cs : chargingStation) : Lane := cs.callbacks.lanes "main"

/-- The lane after the InFlight entry is resolved: the head of the buffer is
promoted. -/
def Lane.resolved (lane : Lane) : Lane := ⟨lane.buffer.head?, lane.buffer.tail⟩

/-- What an execution keeps true of the lane "main" and the trace: the queue is
open, an Idle slot has an empty buffer, the accepted callbacks are those
invoked followed by those pending, the submitted requests are those written
followed by those buffered, and every written Call is resolved, rejected or
the one InFlight. -/
structure Execution.Consistent (x : Execution) : Prop where
  isOpen : x.station.callbacks.closed = false
  idleEmpty : x.station.main.inFlight = none → x.station.main.buffer = []
  fifo : acceptedCallbacks x.trace =
    invokedCallbacks x.trace ++ x.station.main.pending.map QueueEntry.callback
  order : submittedRequests x.trace =
    writtenCalls x.trace ++ x.station.main.buffer.map QueueEntry.send
  flight : (writtenCalls x.trace).length =
    (invokedCallbacks x.trace).length + (rejectedRequests x.trace).length +
      x.station.main.inFlight.toList.length

/-- The callback invocations of a trace, with the outcomes passed. -/
def callbackEffects (trace : List Effect) : List Effect :=
  trace.filter (fun effect => effect.invoked?.isSome)

/-- The error `onRequestTimeout` builds for a request id. -/
def timeoutError (rID : String) : GoError :=
  ocpp.NewError ocppj.GenericError "request timed out, no response received from server" rID

/-- A station with profile authorization = [Authorize] and no handlers. -/
def Examples.authorizeStation : chargingStation :=
  Examples.station [⟨"authorization", ["Authorize"]⟩] Examples.noHandlers

/-- An error reply whose correlation id is "2". -/
def Examples.strayError : GoError := GoError.ocpp "GenericError" "stray reply" "2"

/-- A response whose feature is Authorize. -/
def Examples.authorizeResponse : Response := ⟨"Authorize", "accepted"⟩

/-- A station whose lane "main" holds one InFlight entry (an Authorize request
with callback number 7) and whose channels each hold one value. -/
def Examples.busyStation : chargingStation :=
  { Examples.authorizeStation with
    callbacks := Examples.idleQueue.setLane "main"
      ⟨some ⟨Examples.request "Authorize", Callback.async 7⟩, []⟩
    responseHandler := [Examples.authorizeResponse]
    errorHandler := [Examples.strayError] }

/-- The station `Examples.busyStation` with empty channels. -/
def Examples.waitingStation : chargingStation :=
  { Examples.busyStation with responseHandler := [], errorHandler := [] }

/-- Whether an operation is a call of `SendRequest` or `SendRequestAsync`. -/
def Op.isSend : Op → Bool
  | .SendRequest _ _ => true
  | .SendRequestAsync _ _ => true
  | _ => false

/-- A history on `Examples.authorizeStation`: an asynchronous and a synchronous
Authorize are submitted, a response is received and consumed. -/
def Examples.history : List Op :=
  [Op.SendRequestAsync (Examples.request "Authorize") (Callback.async 1),
   Op.SendRequest (Examples.request "Authorize") 2,
   Op.response Examples.authorizeResponse,
   Op.asyncCallbackHandler SelectCase.responseHandler]

/-- Two sends submitted in a row. -/
def Examples.burst : List Op :=
  [Op.SendRequestAsync (Examples.request "Authorize") (Callback.async 3),
   Op.SendRequest (Examples.request "Authorize") 4]

/-! ## Lifecycle -/

/-- Method `Stop`: it calls `client.Stop()` and nothing else. The method
`ocppj.Client.Stop` is declared in package `ocppj`, outside the sources at
hand: what it does to the client is the parameter `clientStop`. The fields of
the station other than `client` are not passed to it. -/
def chargingStation.Stop (cs : chargingStation) (clientStop : Client → Client) :
    chargingStation :=
  { cs with client := clientStop cs.client }

/-- Three Authorize sends in a row on `Examples.authorizeStation`: the first
becomes InFlight, the other two are buffered. -/
def Examples.threeSends : List Op :=
  [Op.SendRequestAsync (Examples.request "Authorize") (Callback.async 1),
   Op.SendRequestAsync (Examples.request "Authorize") (Callback.async 2),
   Op.SendRequestAsync (Examples.request "Authorize") (Callback.async 3)]

/-- The station after `Examples.threeSends` and a call of `Stop` whose
`client.Stop()` leaves the client record as it is. -/
def Examples.stoppedStation : chargingStation :=
  (Examples.authorizeStation.execute Examples.threeSends).station.Stop id

/-! ## The synchronous typed operations -/

/-- How a typed operation ends: it returns `(response, err)`, or the type
assertion on the response panics. -/
inductive TypedReturn where
  | returned (response : Option Response) (err : Option GoError)
  | panicked
deriving DecidableEq, Repr

/-- The statement that ends each typed operation,
`if err != nil return nil, err else return response.(*T), err`, where `T` is
the response type whose feature name is `responseType`. The assertion panics
on a nil interface and on a value of another dynamic type. -/
def typedReturn (responseType : String) (response : Option Response)
    (err : Option GoError) : TypedReturn :=
  match err with
  | some e => TypedReturn.returned none (some e)
  | none =>
    match response with
    | none => TypedReturn.panicked
    | some r =>
      if r.GetFeatureName = responseType then TypedReturn.returned (some r) none
      else TypedReturn.panicked

/-- What `SendRequest` returns: the pair it returned before queueing, or, once
it waits on its channel, the pair made from the value received there
(`asyncResult`, see `chargingStation.SendRequest.receive`). -/
def chargingStation.SendRequest.returned (request : Request) (state : SendRequestState)
    (asyncResult : Option (Option Response × Option GoError)) :
    Option Response × Option GoError :=
  match state with
  | .returned response err => (response, err)
  | .awaiting _ => chargingStation.SendRequest.receive request asyncResult

/-- The pair a trace delivers to the callback of `SendRequest` whose channel is
`chan`: the arguments of the first invocation of that callback. -/
def delivered (chan : Nat) (trace : List Effect) :
    Option (Option Response × Option GoError) :=
  trace.findSome? (fun effect =>
    match effect with
    | .callback (.asyncResponseC c) response err => if c = chan then some (response, err) else none
    | _ => none)

/-- Method `BootNotification`, from the pair `(response, err)` that `SendRequest` returned
for its request; the request is built by `provisioning.NewBootNotificationRequest` and the
`props`, both outside the sources at hand, and has the request type of BootNotification. -/
def chargingStation.BootNotification (response : Option Response) (err : Option GoError) :
    TypedReturn :=
  typedReturn provisioning.BootNotificationFeatureName response err

/-- Method `Authorize`, from the pair `(response, err)` that `SendRequest` returned
for its request; the request is built by `authorization.NewAuthorizationRequest` and the
`props`, both outside the sources at hand, and has the request type of Authorize. -/
def chargingStation.Authorize (response : Option Response) (err : Option GoError) :
    TypedReturn :=
  typedReturn authorization.AuthorizeFeatureName response err

/-- Method `ClearedChargingLimit`, from the pair `(response, err)` that `SendRequest` returned
for its request; the request is built by `smartcharging.NewClearedChargingLimitRequest` and the
`props`, both outside the sources at hand, and has the request type of ClearedChargingLimit. -/
def chargingStation.ClearedChargingLimit (response : Option Response) (err : Option GoError) :
    TypedReturn :=
  typedReturn smartcharging.ClearedChargingLimitFeatureName response err

/-- Method `DataTransfer`, from the pair `(response, err)` that `SendRequest` returned
for its request; the request is built by `data.NewDataTransferRequest` and the
`props`, both outside the sources at hand, and has the request type of DataTransfer. -/
def chargingStation.DataTransfer (response : Option Response) (err : Option GoError) :
    TypedReturn :=
  typedReturn data.DataTransferFeatureName response err

/-- Method `FirmwareStatusNotification`, from the pair `(response, err)` that `SendRequest` returned
for its request; the request is built by `firmware.NewFirmwareStatusNotificationRequest` and the
`props`, both outside the sources at hand, and has the request type of FirmwareStatusNotification. -/
def chargingStation.FirmwareStatusNotification (response : Option Response) (err : Option GoError) :
    TypedReturn :=
  typedReturn firmware.FirmwareStatusNotificationFeatureName response err

/-- Method `Get15118EVCertificate`, from the pair `(response, err)` that `SendRequest` returned
for its request; the request is built by `iso15118.NewGet15118EVCertificateRequest` and the
`props`, both outside the sources at hand, and has the request type of Get15118EVCertificate. -/
def chargingStation.Get15118EVCertificate (response : Option Response) (err : Option GoError) :
    TypedReturn :=
  typedReturn iso15118.Get15118EVCertificateFeatureName response err

/-- Method `GetCertificateStatus`, from the pair `(response, err)` that `SendRequest` returned
for its request; the request is built by `iso15118.NewGetCertificateStatusRequest` and the
`props`, both outside the sources at hand, and has the request type of GetCertificateStatus. -/
def chargingStation.GetCertificateStatus (response : Option Response) (err : Option GoError) :
    TypedReturn :=
  typedReturn iso15118.GetCertificateStatusFeatureName response err

/-- The seven typed operations, each with the feature name of its response type. -/
def typedOperations : List (String × (Option Response → Option GoError → TypedReturn)) :=
  [(provisioning.BootNotificationFeatureName, chargingStation.BootNotification),
   (authorization.AuthorizeFeatureName, chargingStation.Authorize),
   (smartcharging.ClearedChargingLimitFeatureName, chargingStation.ClearedChargingLimit),
   (data.DataTransferFeatureName, chargingStation.DataTransfer),
   (firmware.FirmwareStatusNotificationFeatureName, chargingStation.FirmwareStatusNotification),
   (iso15118.Get15118EVCertificateFeatureName, chargingStation.Get15118EVCertificate),
   (iso15118.GetCertificateStatusFeatureName, chargingStation.GetCertificateStatus)]

/-- A station with profile provisioning = [BootNotification] and no handlers. -/
def Examples.bootStation : chargingStation :=
  Examples.station [⟨"provisioning", ["BootNotification"]⟩] Examples.noHandlers

/-- A BootNotification is sent with `SendRequest` (channel 0); a response of
another feature, Authorize, is received and consumed. -/
def Examples.crossedReply : List Op :=
  [Op.SendRequest (Examples.request "BootNotification") 0,
   Op.response Examples.authorizeResponse,
   Op.asyncCallbackHandler SelectCase.responseHandler]

/-- A station whose lane "main" holds one InFlight BootNotification sent with
`SendRequest` on channel 0, a BootNotification response and an error waiting
on the channels. -/
def Examples.bootWaiting : chargingStation :=
  { Examples.bootStation with
    callbacks := Examples.idleQueue.setLane "main"
      ⟨some ⟨Examples.request "BootNotification", Callback.asyncResponseC 0⟩, []⟩
    responseHandler := [⟨"BootNotification", "accepted"⟩]
    errorHandler := [Examples.strayError] }

/-! ## Further stations and tables for the dispatch -/

/-- A station whose only profile is smartCharging = [NotifyEVChargingNeeds],
with no handlers. -/
def Examples.notifyStation : chargingStation :=
  Examples.station [⟨"smartCharging", ["NotifyEVChargingNeeds"]⟩] Examples.noHandlers

/-- Only the field `smartChargingHandler` is set, to the given handler. -/
def Examples.onlySmartCharging (h : Handler) : HandlerField → Option Handler := fun field =>
  if field = HandlerField.smartChargingHandler then some h else none

/-- The station `Examples.notifyStation` with the smart charging handler installed. -/
def Examples.notifyHandled : chargingStation :=
  Examples.station [⟨"smartCharging", ["NotifyEVChargingNeeds"]⟩]
    (Examples.onlySmartCharging Examples.okHandler)

/-- For each case of the second switch of `handleIncomingRequest`, the profile
name of the package that declares the feature-name constant of the case
(`reservation.CancelReservationFeatureName` gives `reservation.ProfileName`);
`none` for the default case. -/
def handleIncomingRequest.actionProfile (action : String) : Option String :=
  if action = reservation.CancelReservationFeatureName then some reservation.ProfileName
  else if action = security.CertificateSignedFeatureName then some security.ProfileName
  else if action = availability.ChangeAvailabilityFeatureName then some availability.ProfileName
  else if action = authorization.ClearCacheFeatureName then some authorization.ProfileName
  else if action = smartcharging.ClearChargingProfileFeatureName then some smartcharging.ProfileName
  else if action = display.ClearDisplayFeatureName then some display.ProfileName
  else if action = diagnostics.ClearVariableMonitoringFeatureName then some diagnostics.ProfileName
  else if action = tariffcost.CostUpdatedFeatureName then some tariffcost.ProfileName
  else if action = diagnostics.CustomerInformationFeatureName then some diagnostics.ProfileName
  else if action = data.DataTransferFeatureName then some data.ProfileName
  else if action = iso15118.DeleteCertificateFeatureName then some iso15118.ProfileName
  else if action = provisioning.GetBaseReportFeatureName then some provisioning.ProfileName
  else if action = smartcharging.GetChargingProfilesFeatureName then some smartcharging.ProfileName
  else if action = smartcharging.GetCompositeScheduleFeatureName then some smartcharging.ProfileName
  else if action = display.GetDisplayMessagesFeatureName then some display.ProfileName
  else if action = iso15118.GetInstalledCertificateIdsFeatureName then some iso15118.ProfileName
  else if action = localauth.GetLocalListVersionFeatureName then some localauth.ProfileName
  else if action = diagnostics.GetLogFeatureName then some diagnostics.ProfileName
  else if action = diagnostics.GetMonitoringReportFeatureName then some diagnostics.ProfileName
  else none

/-! ## Payload validation (package smartcharging, file notify_ev_charging_needs.go)

The request and response types carry `validate` struct tags, which the
library `validator.v9` interprets when `Validate.Struct` is run on a value.
The tags are embedded as lists of rules, one list for each field, and the
library as the interpreter `validateField`. -/

/-- A rule of a `validate` tag. -/
inductive Rule where
  | required
  | omitempty
  | gte (n : Int)
  | gt (n : Int)
  | min (n : Int)
  | max (n : Int)
  /-- The rule registered in `init` under the name "energyTransferMode". -/
  | energyTransferMode
  /-- The rule registered in `init` under the name "notifyEvChargingNeedsStatus". -/
  | notifyEvChargingNeedsStatus
deriving DecidableEq, Repr

/-- A field value as the validator meets it: an `int`, a `*int`, a string, a
nested struct or a pointer to a struct; for a struct, the outcome of its own
validation stands for it. -/
inductive Field where
  | int (v : Int)
  | intPtr (v : Option Int)
  | string (s : String)
  | nested (valid : Bool)
  | nestedPtr (valid : Option Bool)
deriving DecidableEq, Repr

/-- The constant `EnergyTransferModeDC`. -/
def smartcharging.EnergyTransferModeDC : String := "DC"
/-- The constant `EnergyTransferModeACSinglePhase`. -/
def smartcharging.EnergyTransferModeACSinglePhase : String := "AC_single_phase"
/-- The constant `EnergyTransferModeACTwoPhase`. -/
def smartcharging.EnergyTransferModeACTwoPhase : String := "AC_two_phase"
/-- The constant `EnergyTransferModeACThreePhase`. -/
def smartcharging.EnergyTransferModeACThreePhase : String := "AC_three_phase"

/-- Function `isValidEnergyTransferMode`, on the string of the field. -/
def smartcharging.isValidEnergyTransferMode (field : String) : Bool :=
  if field = smartcharging.EnergyTransferModeDC then true
  else if field = smartcharging.EnergyTransferModeACSinglePhase then true
  else if field = smartcharging.EnergyTransferModeACTwoPhase then true
  else if field = smartcharging.EnergyTransferModeACThreePhase then true
  else false

/-- The constant `NotifyEVChargingNeedsStatusAccepted`. -/
def smartcharging.NotifyEVChargingNeedsStatusAccepted : String := "Accepted"
/-- The constant `NotifyEVChargingNeedsStatusRejected`. -/
def smartcharging.NotifyEVChargingNeedsStatusRejected : String := "Rejected"
/-- The constant `NotifyEVChargingNeedsStatusProcessing`. -/
def smartcharging.NotifyEVChargingNeedsStatusProcessing : String := "Processing"

/-- Function `isValidNotifyEVChargingNeedsStatus`, on the string of the field. -/
def smartcharging.isValidNotifyEVChargingNeedsStatus (field : String) : Bool :=
  if field = smartcharging.NotifyEVChargingNeedsStatusAccepted then true
  else if field = smartcharging.NotifyEVChargingNeedsStatusRejected then true
  else if field = smartcharging.NotifyEVChargingNeedsStatusProcessing then true
  else false

/-- The rules of a tag run on an integer, in tag order. `isPointer` tells that
the integer was reached through a non-nil pointer: then `omitempty` does not
skip a zero and `required` is met. The two registered rules read the field
with `Field().String()`, which for an integer is the text "<int Value>". -/
def validateInt (isPointer : Bool) : List Rule → Int → Bool
  | [], _ => true
  | .omitempty :: rest, v =>
    if !isPointer && v == 0 then true else validateInt isPointer rest v
  | .required :: rest, v => (isPointer || v != 0) && validateInt isPointer rest v
  | .gte n :: rest, v => decide (n ≤ v) && validateInt isPointer rest v
  | .gt n :: rest, v => decide (n < v) && validateInt isPointer rest v
  | .min n :: rest, v => decide (n ≤ v) && validateInt isPointer rest v
  | .max n :: rest, v => decide (v ≤ n) && validateInt isPointer rest v
  | .energyTransferMode :: rest, v =>
    smartcharging.isValidEnergyTransferMode "<int Value>" && validateInt isPointer rest v
  | .notifyEvChargingNeedsStatus :: rest, v =>
    smartcharging.isValidNotifyEVChargingNeedsStatus "<int Value>" &&
      validateInt isPointer rest v

/-- The rules of a tag run on a string, in tag order; the size rules compare
the number of characters. -/
def validateString : List Rule → String → Bool
  | [], _ => true
  | .omitempty :: rest, s => if s = "" then true else validateString rest s
  | .required :: rest, s => decide (s ≠ "") && validateString rest s
  | .gte n :: rest, s => decide (n ≤ (s.length : Int)) && validateString rest s
  | .gt n :: rest, s => decide (n < (s.length : Int)) && validateString rest s
  | .min n :: rest, s => decide (n ≤ (s.length : Int)) && validateString rest s
  | .max n :: rest, s => decide ((s.length : Int) ≤ n) && validateString rest s
  | .energyTransferMode :: rest, s =>
    smartcharging.isValidEnergyTransferMode s && validateString rest s
  | .notifyEvChargingNeedsStatus :: rest, s =>
    smartcharging.isValidNotifyEVChargingNeedsStatus s && validateString rest s

/-- A nil pointer: accepted when the field has no rule or its first rule is
`omitempty`, an error otherwise. -/
def validateNil : List Rule → Bool
  | [] => true
  | .omitempty :: _ => true
  | _ => false

/-- The validation of one field under the rules of its tag. A struct, direct
or behind a non-nil pointer, is validated field by field whatever rule comes
first in its tag. -/
def validateField (rules : List Rule) : Field → Bool
  | .int v => validateInt false rules v
  | .intPtr none => validateNil rules
  | .intPtr (some v) => validateInt true rules v
  | .string s => validateString rules s
  | .nested valid => valid
  | .nestedPtr none => validateNil rules
  | .nestedPtr (some valid) => valid

/-- The validation of a struct: every field passes the rules of its tag. -/
def validateStruct (fields : List (List Rule × Field)) : Bool :=
  fields.all (fun field => validateField field.1 field.2)

/-- The struct `ACChargingParameters`. -/
structure smartcharging.ACChargingParameters where
  EnergyAmount : Int
  EvMinCurrent : Int
  EvMaxCurrent : Int
  EvMaxVoltage : Int
deriving DecidableEq, Repr

/-- The `validate` tags of `ACChargingParameters`, field by field. -/
def smartcharging.ACChargingParameters.fields (p : smartcharging.ACChargingParameters) :
    List (List Rule × Field) :=
  [([.gte 0], .int p.EnergyAmount),
   ([.gte 0], .int p.EvMinCurrent),
   ([.gte 0], .int p.EvMaxCurrent),
   ([.gte 0], .int p.EvMaxVoltage)]

/-- Validation of an `ACChargingParameters` value. -/
def smartcharging.ACChargingParameters.Validate (p : smartcharging.ACChargingParameters) :
    Bool :=
  validateStruct p.fields

/-- The struct `DCChargingParameters`; a `*int` field is an `Option`. -/
structure smartcharging.DCChargingParameters where
  EvMaxCurrent : Int
  EvMaxVoltage : Int
  EnergyAmount : Option Int
  EvMaxPower : Option Int
  StateOfCharge : Option Int
  EvEnergyCapacity : Option Int
  FullSoC : Option Int
  BulkSoC : Option Int
deriving DecidableEq, Repr

/-- The `validate` tags of `DCChargingParameters`, field by field. -/
def smartcharging.DCChargingParameters.fields (p : smartcharging.DCChargingParameters) :
    List (List Rule × Field) :=
  [([.gte 0], .int p.EvMaxCurrent),
   ([.gte 0], .int p.EvMaxVoltage),
   ([.omitempty, .gte 0], .intPtr p.EnergyAmount),
   ([.omitempty, .gte 0], .intPtr p.EvMaxPower),
   ([.omitempty, .min 0, .max 100], .intPtr p.StateOfCharge),
   ([.omitempty, .gte 0], .intPtr p.EvEnergyCapacity),
   ([.omitempty, .min 0, .max 100], .intPtr p.FullSoC),
   ([.omitempty, .min 0, .max 100], .intPtr p.BulkSoC)]

/-- Validation of a `DCChargingParameters` value. -/
def smartcharging.DCChargingParameters.Validate (p : smartcharging.DCChargingParameters) :
    Bool :=
  validateStruct p.fields

/-- The struct `ChargingNeeds`. The type `types.DateTime` is declared outside
the sources at hand and is the parameter `DateTime`; it wraps a time value and
carries no `validate` tag, so a departure time that is set always passes. -/
structure smartcharging.ChargingNeeds (DateTime : Type) where
  RequestedEnergyTransfer : String
  DepartureTime : Option DateTime
  ACChargingParameters : Option smartcharging.ACChargingParameters
  DCChargingParameters : Option smartcharging.DCChargingParameters

/-- The `validate` tags of `ChargingNeeds`, field by field. -/
def smartcharging.ChargingNeeds.fields {DateTime : Type}
    (n : smartcharging.ChargingNeeds DateTime) : List (List Rule × Field) :=
  [([.required, .energyTransferMode], .string n.RequestedEnergyTransfer),
   ([.omitempty], .nestedPtr (n.DepartureTime.map (fun _ => true))),
   ([.omitempty], .nestedPtr (n.ACChargingParameters.map (fun p => p.Validate))),
   ([.omitempty], .nestedPtr (n.DCChargingParameters.map (fun p => p.Validate)))]

/-- Validation of a `ChargingNeeds` value. -/
def smartcharging.ChargingNeeds.Validate {DateTime : Type}
    (n : smartcharging.ChargingNeeds DateTime) : Bool :=
  validateStruct n.fields

/-- The struct `NotifyEVChargingNeedsRequest`. -/
structure smartcharging.NotifyEVChargingNeedsRequest (DateTime : Type) where
  MaxScheduleTuples : Option Int
  EvseID : Int
  ChargingNeeds : smartcharging.ChargingNeeds DateTime

/-- The `validate` tags of `NotifyEVChargingNeedsRequest`, field by field. -/
def smartcharging.NotifyEVChargingNeedsRequest.fields {DateTime : Type}
    (r : smartcharging.NotifyEVChargingNeedsRequest DateTime) : List (List Rule × Field) :=
  [([.omitempty, .gte 0], .intPtr r.MaxScheduleTuples),
   ([.gt 0], .int r.EvseID),
   ([.required], .nested r.ChargingNeeds.Validate)]

/-- Validation of a `NotifyEVChargingNeedsRequest`. -/
def smartcharging.NotifyEVChargingNeedsRequest.Validate {DateTime : Type}
    (r : smartcharging.NotifyEVChargingNeedsRequest DateTime) : Bool :=
  validateStruct r.fields

/-- The struct `NotifyEVChargingNeedsResponse`. The type `types.StatusInfo` is
declared outside the sources at hand and is the parameter `StatusInfo`. -/
structure smartcharging.NotifyEVChargingNeedsResponse (StatusInfo : Type) where
  Status : String
  StatusInfo : Option StatusInfo

/-- The `validate` tags of `NotifyEVChargingNeedsResponse`, field by field;
`validStatusInfo` is the validation of a `types.StatusInfo`. -/
def smartcharging.NotifyEVChargingNeedsResponse.fields {StatusInfo : Type}
    (validStatusInfo : StatusInfo → Bool)
    (r : smartcharging.NotifyEVChargingNeedsResponse StatusInfo) : List (List Rule × Field) :=
  [([.required, .notifyEvChargingNeedsStatus], .string r.Status),
   ([.omitempty], .nestedPtr (r.StatusInfo.map validStatusInfo))]

/-- Validation of a `NotifyEVChargingNeedsResponse`. -/
def smartcharging.NotifyEVChargingNeedsResponse.Validate {StatusInfo : Type}
    (validStatusInfo : StatusInfo → Bool)
    (r : smartcharging.NotifyEVChargingNeedsResponse StatusInfo) : Bool :=
  validateStruct (r.fields validStatusInfo)

/-- An optional integer is absent or within the closed range. -/
def absentOrWithin (lo hi : Int) (v : Option Int) : Prop :=
  ∀ x, v = some x → lo ≤ x ∧ x ≤ hi

/-- An optional integer is absent or at least the bound. -/
def absentOrAtLeast (lo : Int) (v : Option Int) : Prop :=
  ∀ x, v = some x → lo ≤ x

/-! ## Wire form (`json` struct tags of package smartcharging, envelope of package ocppj)

The payload of a Call is the JSON object that `encoding/json` makes from the
request by its `json` struct tags: one member for each field, in declaration
order, under the tag's name; a field tagged `omitempty` is left out when its
pointer is nil.

On receipt, package `ocppj` first parses the whole message into untyped
values, where every number is a `float64` and every object a map, then writes
the payload out again and decodes that text into the request struct. The
decoder below is this path: `Json.finite` and `viaFloat64` are the passage of
a number through `float64`, `fieldValues` is the passage of an object through
a map together with the matching of keys to fields, and the `decode` functions
are `encoding/json` filling a struct value that already exists. -/

/-- A JSON value; a number is an integer literal. -/
inductive Json where
  | null
  | num (n : Int)
  | str (s : String)
  | arr (items : List Json)
  | obj (members : List (String × Json))

/-- The value of the first member of the given name. -/
def lookupMember (name : String) : List (String × Json) → Option Json
  | [] => none
  | (key, value) :: rest => if key = name then some value else lookupMember name rest

/-- Whether a JSON value is an object with a member of the given name. -/
def Json.has (j : Json) (name : String) : Bool :=
  match j with
  | .obj members => (lookupMember name members).isSome
  | _ => false

/-- The member of the given name of a JSON object. -/
def Json.member? (j : Json) (name : String) : Option Json :=
  match j with
  | .obj members => lookupMember name members
  | _ => none

/-- The member written for a field tagged `omitempty`: none for a nil pointer. -/
def omitempty (name : String) (value : Option Json) : List (String × Json) :=
  match value with
  | none => []
  | some v => [(name, v)]

mutual
/-- Whether every number of a JSON value has a finite nearest `float64`, that
is, lies below `2^1024 - 2^970` in magnitude, written here as a quotient by
`2^970`. The untyped parse of a message fails on any other number, also in a
member that no field takes. -/
def Json.finite : Json → Bool
  | .null => true
  | .num n => n.natAbs >>> 970 < 2 ^ 54 - 1
  | .str _ => true
  | .arr items => Json.finiteItems items
  | .obj members => Json.finiteMembers members
/-- Every item of an array is finite. -/
def Json.finiteItems : List Json → Bool
  | [] => true
  | item :: rest => item.finite && Json.finiteItems rest
/-- Every member value of an object is finite. -/
def Json.finiteMembers : List (String × Json) → Bool
  | [] => true
  | (_, value) :: rest => value.finite && Json.finiteMembers rest
end

/-- The number of low bits that a magnitude loses to fit the 53 bits of a
`float64` mantissa: the least `e`, counted up from the given one, with
`a / 2^e < 2^53`. The fuel bounds the count; 11 steps serve every magnitude
below `2^64`. -/
def float64.exponent (a : Nat) : Nat → Nat → Nat
  | 0, e => e
  | fuel + 1, e => if a / 2 ^ e < 2 ^ 53 then e else float64.exponent a fuel (e + 1)

/-- The `float64` nearest to a magnitude below `2^64`, as mantissa and
exponent: value `m * 2^e` with `m < 2^53`, or `m = 2^52` after a carry. The
dropped bits round to nearest, a tie to the even mantissa. -/
def float64.nearest (a : Nat) : Nat × Nat :=
  let e := float64.exponent a 11 0
  let q := a / 2 ^ e
  let r := a % 2 ^ e
  let half := 2 ^ e / 2
  let m := if half < r ∨ (r = half ∧ 0 < e ∧ q % 2 = 1) then q + 1 else q
  if m = 2 ^ 53 then (2 ^ 52, e + 1) else (m, e)

/-- Whether a decimal candidate `c` reads back as the `float64` of mantissa
`m` and exponent `e`: it lies within half a step of `m * 2^e`, the step below
being half as wide when `m = 2^52`; the ends of the range count when the
mantissa is even. Compared in doubled units. -/
def float64.readsBack (m e c : Nat) : Bool :=
  let x := m * 2 ^ e
  let below := if m = 2 ^ 52 then 2 ^ e / 2 else 2 ^ e
  let above := 2 ^ e
  if m % 2 = 0 then decide (2 * x ≤ 2 * c + below ∧ 2 * c ≤ 2 * x + above)
  else decide (2 * x < 2 * c + below ∧ 2 * c < 2 * x + above)

/-- The integer that `strconv` prints for the `float64` of mantissa `m` and
exponent `e` in its shortest form: the multiple of the greatest power of ten
`10^k`, `k` at most the given one, that reads back as the same `float64`; of
two such multiples the one nearer to the value, the even one on a tie. -/
def float64.shortest (m e : Nat) : Nat → Nat
  | 0 => m * 2 ^ e
  | k + 1 =>
    let x := m * 2 ^ e
    let p := 10 ^ (k + 1)
    let c1 := x / p * p
    let c2 := c1 + p
    if float64.readsBack m e c1 ∧ float64.readsBack m e c2 then
      if x - c1 < c2 - x ∨ (x - c1 = c2 - x ∧ (c1 / p) % 2 = 0) then c1 else c2
    else if float64.readsBack m e c1 then c1
    else if float64.readsBack m e c2 then c2
    else float64.shortest m e k

/-- The integer that an `int` field takes from a JSON number that went through
`float64` and back to text. Up to `2^53` in magnitude the number is a
`float64` and is printed with all its digits. Above, it is rounded to the
nearest `float64` and printed in the shortest digits that read back as that
`float64`, zeros after them; the field refuses (`none`) a text that does not
fit 64 bits, which is the case of every magnitude from `2^63 - 512` on. -/
def viaFloat64 (n : Int) : Option Int :=
  if n.natAbs ≤ 2 ^ 53 then some n
  else if 2 ^ 64 ≤ n.natAbs then none
  else
    let f := float64.nearest n.natAbs
    let printed : Int := if n < 0 then -(float64.shortest f.1 f.2 19 : Nat) else float64.shortest f.1 f.2 19
    if -(2 : Int) ^ 63 ≤ printed ∧ printed < 2 ^ 63 then some printed else none

/-- The fold of a character under which `encoding/json` matches a key to the
name of a field: an ASCII capital folds to its small letter, the Kelvin sign
(U+212A) to `k` and the long s (U+017F) to `s`. Two characters fold alike,
one of them ASCII, exactly when the result is the same. -/
def foldCode (c : Char) : Nat :=
  if c.toNat = 0x212A then 107
  else if c.toNat = 0x17F then 115
  else if 65 ≤ c.toNat ∧ c.toNat ≤ 90 then c.toNat + 32
  else c.toNat

/-- The fold of a key or of a field name. -/
def foldName (s : String) : List Nat :=
  s.data.map foldCode

/-- Whether a member goes to the field of the given JSON name. -/
def matchesField (name : String) (member : String × Json) : Bool :=
  decide (foldName member.1 = foldName name)

/-- The members that an object keeps as a map: of two members of the same
key, the later. -/
def lastOfEachKey : List (String × Json) → List (String × Json)
  | [] => []
  | (key, value) :: rest =>
    if rest.any (fun m => decide (m.1 = key)) then lastOfEachKey rest
    else (key, value) :: lastOfEachKey rest

/-- The order of two texts by their characters, the first difference deciding
and a proper start coming first. -/
def lessCodes : List Nat → List Nat → Bool
  | _, [] => false
  | [], _ :: _ => true
  | a :: as, b :: bs => decide (a < b) || (decide (a = b) && lessCodes as bs)

/-- The order in which the keys of a map are written out. -/
def keyLess (a b : String) : Bool :=
  lessCodes (a.data.map Char.toNat) (b.data.map Char.toNat)

/-- Insertion of a member into a list sorted by key. -/
def insertByKey (m : String × Json) : List (String × Json) → List (String × Json)
  | [] => [m]
  | x :: rest => if keyLess m.1 x.1 then m :: x :: rest else x :: insertByKey m rest

/-- The members in the order of their keys, in which a map is written out. -/
def sortByKey : List (String × Json) → List (String × Json)
  | [] => []
  | m :: rest => insertByKey m (sortByKey rest)

/-- The values that the decoder assigns to the field of the given JSON name,
in the order in which it assigns them: those of the members whose key matches
the name, one for each distinct key, by ascending key. -/
def fieldValues (name : String) (members : List (String × Json)) : List Json :=
  (sortByKey (lastOfEachKey (members.filter (matchesField name)))).map Prod.snd

/-- Decoding of an `int` field from the values assigned to it, one after the
other: `null` leaves the field as it is, a number sets it, anything else, or a
number that does not fit, is an error (`none`). -/
def decodeInt (current : Int) : List Json → Option Int
  | [] => some current
  | .null :: rest => decodeInt current rest
  | .num n :: rest =>
    match viaFloat64 n with
    | some v => decodeInt v rest
    | none => none
  | _ :: _ => none

/-- Decoding of a `*int` field: `null` sets the pointer to nil, a number sets
the pointed integer. -/
def decodeIntPtr (current : Option Int) : List Json → Option (Option Int)
  | [] => some current
  | .null :: rest => decodeIntPtr none rest
  | .num n :: rest =>
    match viaFloat64 n with
    | some v => decodeIntPtr (some v) rest
    | none => none
  | _ :: _ => none

/-- Decoding of a string field: `null` leaves the field as it is. -/
def decodeString (current : String) : List Json → Option String
  | [] => some current
  | .null :: rest => decodeString current rest
  | .str s :: rest => decodeString s rest
  | _ :: _ => none

/-- Decoding of a struct field by the decoder of its type, which fills the
value that the field holds. -/
def decodeStruct {α : Type} (decode : α → Json → Option α) (current : α) :
    List Json → Option α
  | [] => some current
  | value :: rest =>
    match decode current value with
    | some x => decodeStruct decode x rest
    | none => none

/-- Decoding of a pointer to a struct: `null` sets the pointer to nil; any
other value fills the pointed struct, a new zero value when the pointer is
nil. -/
def decodePtr {α : Type} (zero : α) (decode : α → Json → Option α) (current : Option α) :
    List Json → Option (Option α)
  | [] => some current
  | .null :: rest => decodePtr zero decode none rest
  | value :: rest =>
    match decode (current.getD zero) value with
    | some x => decodePtr zero decode (some x) rest
    | none => none

/-- Decoding of a `*types.DateTime` field: `null` sets the pointer to nil; any
other value is handed to `UnmarshalJSON`, the method of that name of
`types.DateTime`, declared outside the sources at hand. -/
def decodeDateTime {DateTime : Type} (UnmarshalJSON : Json → Option DateTime)
    (current : Option DateTime) : List Json → Option (Option DateTime)
  | [] => some current
  | .null :: rest => decodeDateTime UnmarshalJSON none rest
  | value :: rest =>
    match UnmarshalJSON value with
    | some t => decodeDateTime UnmarshalJSON (some t) rest
    | none => none

/-- The members of the JSON object of an `ACChargingParameters`, by its `json` tags. -/
def smartcharging.ACChargingParameters.members (p : smartcharging.ACChargingParameters) :
    List (String × Json) :=
  [("energyAmount", .num p.EnergyAmount),
   ("evMinCurrent", .num p.EvMinCurrent),
   ("evMaxCurrent", .num p.EvMaxCurrent),
   ("evMaxVoltage", .num p.EvMaxVoltage)]

/-- The JSON object of an `ACChargingParameters`. -/
def smartcharging.ACChargingParameters.toJson (p : smartcharging.ACChargingParameters) :
    Json :=
  .obj p.members

/-- The zero value of `ACChargingParameters`. -/
def smartcharging.ACChargingParameters.zero : smartcharging.ACChargingParameters :=
  ⟨0, 0, 0, 0⟩

/-- Decoding into an `ACChargingParameters` value: `null` leaves it as it is,
an object fills its fields by their `json` tags, anything else is an error. -/
def smartcharging.ACChargingParameters.decode (current : smartcharging.ACChargingParameters) :
    Json → Option smartcharging.ACChargingParameters
  | .null => some current
  | .obj members => do
    let energyAmount ← decodeInt current.EnergyAmount (fieldValues "energyAmount" members)
    let evMinCurrent ← decodeInt current.EvMinCurrent (fieldValues "evMinCurrent" members)
    let evMaxCurrent ← decodeInt current.EvMaxCurrent (fieldValues "evMaxCurrent" members)
    let evMaxVoltage ← decodeInt current.EvMaxVoltage (fieldValues "evMaxVoltage" members)
    pure ⟨energyAmount, evMinCurrent, evMaxCurrent, evMaxVoltage⟩
  | _ => none

/-- The members of the JSON object of a `DCChargingParameters`, by its `json` tags. -/
def smartcharging.DCChargingParameters.members (p : smartcharging.DCChargingParameters) :
    List (String × Json) :=
  ("evMaxCurrent", .num p.EvMaxCurrent) ::
  ("evMaxVoltage", .num p.EvMaxVoltage) ::
  (omitempty "energyAmount" (p.EnergyAmount.map Json.num) ++
   (omitempty "evMaxPower" (p.EvMaxPower.map Json.num) ++
   (omitempty "stateOfCharge" (p.StateOfCharge.map Json.num) ++
   (omitempty "energyCapacity" (p.EvEnergyCapacity.map Json.num) ++
   (omitempty "fullSoC" (p.FullSoC.map Json.num) ++
   omitempty "bulkSoC" (p.BulkSoC.map Json.num))))))

/-- The JSON object of a `DCChargingParameters`. -/
def smartcharging.DCChargingParameters.toJson (p : smartcharging.DCChargingParameters) :
    Json :=
  .obj p.members

/-- The zero value of `DCChargingParameters`. -/
def smartcharging.DCChargingParameters.zero : smartcharging.DCChargingParameters :=
  ⟨0, 0, none, none, none, none, none, none⟩

/-- Decoding into a `DCChargingParameters` value. -/
def smartcharging.DCChargingParameters.decode (current : smartcharging.DCChargingParameters) :
    Json → Option smartcharging.DCChargingParameters
  | .null => some current
  | .obj members => do
    let evMaxCurrent ← decodeInt current.EvMaxCurrent (fieldValues "evMaxCurrent" members)
    let evMaxVoltage ← decodeInt current.EvMaxVoltage (fieldValues "evMaxVoltage" members)
    let energyAmount ← decodeIntPtr current.EnergyAmount (fieldValues "energyAmount" members)
    let evMaxPower ← decodeIntPtr current.EvMaxPower (fieldValues "evMaxPower" members)
    let stateOfCharge ← decodeIntPtr current.StateOfCharge (fieldValues "stateOfCharge" members)
    let energyCapacity ←
      decodeIntPtr current.EvEnergyCapacity (fieldValues "energyCapacity" members)
    let fullSoC ← decodeIntPtr current.FullSoC (fieldValues "fullSoC" members)
    let bulkSoC ← decodeIntPtr current.BulkSoC (fieldValues "bulkSoC" members)
    pure ⟨evMaxCurrent, evMaxVoltage, energyAmount, evMaxPower, stateOfCharge,
      energyCapacity, fullSoC, bulkSoC⟩
  | _ => none

/-- The members of the JSON object of a `ChargingNeeds`, by its `json` tags. A
departure time is written as the string of its timestamp; `FormatTimestamp`
is the method of that name of `types.DateTime`, declared outside the sources
at hand. -/
def smartcharging.ChargingNeeds.members {DateTime : Type}
    (FormatTimestamp : DateTime → String) (n : smartcharging.ChargingNeeds DateTime) :
    List (String × Json) :=
  ("requestedEnergyTransfer", .str n.RequestedEnergyTransfer) ::
  (omitempty "departureTime" (n.DepartureTime.map (fun t => Json.str (FormatTimestamp t))) ++
   (omitempty "acChargingParameters"
      (n.ACChargingParameters.map smartcharging.ACChargingParameters.toJson) ++
   omitempty "dcChargingParameters"
      (n.DCChargingParameters.map smartcharging.DCChargingParameters.toJson)))

/-- The JSON object of a `ChargingNeeds`. -/
def smartcharging.ChargingNeeds.toJson {DateTime : Type} (FormatTimestamp : DateTime → String)
    (n : smartcharging.ChargingNeeds DateTime) : Json :=
  .obj (n.members FormatTimestamp)

/-- The zero value of `ChargingNeeds`. -/
def smartcharging.ChargingNeeds.zero {DateTime : Type} : smartcharging.ChargingNeeds DateTime :=
  ⟨"", none, none, none⟩

/-- Decoding into a `ChargingNeeds` value. -/
def smartcharging.ChargingNeeds.decode {DateTime : Type}
    (UnmarshalJSON : Json → Option DateTime) (current : smartcharging.ChargingNeeds DateTime) :
    Json → Option (smartcharging.ChargingNeeds DateTime)
  | .null => some current
  | .obj members => do
    let requestedEnergyTransfer ←
      decodeString current.RequestedEnergyTransfer (fieldValues "requestedEnergyTransfer" members)
    let departureTime ←
      decodeDateTime UnmarshalJSON current.DepartureTime (fieldValues "departureTime" members)
    let ac ← decodePtr smartcharging.ACChargingParameters.zero
      smartcharging.ACChargingParameters.decode current.ACChargingParameters
      (fieldValues "acChargingParameters" members)
    let dc ← decodePtr smartcharging.DCChargingParameters.zero
      smartcharging.DCChargingParameters.decode current.DCChargingParameters
      (fieldValues "dcChargingParameters" members)
    pure ⟨requestedEnergyTransfer, departureTime, ac, dc⟩
  | _ => none

/-- The members of the JSON object of a `NotifyEVChargingNeedsRequest`, by its
`json` tags. -/
def smartcharging.NotifyEVChargingNeedsRequest.members {DateTime : Type}
    (FormatTimestamp : DateTime → String)
    (r : smartcharging.NotifyEVChargingNeedsRequest DateTime) : List (String × Json) :=
  omitempty "maxScheduleTuples" (r.MaxScheduleTuples.map Json.num) ++
  [("evseId", .num r.EvseID),
   ("chargingNeeds", r.ChargingNeeds.toJson FormatTimestamp)]

/-- The JSON object of a `NotifyEVChargingNeedsRequest`: the payload of its Call. -/
def smartcharging.NotifyEVChargingNeedsRequest.toJson {DateTime : Type}
    (FormatTimestamp : DateTime → String)
    (r : smartcharging.NotifyEVChargingNeedsRequest DateTime) : Json :=
  .obj (r.members FormatTimestamp)

/-- The zero value of `NotifyEVChargingNeedsRequest`. -/
def smartcharging.NotifyEVChargingNeedsRequest.zero {DateTime : Type} :
    smartcharging.NotifyEVChargingNeedsRequest DateTime :=
  ⟨none, 0, smartcharging.ChargingNeeds.zero⟩

/-- Decoding into a `NotifyEVChargingNeedsRequest` value. -/
def smartcharging.NotifyEVChargingNeedsRequest.decode {DateTime : Type}
    (UnmarshalJSON : Json → Option DateTime)
    (current : smartcharging.NotifyEVChargingNeedsRequest DateTime) :
    Json → Option (smartcharging.NotifyEVChargingNeedsRequest DateTime)
  | .null => some current
  | .obj members => do
    let maxScheduleTuples ←
      decodeIntPtr current.MaxScheduleTuples (fieldValues "maxScheduleTuples" members)
    let evseId ← decodeInt current.EvseID (fieldValues "evseId" members)
    let chargingNeeds ← decodeStruct (smartcharging.ChargingNeeds.decode UnmarshalJSON)
      current.ChargingNeeds (fieldValues "chargingNeeds" members)
    pure ⟨maxScheduleTuples, evseId, chargingNeeds⟩
  | _ => none

/-- The request that the receiver builds from the payload of a Call: the
payload has been parsed without types, which needs every number finite, and
is decoded into a new request. -/
def smartcharging.NotifyEVChargingNeedsRequest.fromJson {DateTime : Type}
    (UnmarshalJSON : Json → Option DateTime) (payload : Json) :
    Option (smartcharging.NotifyEVChargingNeedsRequest DateTime) :=
  if payload.finite then
    smartcharging.NotifyEVChargingNeedsRequest.decode UnmarshalJSON
      smartcharging.NotifyEVChargingNeedsRequest.zero payload
  else none

/-- Modelled from the spec: the encoding of a Call is declared in package
`ocppj`, outside the sources at hand. Spec 6: `Call = [2, id, action, payload]`. -/
def ocppj.Call.toJson (id : String) (action : String) (payload : Json) : Json :=
  .arr [.num 2, .str id, .str action, payload]

/-- Modelled from the spec: the decoding of a Call is declared in package
`ocppj`, outside the sources at hand. Spec 4.2: the variant is determined by
the leading discriminator, and a wrong arity or id type is a malformed
envelope (`none`); the result is id, action and payload. -/
def ocppj.Call.fromJson : Json → Option (String × String × Json)
  | .arr [.num 2, .str id, .str action, payload] => some (id, action, payload)
  | _ => none

/-- The integers of an `ACChargingParameters`. -/
def smartcharging.ACChargingParameters.integers (p : smartcharging.ACChargingParameters) :
    List Int :=
  [p.EnergyAmount, p.EvMinCurrent, p.EvMaxCurrent, p.EvMaxVoltage]

/-- The integers of a `DCChargingParameters`, those behind a nil pointer left out. -/
def smartcharging.DCChargingParameters.integers (p : smartcharging.DCChargingParameters) :
    List Int :=
  [p.EvMaxCurrent, p.EvMaxVoltage] ++ p.EnergyAmount.toList ++ p.EvMaxPower.toList ++
    p.StateOfCharge.toList ++ p.EvEnergyCapacity.toList ++ p.FullSoC.toList ++
    p.BulkSoC.toList

/-- The integers of a `NotifyEVChargingNeedsRequest`, at any depth. -/
def smartcharging.NotifyEVChargingNeedsRequest.integers {DateTime : Type}
    (r : smartcharging.NotifyEVChargingNeedsRequest DateTime) : List Int :=
  r.MaxScheduleTuples.toList ++ [r.EvseID] ++
    (match r.ChargingNeeds.ACChargingParameters with
     | some p => p.integers
     | none => []) ++
    (match r.ChargingNeeds.DCChargingParameters with
     | some p => p.integers
     | none => [])

/-- The request that comes back when only the departure time is replaced. -/
def smartcharging.NotifyEVChargingNeedsRequest.withDepartureTime {DateTime : Type}
    (r : smartcharging.NotifyEVChargingNeedsRequest DateTime) (t : Option DateTime) :
    smartcharging.NotifyEVChargingNeedsRequest DateTime :=
  ⟨r.MaxScheduleTuples, r.EvseID,
    ⟨r.ChargingNeeds.RequestedEnergyTransfer, t, r.ChargingNeeds.ACChargingParameters,
      r.ChargingNeeds.DCChargingParameters⟩⟩

/-- The request of the test `TestNotifyEVChargingNeedsE2EMocked`, with the
departure time held as its timestamp string. -/
def Examples.needsRequest : smartcharging.NotifyEVChargingNeedsRequest String :=
  { MaxScheduleTuples := some 2
    EvseID := 1
    ChargingNeeds :=
      { RequestedEnergyTransfer := smartcharging.EnergyTransferModeDC
        DepartureTime := some "2020-06-01T10:00:00Z"
        ACChargingParameters := none
        DCChargingParameters :=
          some ⟨42, 240, none, none, some 46, none, none, none⟩ } }

/-- A departure time held as its timestamp string is read from a JSON string
as it is; any other JSON value is an error. -/
def Examples.UnmarshalJSON : Json → Option String
  | .str s => some s
  | _ => none

/-- The request of the test with the EVSE id `2^53 + 1`. -/
def Examples.wideRequest : smartcharging.NotifyEVChargingNeedsRequest String :=
  { MaxScheduleTuples := some 2
    EvseID := 9007199254740993
    ChargingNeeds :=
      { RequestedEnergyTransfer := smartcharging.EnergyTransferModeDC
        DepartureTime := some "2020-06-01T10:00:00Z"
        ACChargingParameters := none
        DCChargingParameters :=
          some ⟨42, 240, none, none, some 46, none, none, none⟩ } }

/-- The entry that a send hands to `TryQueue` when it passes the checks made
before the queue: for `SendRequest`, the feature of the request resolves to a
registered profile; for `SendRequestAsync`, moreover the feature is one of
the names of its switch. No entry for any other operation. -/
def Client.submits (c : Client) : Op → Option QueueEntry
  | .SendRequest request chan =>
    if (c.GetProfileForFeature request.GetFeatureName).isSome then
      some ⟨request, Callback.asyncResponseC chan⟩
    else none
  | .SendRequestAsync request callback =>
    if (c.GetProfileForFeature request.GetFeatureName).isSome ∧
        request.GetFeatureName ∈ SendRequestAsync.featureNames then
      some ⟨request, callback⟩
    else none
  | _ => none

/-! # Theorems -/

/-- C1: when the feature name of a request resolves to no registered profile,
`SendRequest` and `SendRequestAsync` both return a non-nil error at once (the
synchronous send does not block), perform no effect at all (no `TryQueue`
call, no transport write, no callback invocation) and leave the station, its
callback queue included, as it was. -/
theorem C1_unregistered_feature_rejected (cs : chargingStation) (request : Request)
    (chan : Nat) (callback : Callback)
    (h : cs.client.GetProfileForFeature request.GetFeatureName = none) :
    (∃ err, (cs.SendRequest request chan).state = SendRequestState.returned none (some err)) ∧
    (cs.SendRequest request chan).trace = [] ∧
    (cs.SendRequest request chan).station = cs ∧
    (∃ err, (cs.SendRequestAsync request callback).err = some err) ∧
    (cs.SendRequestAsync request callback).trace = [] ∧
    (cs.SendRequestAsync request callback).station = cs := by
  simp [chargingStation.SendRequest, chargingStation.SendRequestAsync, h]

/-- Witness for C1: a station with the single profile "core" = [Authorize]
asked to send a BootNotification. -/
theorem C1_unregistered_feature_rejected_witness :
    (∃ err, ((Examples.station [⟨"core", ["Authorize"]⟩] Examples.noHandlers).SendRequest
        (Examples.request "BootNotification") 0).state
        = SendRequestState.returned none (some err)) ∧
    ((Examples.station [⟨"core", ["Authorize"]⟩] Examples.noHandlers).SendRequest
        (Examples.request "BootNotification") 0).trace = [] ∧
    ((Examples.station [⟨"core", ["Authorize"]⟩] Examples.noHandlers).SendRequest
        (Examples.request "BootNotification") 0).station
        = Examples.station [⟨"core", ["Authorize"]⟩] Examples.noHandlers ∧
    (∃ err, ((Examples.station [⟨"core", ["Authorize"]⟩] Examples.noHandlers).SendRequestAsync
        (Examples.request "BootNotification") (Callback.async 0)).err = some err) ∧
    ((Examples.station [⟨"core", ["Authorize"]⟩] Examples.noHandlers).SendRequestAsync
        (Examples.request "BootNotification") (Callback.async 0)).trace = [] ∧
    ((Examples.station [⟨"core", ["Authorize"]⟩] Examples.noHandlers).SendRequestAsync
        (Examples.request "BootNotification") (Callback.async 0)).station
        = Examples.station [⟨"core", ["Authorize"]⟩] Examples.noHandlers :=
  C1_unregistered_feature_rejected _ _ 0 (Callback.async 0) (by decide)

/-- C2: an inbound call whose action resolves to no registered profile gets
exactly one reply, a CallError with the same request id and the code
NotImplemented; the effects of `handleIncomingRequest` are that one write and
nothing else (no CallResult, no handler call), and there is no panic. -/
theorem C2_unregistered_action_not_implemented (cs : chargingStation) (request : Request)
    (requestId action : String) (h : cs.client.GetProfileForFeature action = none) :
    (cs.handleIncomingRequest request requestId action).trace =
      [Effect.write
        (Frame.CallError requestId ocppj.NotImplemented
          ("no handler for action " ++ action ++ " implemented"))
        (cs.client.transport cs.client.writes
          (Frame.CallError requestId ocppj.NotImplemented
            ("no handler for action " ++ action ++ " implemented")))] ∧
    (cs.handleIncomingRequest request requestId action).panicked = false := by
  simp only [chargingStation.handleIncomingRequest, h, chargingStation.notImplementedError,
    Client.SendError, Client.writeFrame]
  split <;> simp

/-- Witness for C2: the action "Ping" on a station whose only profile is
"core" = [Authorize]. -/
theorem C2_unregistered_action_not_implemented_witness :
    ((Examples.station [⟨"core", ["Authorize"]⟩] Examples.noHandlers).handleIncomingRequest
        (Examples.request "Ping") "1" "Ping").trace =
      [Effect.write
        (Frame.CallError "1" ocppj.NotImplemented
          ("no handler for action " ++ "Ping" ++ " implemented"))
        ((Examples.station [⟨"core", ["Authorize"]⟩] Examples.noHandlers).client.transport
          (Examples.station [⟨"core", ["Authorize"]⟩] Examples.noHandlers).client.writes
          (Frame.CallError "1" ocppj.NotImplemented
            ("no handler for action " ++ "Ping" ++ " implemented")))] ∧
    ((Examples.station [⟨"core", ["Authorize"]⟩] Examples.noHandlers).handleIncomingRequest
        (Examples.request "Ping") "1" "Ping").panicked = false :=
  C2_unregistered_action_not_implemented _ _ "1" "Ping" (by decide)

/-- The effects and the panic flag of `notSupportedError`. -/
theorem notSupportedError_run (cs : chargingStation) (requestId action : String) :
    (cs.notSupportedError requestId action).trace =
      [Effect.write
        (Frame.CallError requestId ocppj.NotSupported
          ("unsupported action " ++ action ++ " on charging station"))
        (cs.client.transport cs.client.writes
          (Frame.CallError requestId ocppj.NotSupported
            ("unsupported action " ++ action ++ " on charging station")))] ∧
    (cs.notSupportedError requestId action).panicked = false := by
  simp only [chargingStation.notSupportedError, Client.SendError, Client.writeFrame]
  split <;> simp

/-- C3, counterexample: the registry holds the profile "custom" =
[CancelReservation], whose name has no case in the profile switch, so that no
handler is installed for it. With every handler field nil the call
`Call(id "1", CancelReservation)` panics on the nil `reservationHandler` and
emits no reply; with only `reservationHandler` set, that handler is called and
a CallResult is sent. In neither run is a CallError NotSupported emitted. -/
theorem C3_counterexample :
    (Examples.station [Examples.customProfile] Examples.noHandlers).client.GetProfileForFeature
        "CancelReservation" = some Examples.customProfile ∧
    handleIncomingRequest.profileCase Examples.customProfile.Name = none ∧
    ((Examples.station [Examples.customProfile] Examples.noHandlers).handleIncomingRequest
        (Examples.request "CancelReservation") "1" "CancelReservation").trace = [] ∧
    ((Examples.station [Examples.customProfile] Examples.noHandlers).handleIncomingRequest
        (Examples.request "CancelReservation") "1" "CancelReservation").panicked = true ∧
    ((Examples.station [Examples.customProfile]
        (Examples.onlyReservation Examples.okHandler)).handleIncomingRequest
        (Examples.request "CancelReservation") "1" "CancelReservation").trace =
      [Effect.handler HandlerField.reservationHandler "OnCancelReservation"
          (Examples.request "CancelReservation"),
       Effect.write (Frame.CallResult "1" ⟨"CancelReservation", "ok"⟩) none] := by
  decide

/-- C3, amended: an inbound call whose action resolves to a registered profile
gets exactly one reply, a CallError with the call's id and the code
NotSupported, with no CallResult, no handler call and no panic, when (a) the
profile carries one of the sixteen built-in names and the handler field of
that name is nil, or (b) the action is not one of the actions of the dispatch
switch, whatever the profile's name (as for P = [Ping]). -/
theorem C3_not_supported (cs : chargingStation) (request : Request)
    (requestId action : String) (profile : Profile)
    (hfound : cs.client.GetProfileForFeature action = some profile)
    (h : (∃ field, handleIncomingRequest.profileCase profile.Name = some field ∧
            cs.handler field = none) ∨
         handleIncomingRequest.actionCase action = none) :
    (cs.handleIncomingRequest request requestId action).trace =
      [Effect.write
        (Frame.CallError requestId ocppj.NotSupported
          ("unsupported action " ++ action ++ " on charging station"))
        (cs.client.transport cs.client.writes
          (Frame.CallError requestId ocppj.NotSupported
            ("unsupported action " ++ action ++ " on charging station")))] ∧
    (cs.handleIncomingRequest request requestId action).panicked = false := by
  simp only [chargingStation.handleIncomingRequest, hfound]
  by_cases hs : cs.supported profile = true
  · rcases h with ⟨field, hcase, hnil⟩ | hdefault
    · simp [chargingStation.supported, hcase, hnil] at hs
    · simp only [hs, hdefault]
      exact notSupportedError_run cs requestId action
  · simp only [Bool.not_eq_true] at hs
    simp only [hs]
    exact notSupportedError_run cs requestId action

/-- Witness for C3: the spec scenario, registry P = [Ping] with no handler
installed, receiving `Call(id "1", Ping)`. -/
theorem C3_not_supported_witness :
    ((Examples.station [Examples.pingProfile] Examples.noHandlers).handleIncomingRequest
        (Examples.request "Ping") "1" "Ping").trace =
      [Effect.write
        (Frame.CallError "1" ocppj.NotSupported
          ("unsupported action " ++ "Ping" ++ " on charging station"))
        ((Examples.station [Examples.pingProfile] Examples.noHandlers).client.transport
          (Examples.station [Examples.pingProfile] Examples.noHandlers).client.writes
          (Frame.CallError "1" ocppj.NotSupported
            ("unsupported action " ++ "Ping" ++ " on charging station")))] ∧
    ((Examples.station [Examples.pingProfile] Examples.noHandlers).handleIncomingRequest
        (Examples.request "Ping") "1" "Ping").panicked = false :=
  C3_not_supported _ (Examples.request "Ping") "1" "Ping" Examples.pingProfile (by decide)
    (Or.inr (by decide))

/-- C4: for an inbound call whose action is one of the cases of the dispatch
switch, whose request has the request type of that action, whose profile has
its handler installed, and whose dispatched handler method returns a non-nil
response and a nil error, `handleIncomingRequest` calls that method once and
emits exactly one reply, the CallResult with the call's id and exactly the
response returned; no CallError is written and there is no panic. -/
theorem C4_handler_response_sent (cs : chargingStation) (request : Request)
    (requestId action : String) (profile : Profile) (profileField field : HandlerField)
    (method : String) (hp h : Handler) (response : Response)
    (hfound : cs.client.GetProfileForFeature action = some profile)
    (hname : handleIncomingRequest.profileCase profile.Name = some profileField)
    (hprofile : cs.handler profileField = some hp)
    (hcase : handleIncomingRequest.actionCase action = some (field, method))
    (hinstalled : cs.handler field = some h)
    (htype : request.GetFeatureName = action)
    (hreturn : h method request = (some response, none)) :
    (cs.handleIncomingRequest request requestId action).trace =
      [Effect.handler field method request,
       Effect.write (Frame.CallResult requestId response)
        (cs.client.transport cs.client.writes (Frame.CallResult requestId response))] ∧
    (cs.handleIncomingRequest request requestId action).panicked = false := by
  have hs : cs.supported profile = true := by
    simp [chargingStation.supported, hname, hprofile]
  subst htype
  simp only [chargingStation.handleIncomingRequest, hfound, hs, hcase, hinstalled,
    hreturn, chargingStation.sendResponse, Client.SendResponse, Client.writeFrame,
    Bool.not_true, Bool.false_eq_true, if_false, if_true]
  split <;> simp

/-- Witness for C4: the reservation profile with its handler installed,
receiving `Call(id "7", CancelReservation)`. -/
theorem C4_handler_response_sent_witness :
    ((Examples.station [Examples.reservationProfile]
        (Examples.onlyReservation Examples.okHandler)).handleIncomingRequest
        (Examples.request "CancelReservation") "7" "CancelReservation").trace =
      [Effect.handler HandlerField.reservationHandler "OnCancelReservation"
          (Examples.request "CancelReservation"),
       Effect.write (Frame.CallResult "7" ⟨"CancelReservation", "ok"⟩)
        ((Examples.station [Examples.reservationProfile]
            (Examples.onlyReservation Examples.okHandler)).client.transport
          (Examples.station [Examples.reservationProfile]
            (Examples.onlyReservation Examples.okHandler)).client.writes
          (Frame.CallResult "7" ⟨"CancelReservation", "ok"⟩))] ∧
    ((Examples.station [Examples.reservationProfile]
        (Examples.onlyReservation Examples.okHandler)).handleIncomingRequest
        (Examples.request "CancelReservation") "7" "CancelReservation").panicked = false :=
  C4_handler_response_sent _ (Examples.request "CancelReservation") "7" "CancelReservation"
    Examples.reservationProfile HandlerField.reservationHandler HandlerField.reservationHandler
    "OnCancelReservation" Examples.okHandler Examples.okHandler ⟨"CancelReservation", "ok"⟩
    (by decide) (by decide) rfl (by decide) rfl rfl rfl

/-- C5: when the handler returned a non-nil error, `sendResponse` emits exactly
one reply, the CallError with the call's id, the code ProtocolError (a member
of the fixed taxonomy) and the text of the handler's error as description;
this holds whatever response came with the error, so no CallResult is sent
even for a non-nil response. -/
theorem C5_handler_error_reply (cs : chargingStation) (response : ResponseInterface)
    (err : GoError) (requestId : String) :
    (cs.sendResponse response (some err) requestId).trace =
      [Effect.write (Frame.CallError requestId ocppj.ProtocolError err.Error)
        (cs.client.transport cs.client.writes
          (Frame.CallError requestId ocppj.ProtocolError err.Error))] ∧
    ocppj.ProtocolError ∈ ocppj.taxonomy ∧
    (cs.sendResponse response (some err) requestId).panicked = false := by
  refine ⟨?_, by decide, ?_⟩
  · simp only [chargingStation.sendResponse, Client.SendError, Client.writeFrame]
    split <;> simp
  · simp only [chargingStation.sendResponse, Client.SendError, Client.writeFrame]
    split <;> simp

/-- C6, the code at the failing input: the reservation handler is installed and
returns `(nil, nil)` for `Call(id "1", CancelReservation)`. The handler is
called; its nil pointer reaches `sendResponse` inside a non-nil interface
value, so the branch `response == nil` is not taken and `client.SendResponse`
is called with a nil pointer, which writes nothing: the call gets no reply at
all, and the only trace of the anomaly is the error of `SendResponse` pushed
to the error channel. The branch `response == nil` itself, taken for the nil
interface, writes nothing either. -/
theorem C6_nil_response_no_reply :
    ((Examples.station [Examples.reservationProfile]
        (Examples.onlyReservation Examples.silentHandler)).handleIncomingRequest
        (Examples.request "CancelReservation") "1" "CancelReservation").trace =
      [Effect.handler HandlerField.reservationHandler "OnCancelReservation"
          (Examples.request "CancelReservation")] ∧
    ((Examples.station [Examples.reservationProfile]
        (Examples.onlyReservation Examples.silentHandler)).handleIncomingRequest
        (Examples.request "CancelReservation") "1" "CancelReservation").station.errC =
      some [GoError.errorf ("replying to request 1 with \x27protocol error\x27: " ++
        Examples.invalidPayload.Error)] ∧
    ((Examples.station [Examples.reservationProfile]
        (Examples.onlyReservation Examples.silentHandler)).handleIncomingRequest
        (Examples.request "CancelReservation") "1" "CancelReservation").station.client.writes
      = 0 ∧
    ((Examples.station [Examples.reservationProfile]
        (Examples.onlyReservation Examples.silentHandler)).sendResponse
        ResponseInterface.nil none "1").trace = [] ∧
    ((Examples.station [Examples.reservationProfile]
        (Examples.onlyReservation Examples.silentHandler)).sendResponse
        ResponseInterface.nil none "1").station.errC =
      some [GoError.errorf "empty response to request 1"] := by
  decide

theorem setLane_lanes_same (q : CallbackQueue) (id : String) (lane : Lane) :
    (q.setLane id lane).lanes id = lane := by
  simp [CallbackQueue.setLane]

theorem setLane_closed (q : CallbackQueue) (id : String) (lane : Lane) :
    (q.setLane id lane).closed = q.closed := rfl

/-- What `Dequeue` does on a lane whose slot is InFlight. -/
theorem Dequeue_inFlight (q : CallbackQueue) (c : Client) (id : String) (e : QueueEntry)
    (h : (q.lanes id).inFlight = some e) :
    (q.Dequeue c id).callback = some e.callback ∧
    (q.Dequeue c id).queue.lanes id = (q.lanes id).resolved ∧
    (q.Dequeue c id).queue.closed = q.closed ∧
    invokedCallbacks (q.Dequeue c id).trace = [] ∧
    acceptedCallbacks (q.Dequeue c id).trace = [] ∧
    rejectedRequests (q.Dequeue c id).trace = [] ∧
    submittedRequests (q.Dequeue c id).trace = [] ∧
    writtenCalls (q.Dequeue c id).trace = (q.lanes id).buffer.head?.toList.map QueueEntry.send := by
  unfold CallbackQueue.Dequeue
  rw [h]
  cases hb : (q.lanes id).buffer with
  | nil => simp [setLane_lanes_same, setLane_closed, Lane.resolved, hb, invokedCallbacks,
      acceptedCallbacks, rejectedRequests, submittedRequests, writtenCalls]
  | cons next rest =>
    simp [setLane_lanes_same, setLane_closed, Lane.resolved, hb, invokedCallbacks,
      acceptedCallbacks, rejectedRequests, submittedRequests, writtenCalls,
      Client.SendRequest, Client.writeFrame, Effect.invoked?, Effect.accepted?,
      Effect.rejected?, Effect.submitted?, Effect.call?]

/-- What `Dequeue` does on a lane whose slot is Idle. -/
theorem Dequeue_idle (q : CallbackQueue) (c : Client) (id : String)
    (h : (q.lanes id).inFlight = none) :
    (q.Dequeue c id).callback = none ∧ (q.Dequeue c id).queue = q ∧
    (q.Dequeue c id).client = c ∧ (q.Dequeue c id).trace = [] := by
  unfold CallbackQueue.Dequeue
  rw [h]
  simp

/-- The trace of `Dequeue` holds no callback invocation. -/
theorem Dequeue_callbackEffects (q : CallbackQueue) (c : Client) (id : String) :
    callbackEffects (q.Dequeue c id).trace = [] := by
  unfold CallbackQueue.Dequeue
  cases (q.lanes id).inFlight with
  | none => simp [callbackEffects]
  | some e =>
    cases (q.lanes id).buffer with
    | nil => simp [callbackEffects]
    | cons next rest =>
      simp [callbackEffects, Client.SendRequest, Client.writeFrame, Effect.invoked?]

/-- The iteration that receives an error while an entry is InFlight. -/
theorem asyncCallbackHandler_error_inFlight (cs : chargingStation) (e : QueueEntry)
    (protoError : GoError) (pending : List GoError)
    (hhead : cs.main.inFlight = some e) (hch : cs.errorHandler = protoError :: pending) :
    ∃ it, cs.asyncCallbackHandler SelectCase.errorHandler = some it ∧
      it.trace = (cs.callbacks.Dequeue cs.client "main").trace ++
        [Effect.callback e.callback none (some protoError)] ∧
      callbackEffects it.trace = [Effect.callback e.callback none (some protoError)] ∧
      it.station.main = cs.main.resolved ∧
      it.station.callbacks = (cs.callbacks.Dequeue cs.client "main").queue ∧
      it.station.errC = cs.errC ∧
      it.station.errorHandler = pending ∧
      it.returned = false := by
  have hd := Dequeue_inFlight cs.callbacks cs.client "main" e hhead
  have hc := Dequeue_callbackEffects cs.callbacks cs.client "main"
  simp only [callbackEffects] at hc
  simp only [chargingStation.asyncCallbackHandler, hch, hd.1]
  refine ⟨_, rfl, rfl, ?_, ?_, rfl, rfl, rfl, rfl⟩
  · simp only [callbackEffects, List.filter_append, hc]
    simp [Effect.invoked?]
  · exact hd.2.1

/-- The iteration that receives a response while an entry is InFlight. -/
theorem asyncCallbackHandler_response_inFlight (cs : chargingStation) (e : QueueEntry)
    (confirmation : Response) (pending : List Response)
    (hhead : cs.main.inFlight = some e) (hch : cs.responseHandler = confirmation :: pending) :
    ∃ it, cs.asyncCallbackHandler SelectCase.responseHandler = some it ∧
      it.trace = (cs.callbacks.Dequeue cs.client "main").trace ++
        [Effect.callback e.callback (some confirmation) none] ∧
      callbackEffects it.trace = [Effect.callback e.callback (some confirmation) none] ∧
      it.station.main = cs.main.resolved ∧
      it.station.callbacks = (cs.callbacks.Dequeue cs.client "main").queue ∧
      it.station.errC = cs.errC ∧
      it.station.responseHandler = pending ∧
      it.returned = false := by
  have hd := Dequeue_inFlight cs.callbacks cs.client "main" e hhead
  have hc := Dequeue_callbackEffects cs.callbacks cs.client "main"
  simp only [callbackEffects] at hc
  simp only [chargingStation.asyncCallbackHandler, hch, hd.1]
  refine ⟨_, rfl, rfl, ?_, ?_, rfl, rfl, rfl, rfl⟩
  · simp only [callbackEffects, List.filter_append, hc]
    simp [Effect.invoked?]
  · exact hd.2.1

/-- C7, counterexample: the station sends an Authorize request with callback
number 7; the Call is written with correlation id "1" and is InFlight. An
error reply with correlation id "2" is then received. The iteration that
consumes it invokes callback 7 with that error and removes it from the queue
(the lane is Idle afterwards), and nothing is pushed to the error channel. -/
theorem C7_counterexample :
    (Examples.authorizeStation.execute
      [Op.SendRequestAsync (Examples.request "Authorize") (Callback.async 7),
       Op.error Examples.strayError,
       Op.asyncCallbackHandler SelectCase.errorHandler]).trace =
      [Effect.TryQueue "main" (Examples.request "Authorize") (Callback.async 7) none,
       Effect.write (Frame.Call "1" (Examples.request "Authorize")) none,
       Effect.callback (Callback.async 7) none (some Examples.strayError)] ∧
    Examples.strayError.messageId? = some "2" ∧
    (Examples.authorizeStation.execute
      [Op.SendRequestAsync (Examples.request "Authorize") (Callback.async 7)]).station.main =
      ⟨some ⟨Examples.request "Authorize", Callback.async 7⟩, []⟩ ∧
    (Examples.authorizeStation.execute
      [Op.SendRequestAsync (Examples.request "Authorize") (Callback.async 7),
       Op.error Examples.strayError,
       Op.asyncCallbackHandler SelectCase.errorHandler]).station.main = ⟨none, []⟩ ∧
    (Examples.authorizeStation.execute
      [Op.SendRequestAsync (Examples.request "Authorize") (Callback.async 7),
       Op.error Examples.strayError,
       Op.asyncCallbackHandler SelectCase.errorHandler]).station.errC = some [] := by
  decide

/-- C7, amended: `asyncCallbackHandler` makes no id check. Whenever a request's
callback is at the head of the queue (its entry is InFlight), the iteration
that consumes a reply, a response or an error with whatever correlation id,
removes that callback from the queue and invokes it exactly once with the
reply, and pushes nothing to the error channel. -/
theorem C7_reply_resolves_head (cs : chargingStation) (e : QueueEntry)
    (confirmation : Response) (pendingResponses : List Response)
    (protoError : GoError) (pendingErrors : List GoError)
    (hhead : cs.main.inFlight = some e) :
    (cs.responseHandler = confirmation :: pendingResponses →
      ∃ it, cs.asyncCallbackHandler SelectCase.responseHandler = some it ∧
        callbackEffects it.trace = [Effect.callback e.callback (some confirmation) none] ∧
        it.station.main = cs.main.resolved ∧
        it.station.errC = cs.errC) ∧
    (cs.errorHandler = protoError :: pendingErrors →
      ∃ it, cs.asyncCallbackHandler SelectCase.errorHandler = some it ∧
        callbackEffects it.trace = [Effect.callback e.callback none (some protoError)] ∧
        it.station.main = cs.main.resolved ∧
        it.station.errC = cs.errC) := by
  constructor
  · intro hch
    obtain ⟨it, h1, _, h3, h4, _, h6, _⟩ :=
      asyncCallbackHandler_response_inFlight cs e confirmation pendingResponses hhead hch
    exact ⟨it, h1, h3, h4, h6⟩
  · intro hch
    obtain ⟨it, h1, _, h3, h4, _, h6, _⟩ :=
      asyncCallbackHandler_error_inFlight cs e protoError pendingErrors hhead hch
    exact ⟨it, h1, h3, h4, h6⟩

/-- Witness for C7: a station with the callback 7 at the head of the queue, a
response and an error (correlation id "2") waiting on the channels. -/
theorem C7_reply_resolves_head_witness :
    (∃ it, Examples.busyStation.asyncCallbackHandler SelectCase.responseHandler = some it ∧
        callbackEffects it.trace =
          [Effect.callback (Callback.async 7) (some Examples.authorizeResponse) none] ∧
        it.station.main = Examples.busyStation.main.resolved ∧
        it.station.errC = Examples.busyStation.errC) ∧
    (∃ it, Examples.busyStation.asyncCallbackHandler SelectCase.errorHandler = some it ∧
        callbackEffects it.trace =
          [Effect.callback (Callback.async 7) none (some Examples.strayError)] ∧
        it.station.main = Examples.busyStation.main.resolved ∧
        it.station.errC = Examples.busyStation.errC) :=
  ⟨(C7_reply_resolves_head Examples.busyStation
      ⟨Examples.request "Authorize", Callback.async 7⟩ Examples.authorizeResponse []
      Examples.strayError [] (by decide)).1 rfl,
   (C7_reply_resolves_head Examples.busyStation
      ⟨Examples.request "Authorize", Callback.async 7⟩ Examples.authorizeResponse []
      Examples.strayError [] (by decide)).2 rfl⟩

/-- C10: `onRequestTimeout` sends exactly one error on the channel
`errorHandler`, whose code is GenericError and whose message id is the request
id; with a callback at the head of the queue, the iteration of
`asyncCallbackHandler` that consumes it invokes that callback exactly once
with a nil response and that error and removes it from the queue. The station
after the timeout is the station in which a peer error with the same content
was received, and an error received from the peer is consumed in the same
way. -/
theorem C10_timeout_resolves_head (cs : chargingStation) (rID action : String)
    (request : Request) (e : QueueEntry) (peerError : GoError)
    (hempty : cs.errorHandler = []) (hhead : cs.main.inFlight = some e) :
    (cs.onRequestTimeout rID action request).errorHandler = [timeoutError rID] ∧
    (timeoutError rID).code? = some ocppj.GenericError ∧
    (timeoutError rID).messageId? = some rID ∧
    cs.onRequestTimeout rID action request =
      { cs with errorHandler := [GoError.ocpp ocppj.GenericError
          "request timed out, no response received from server" rID] } ∧
    (∃ it, (cs.onRequestTimeout rID action request).asyncCallbackHandler
          SelectCase.errorHandler = some it ∧
        callbackEffects it.trace =
          [Effect.callback e.callback none (some (timeoutError rID))] ∧
        it.station.main = cs.main.resolved ∧
        it.station.errorHandler = []) ∧
    (∃ it, ({ cs with errorHandler := [peerError] } : chargingStation).asyncCallbackHandler
          SelectCase.errorHandler = some it ∧
        callbackEffects it.trace = [Effect.callback e.callback none (some peerError)] ∧
        it.station.main = cs.main.resolved ∧
        it.station.errorHandler = []) := by
  have hsend : cs.onRequestTimeout rID action request =
      { cs with errorHandler := [timeoutError rID] } := by
    simp [chargingStation.onRequestTimeout, hempty, timeoutError]
  refine ⟨by rw [hsend], rfl, rfl, hsend, ?_, ?_⟩
  · rw [hsend]
    obtain ⟨it, h1, _, h3, h4, _, _, h7, _⟩ :=
      asyncCallbackHandler_error_inFlight
        ({ cs with errorHandler := [timeoutError rID] } : chargingStation) e
        (timeoutError rID) [] hhead rfl
    exact ⟨it, h1, h3, h4, h7⟩
  · obtain ⟨it, h1, _, h3, h4, _, _, h7, _⟩ :=
      asyncCallbackHandler_error_inFlight
        ({ cs with errorHandler := [peerError] } : chargingStation) e peerError [] hhead rfl
    exact ⟨it, h1, h3, h4, h7⟩

/-- Witness for C10: the request with id "1" of a station whose queue head is
callback 7 times out. -/
theorem C10_timeout_resolves_head_witness :
    Examples.waitingStation.errorHandler = [] ∧
    Examples.waitingStation.main.inFlight =
      some ⟨Examples.request "Authorize", Callback.async 7⟩ ∧
    (Examples.waitingStation.onRequestTimeout "1" "Authorize"
      (Examples.request "Authorize")).errorHandler = [timeoutError "1"] ∧
    (timeoutError "1").code? = some ocppj.GenericError ∧
    (timeoutError "1").messageId? = some "1" ∧
    Examples.waitingStation.onRequestTimeout "1" "Authorize" (Examples.request "Authorize") =
      { Examples.waitingStation with errorHandler := [GoError.ocpp ocppj.GenericError
          "request timed out, no response received from server" "1"] } ∧
    (∃ it, (Examples.waitingStation.onRequestTimeout "1" "Authorize"
          (Examples.request "Authorize")).asyncCallbackHandler
          SelectCase.errorHandler = some it ∧
        callbackEffects it.trace =
          [Effect.callback (Callback.async 7) none (some (timeoutError "1"))] ∧
        it.station.main = Examples.waitingStation.main.resolved ∧
        it.station.errorHandler = []) ∧
    (∃ it, ({ Examples.waitingStation with errorHandler := [Examples.strayError] } :
          chargingStation).asyncCallbackHandler SelectCase.errorHandler = some it ∧
        callbackEffects it.trace =
          [Effect.callback (Callback.async 7) none (some Examples.strayError)] ∧
        it.station.main = Examples.waitingStation.main.resolved ∧
        it.station.errorHandler = []) :=
  ⟨rfl, by decide,
    C10_timeout_resolves_head Examples.waitingStation "1" "Authorize"
      (Examples.request "Authorize") ⟨Examples.request "Authorize", Callback.async 7⟩
      Examples.strayError rfl (by decide)⟩

/-- The three ways `TryQueue` goes on an open queue: the slot is InFlight and
the entry is buffered; the slot is Idle and the send function succeeds; the
slot is Idle and the send function fails. -/
theorem TryQueue_cases (q : CallbackQueue) (c : Client) (id : String) (send : Request)
    (cb : Callback) (hopen : q.closed = false) :
    (∃ e, (q.lanes id).inFlight = some e ∧
      q.TryQueue c id send cb =
        ⟨none, q.setLane id ⟨some e, (q.lanes id).buffer ++ [⟨send, cb⟩]⟩, c, []⟩) ∨
    ((q.lanes id).inFlight = none ∧
      q.TryQueue c id send cb =
        ⟨none, q.setLane id ⟨some ⟨send, cb⟩, (q.lanes id).buffer⟩,
          { c with writes := c.writes + 1 },
          [Effect.write (Frame.Call (c.messageId c.writes) send) none]⟩) ∨
    ((q.lanes id).inFlight = none ∧ ∃ err,
      q.TryQueue c id send cb =
        ⟨some err, q, { c with writes := c.writes + 1 },
          [Effect.write (Frame.Call (c.messageId c.writes) send) (some err)]⟩) := by
  unfold CallbackQueue.TryQueue
  simp only [hopen, Bool.false_eq_true, if_false]
  cases hf : (q.lanes id).inFlight with
  | some e => exact Or.inl ⟨e, rfl, rfl⟩
  | none =>
    cases hw : c.transport c.writes (Frame.Call (c.messageId c.writes) send) with
    | none =>
      refine Or.inr (Or.inl ⟨rfl, ?_⟩)
      simp [Client.SendRequest, Client.writeFrame, hw]
    | some err =>
      refine Or.inr (Or.inr ⟨rfl, err, ?_⟩)
      simp [Client.SendRequest, Client.writeFrame, hw]

/-- Consistency is kept by the queueing step shared by `SendRequest` and
`SendRequestAsync`. -/
theorem Consistent_TryQueue (x : Execution) (hx : x.Consistent) (request : Request)
    (cb : Callback) :
    Execution.Consistent
      ⟨{ x.station with
          callbacks := (x.station.callbacks.TryQueue x.station.client "main" request cb).queue
          client := (x.station.callbacks.TryQueue x.station.client "main" request cb).client },
        x.trace ++
          Effect.TryQueue "main" request cb
            (x.station.callbacks.TryQueue x.station.client "main" request cb).err ::
          (x.station.callbacks.TryQueue x.station.client "main" request cb).trace,
        x.returned⟩ := by
  have hopen := hx.isOpen
  have hidle := hx.idleEmpty
  have hfifo := hx.fifo
  have horder := hx.order
  have hflight := hx.flight
  simp only [chargingStation.main, Lane.pending] at hidle hfifo horder hflight
  rcases TryQueue_cases x.station.callbacks x.station.client "main" request cb hopen with
    ⟨e, hf, hq⟩ | ⟨hf, hq⟩ | ⟨hf, err, hq⟩
  · rw [hq]
    rw [hf] at hfifo hflight
    constructor
    · simpa [setLane_closed] using hopen
    · simp [chargingStation.main, setLane_lanes_same]
    · simp [chargingStation.main, setLane_lanes_same, Lane.pending, acceptedCallbacks,
        invokedCallbacks, Effect.accepted?, Effect.invoked?] at hfifo ⊢
      simp [hfifo]
    · simp [chargingStation.main, setLane_lanes_same, submittedRequests, writtenCalls,
        Effect.submitted?, Effect.call?] at horder ⊢
      simp [horder]
    · simp [chargingStation.main, setLane_lanes_same, rejectedRequests, writtenCalls,
        invokedCallbacks, Effect.rejected?, Effect.call?, Effect.invoked?] at hflight ⊢
      omega
  · rw [hq]
    have hb := hidle hf
    rw [hf, hb] at hfifo
    rw [hf] at hflight
    rw [hb] at horder
    constructor
    · simpa [setLane_closed] using hopen
    · simp [chargingStation.main, setLane_lanes_same]
    · simp [chargingStation.main, setLane_lanes_same, Lane.pending, acceptedCallbacks,
        invokedCallbacks, Effect.accepted?, Effect.invoked?, hb] at hfifo ⊢
      simp [hfifo]
    · simp [chargingStation.main, setLane_lanes_same, submittedRequests, writtenCalls,
        Effect.submitted?, Effect.call?, hb] at horder ⊢
      simp [horder]
    · simp [chargingStation.main, setLane_lanes_same, rejectedRequests, writtenCalls,
        invokedCallbacks, Effect.rejected?, Effect.call?, Effect.invoked?] at hflight ⊢
      omega
  · rw [hq]
    have hb := hidle hf
    rw [hf, hb] at hfifo
    rw [hf] at hflight
    rw [hb] at horder
    constructor
    · simpa using hopen
    · simpa [chargingStation.main] using hidle
    · simp [chargingStation.main, Lane.pending, acceptedCallbacks,
        invokedCallbacks, Effect.accepted?, Effect.invoked?, hb, hf] at hfifo ⊢
      simp [hfifo]
    · simp [chargingStation.main, submittedRequests, writtenCalls,
        Effect.submitted?, Effect.call?, hb] at horder ⊢
      simp [horder]
    · simp [chargingStation.main, rejectedRequests, writtenCalls,
        invokedCallbacks, Effect.rejected?, Effect.call?, Effect.invoked?, hf] at hflight ⊢
      omega

/-- Consistency depends on the callback queue and the trace only. -/
theorem Consistent_of_eq (x y : Execution) (hx : x.Consistent)
    (hc : y.station.callbacks = x.station.callbacks) (ht : y.trace = x.trace) :
    y.Consistent := by
  have hm : y.station.main = x.station.main := by simp [chargingStation.main, hc]
  constructor
  · rw [hc]; exact hx.isOpen
  · rw [hm]; exact hx.idleEmpty
  · rw [hm, ht]; exact hx.fifo
  · rw [hm, ht]; exact hx.order
  · rw [hm, ht]; exact hx.flight

/-- Pushing to the error channel leaves the callback queue alone. -/
theorem error_callbacks (cs : chargingStation) (err : GoError) :
    (cs.error err).callbacks = cs.callbacks := by
  unfold chargingStation.error
  split <;> rfl

/-- Consistency is kept when the InFlight entry is dequeued and its callback invoked. -/
theorem Consistent_Dequeue (x y : Execution) (hx : x.Consistent) (e : QueueEntry)
    (hf : x.station.main.inFlight = some e) (response : Option Response)
    (err : Option GoError)
    (hc : y.station.callbacks = (x.station.callbacks.Dequeue x.station.client "main").queue)
    (ht : y.trace = x.trace ++ ((x.station.callbacks.Dequeue x.station.client "main").trace ++
      [Effect.callback e.callback response err])) :
    y.Consistent := by
  obtain ⟨_, hlane, hclosed, hinv, hacc, hrej, hsub, hwr⟩ :=
    Dequeue_inFlight x.station.callbacks x.station.client "main" e hf
  have hopen := hx.isOpen
  have hidle := hx.idleEmpty
  have hfifo := hx.fifo
  have horder := hx.order
  have hflight := hx.flight
  simp only [chargingStation.main, Lane.pending] at hf hidle hfifo horder hflight
  rw [hf] at hfifo hflight
  have hm : y.station.main = (x.station.callbacks.lanes "main").resolved := by
    simp [chargingStation.main, hc, hlane]
  simp only [invokedCallbacks, acceptedCallbacks, rejectedRequests, submittedRequests,
    writtenCalls] at hinv hacc hrej hsub hwr hfifo horder hflight
  constructor
  · rw [hc, hclosed]; exact hopen
  · rw [hm]
    cases hb : (x.station.callbacks.lanes "main").buffer <;> simp [Lane.resolved, hb]
  · rw [hm, ht]
    simp only [invokedCallbacks, acceptedCallbacks, List.filterMap_append, hinv, hacc, hfifo]
    cases hb : (x.station.callbacks.lanes "main").buffer <;>
      simp [Lane.resolved, Lane.pending, hb, Effect.invoked?, Effect.accepted?]
  · rw [hm, ht]
    simp only [submittedRequests, writtenCalls, List.filterMap_append, hsub, hwr, horder]
    cases hb : (x.station.callbacks.lanes "main").buffer <;>
      simp [Lane.resolved, hb, Effect.submitted?, Effect.call?]
  · rw [hm, ht]
    simp only [invokedCallbacks, rejectedRequests, writtenCalls, List.filterMap_append,
      hinv, hrej, hwr, List.length_append, hflight]
    cases hb : (x.station.callbacks.lanes "main").buffer <;>
      simp [Lane.resolved, hb, Effect.invoked?, Effect.rejected?, Effect.call?] <;> omega

/-- Consistency is kept by one iteration of `asyncCallbackHandler`. -/
theorem Consistent_iteration (x : Execution) (hx : x.Consistent) (ready : SelectCase)
    (it : Iteration) (h : x.station.asyncCallbackHandler ready = some it) :
    Execution.Consistent ⟨it.station, x.trace ++ it.trace, it.returned⟩ := by
  cases ready with
  | responseHandler =>
    cases hch : x.station.responseHandler with
    | nil => simp [chargingStation.asyncCallbackHandler, hch] at h
    | cons confirmation pending =>
      cases hf : x.station.main.inFlight with
      | some e =>
        obtain ⟨it1, h1, h2, _, _, h5, _⟩ :=
          asyncCallbackHandler_response_inFlight x.station e confirmation pending hf hch
        rw [h1] at h
        cases h
        exact Consistent_Dequeue x _ hx e hf (some confirmation) none h5 (by simp [h2])
      | none =>
        obtain ⟨d1, d2, d3, d4⟩ :=
          Dequeue_idle x.station.callbacks x.station.client "main" hf
        simp only [chargingStation.asyncCallbackHandler, hch, d1, d2, d3, d4] at h
        cases h
        exact Consistent_of_eq x _ hx (by simp [error_callbacks]) (by simp)
  | errorHandler =>
    cases hch : x.station.errorHandler with
    | nil => simp [chargingStation.asyncCallbackHandler, hch] at h
    | cons protoError pending =>
      cases hf : x.station.main.inFlight with
      | some e =>
        obtain ⟨it1, h1, h2, _, _, h5, _⟩ :=
          asyncCallbackHandler_error_inFlight x.station e protoError pending hf hch
        rw [h1] at h
        cases h
        exact Consistent_Dequeue x _ hx e hf none (some protoError) h5 (by simp [h2])
      | none =>
        obtain ⟨d1, d2, d3, d4⟩ :=
          Dequeue_idle x.station.callbacks x.station.client "main" hf
        simp only [chargingStation.asyncCallbackHandler, hch, d1, d2, d3, d4] at h
        cases h
        exact Consistent_of_eq x _ hx (by simp [error_callbacks]) (by simp)
  | stopC =>
    cases hch : x.station.stopC with
    | nil => simp [chargingStation.asyncCallbackHandler, hch] at h
    | cons signal pending =>
      simp only [chargingStation.asyncCallbackHandler, hch] at h
      cases h
      exact Consistent_of_eq x _ hx rfl (by simp)

/-- The station and the trace of `SendRequest` when the profile is found. -/
theorem SendRequest_found (cs : chargingStation) (request : Request) (chan : Nat)
    (profile : Profile)
    (hfound : cs.client.GetProfileForFeature request.GetFeatureName = some profile) :
    (cs.SendRequest request chan).station =
      { cs with
        callbacks := (cs.callbacks.TryQueue cs.client "main" request
          (Callback.asyncResponseC chan)).queue
        client := (cs.callbacks.TryQueue cs.client "main" request
          (Callback.asyncResponseC chan)).client } ∧
    (cs.SendRequest request chan).trace =
      Effect.TryQueue "main" request (Callback.asyncResponseC chan)
        (cs.callbacks.TryQueue cs.client "main" request (Callback.asyncResponseC chan)).err ::
      (cs.callbacks.TryQueue cs.client "main" request (Callback.asyncResponseC chan)).trace := by
  simp only [chargingStation.SendRequest, hfound]
  split <;> exact ⟨rfl, rfl⟩

/-- The three ways `SendRequestAsync` goes: rejected before the queue with the
station unchanged and no effect, or handed to `TryQueue`. -/
theorem SendRequestAsync_cases (cs : chargingStation) (request : Request) (cb : Callback) :
    ((cs.SendRequestAsync request cb).station = cs ∧
      (cs.SendRequestAsync request cb).trace = []) ∨
    ((cs.SendRequestAsync request cb).station =
      { cs with
        callbacks := (cs.callbacks.TryQueue cs.client "main" request cb).queue
        client := (cs.callbacks.TryQueue cs.client "main" request cb).client } ∧
    (cs.SendRequestAsync request cb).trace =
      Effect.TryQueue "main" request cb
        (cs.callbacks.TryQueue cs.client "main" request cb).err ::
      (cs.callbacks.TryQueue cs.client "main" request cb).trace) := by
  cases hfound : cs.client.GetProfileForFeature request.GetFeatureName with
  | none =>
    left
    simp [chargingStation.SendRequestAsync, hfound]
  | some profile =>
    by_cases hm : request.GetFeatureName ∈ SendRequestAsync.featureNames
    · right
      simp [chargingStation.SendRequestAsync, hfound, hm]
    · left
      simp [chargingStation.SendRequestAsync, hfound, hm]

/-- Consistency is kept by every operation. -/
theorem Consistent_perform (x : Execution) (hx : x.Consistent) (op : Op) :
    (x.perform op).Consistent := by
  cases op with
  | SendRequest request chan =>
    cases hfound : x.station.client.GetProfileForFeature request.GetFeatureName with
    | none =>
      refine Consistent_of_eq x _ hx ?_ ?_
      · simp [Execution.perform, chargingStation.SendRequest, hfound]
      · simp [Execution.perform, chargingStation.SendRequest, hfound]
    | some profile =>
      obtain ⟨h1, h2⟩ := SendRequest_found x.station request chan profile hfound
      refine Consistent_of_eq _ _
        (Consistent_TryQueue x hx request (Callback.asyncResponseC chan)) ?_ ?_
      · simp [Execution.perform, h1]
      · simp [Execution.perform, h2]
  | SendRequestAsync request cb =>
    rcases SendRequestAsync_cases x.station request cb with ⟨h1, h2⟩ | ⟨h1, h2⟩
    · refine Consistent_of_eq x _ hx ?_ ?_
      · simp [Execution.perform, h1]
      · simp [Execution.perform, h2]
    · refine Consistent_of_eq _ _ (Consistent_TryQueue x hx request cb) ?_ ?_
      · simp [Execution.perform, h1]
      · simp [Execution.perform, h2]
  | response confirmation => exact Consistent_of_eq x _ hx rfl rfl
  | error protoError => exact Consistent_of_eq x _ hx rfl rfl
  | onRequestTimeout rID action request => exact Consistent_of_eq x _ hx rfl rfl
  | asyncCallbackHandler ready =>
    by_cases hr : x.returned = true
    · simp only [Execution.perform, hr, if_true]
      exact hx
    · cases hit : x.station.asyncCallbackHandler ready with
      | none =>
        simp only [Execution.perform, hr, hit]
        exact hx
      | some it =>
        simp only [Execution.perform, hr, hit]
        exact Consistent_iteration x hx ready it hit

/-- Consistency is kept by every list of operations. -/
theorem Consistent_foldl (ops : List Op) (x : Execution) (hx : x.Consistent) :
    (ops.foldl Execution.perform x).Consistent := by
  induction ops generalizing x with
  | nil => exact hx
  | cons op ops ih => exact ih _ (Consistent_perform x hx op)

/-- Every execution from an open queue with an idle, empty lane "main" is consistent. -/
theorem Consistent_execute (cs : chargingStation) (ops : List Op)
    (hopen : cs.callbacks.closed = false) (hidle : cs.main = ⟨none, []⟩) :
    (cs.execute ops).Consistent := by
  refine Consistent_foldl ops _ ?_
  constructor
  · exact hopen
  · intro _; simp [hidle]
  · simp [hidle, acceptedCallbacks, invokedCallbacks, Lane.pending]
  · simp [hidle, submittedRequests, writtenCalls]
  · simp [hidle, rejectedRequests, writtenCalls, invokedCallbacks]

/-- C8: on a station whose callback queue starts open with an idle, empty lane
"main", after every sequence of sends, deliveries, timeouts and loop
iterations the callbacks of the accepted sends, in submission order, are the
callbacks invoked so far, in invocation order, followed by those still
pending in the queue. So the invoked callbacks are an initial segment of the
accepted ones: none is invoked before an earlier-submitted one, and when the
accepted callbacks are pairwise distinct none is invoked twice. -/
theorem C8_callbacks_fifo (cs : chargingStation) (ops : List Op)
    (hopen : cs.callbacks.closed = false) (hidle : cs.main = ⟨none, []⟩) :
    acceptedCallbacks (cs.execute ops).trace =
      invokedCallbacks (cs.execute ops).trace ++
        (cs.execute ops).station.main.pending.map QueueEntry.callback ∧
    invokedCallbacks (cs.execute ops).trace <+: acceptedCallbacks (cs.execute ops).trace ∧
    ((acceptedCallbacks (cs.execute ops).trace).Nodup →
      (invokedCallbacks (cs.execute ops).trace).Nodup) := by
  have h := (Consistent_execute cs ops hopen hidle).fifo
  refine ⟨h, ⟨_, h.symm⟩, ?_⟩
  intro hn
  rw [h] at hn
  exact List.Nodup.of_append_left hn

/-- Witness for C8: two Authorize sends, then one response consumed. -/
theorem C8_callbacks_fifo_witness :
    Examples.authorizeStation.callbacks.closed = false ∧
    Examples.authorizeStation.main = ⟨none, []⟩ ∧
    (acceptedCallbacks (Examples.authorizeStation.execute Examples.history).trace =
      invokedCallbacks (Examples.authorizeStation.execute Examples.history).trace ++
        (Examples.authorizeStation.execute Examples.history).station.main.pending.map
          QueueEntry.callback ∧
    invokedCallbacks (Examples.authorizeStation.execute Examples.history).trace <+:
      acceptedCallbacks (Examples.authorizeStation.execute Examples.history).trace ∧
    ((acceptedCallbacks (Examples.authorizeStation.execute Examples.history).trace).Nodup →
      (invokedCallbacks (Examples.authorizeStation.execute Examples.history).trace).Nodup)) :=
  ⟨rfl, by decide, C8_callbacks_fifo Examples.authorizeStation Examples.history rfl (by decide)⟩

/-- `TryQueue` on an open queue whose slot is InFlight buffers the entry and
invokes no send function. -/
theorem TryQueue_inFlight (q : CallbackQueue) (c : Client) (id : String) (send : Request)
    (cb : Callback) (e : QueueEntry) (hopen : q.closed = false)
    (hf : (q.lanes id).inFlight = some e) :
    q.TryQueue c id send cb =
      ⟨none, q.setLane id ⟨some e, (q.lanes id).buffer ++ [⟨send, cb⟩]⟩, c, []⟩ := by
  unfold CallbackQueue.TryQueue
  simp only [hopen, Bool.false_eq_true, if_false, hf]

/-- A send performed while an entry is InFlight: the client is untouched, the
entry stays InFlight, no Call is written, and the entry the send submits, if
it submits one, is reported accepted and appended to the buffer. -/
theorem perform_send_inFlight (x : Execution) (op : Op) (e : QueueEntry)
    (hopen : x.station.callbacks.closed = false) (hf : x.station.main.inFlight = some e)
    (hs : op.isSend = true) :
    (x.perform op).station.callbacks.closed = false ∧
    (x.perform op).station.main.inFlight = some e ∧
    (x.perform op).station.client = x.station.client ∧
    writtenCalls (x.perform op).trace = writtenCalls x.trace ∧
    (x.perform op).station.main.buffer =
      x.station.main.buffer ++ (x.station.client.submits op).toList ∧
    submittedEntries (x.perform op).trace =
      submittedEntries x.trace ++ (x.station.client.submits op).toList ∧
    acceptedCallbacks (x.perform op).trace =
      acceptedCallbacks x.trace ++
        (x.station.client.submits op).toList.map QueueEntry.callback := by
  have hq : ∀ request cb,
      x.station.callbacks.TryQueue x.station.client "main" request cb =
        ⟨none, x.station.callbacks.setLane "main"
          ⟨some e, (x.station.callbacks.lanes "main").buffer ++ [⟨request, cb⟩]⟩,
          x.station.client, []⟩ :=
    fun request cb => TryQueue_inFlight _ _ "main" request cb e hopen hf
  cases op with
  | SendRequest request chan =>
    cases hfound : x.station.client.GetProfileForFeature request.GetFeatureName with
    | none =>
      refine ⟨?_, ?_, ?_, ?_, ?_, ?_, ?_⟩ <;>
        simp [Execution.perform, chargingStation.SendRequest, Client.submits, hfound, hopen, hf]
    | some profile =>
      obtain ⟨h1, h2⟩ := SendRequest_found x.station request chan profile hfound
      rw [hq] at h1 h2
      refine ⟨?_, ?_, ?_, ?_, ?_, ?_, ?_⟩ <;>
        simp [Execution.perform, h1, h2, hopen, setLane_closed, chargingStation.main,
          setLane_lanes_same, writtenCalls, submittedEntries, acceptedCallbacks,
          Effect.call?, Effect.entry?, Effect.accepted?, Client.submits, hfound]
  | SendRequestAsync request cb =>
    cases hfound : x.station.client.GetProfileForFeature request.GetFeatureName with
    | none =>
      refine ⟨?_, ?_, ?_, ?_, ?_, ?_, ?_⟩ <;>
        simp [Execution.perform, chargingStation.SendRequestAsync, Client.submits, hfound,
          hopen, hf]
    | some profile =>
      by_cases hm : request.GetFeatureName ∈ SendRequestAsync.featureNames
      · refine ⟨?_, ?_, ?_, ?_, ?_, ?_, ?_⟩ <;>
          simp [Execution.perform, chargingStation.SendRequestAsync, hfound, hm, hq, hopen,
            setLane_closed, chargingStation.main, setLane_lanes_same, writtenCalls,
            submittedEntries, acceptedCallbacks, Effect.call?, Effect.entry?,
            Effect.accepted?, Client.submits]
      · refine ⟨?_, ?_, ?_, ?_, ?_, ?_, ?_⟩ <;>
          simp [Execution.perform, chargingStation.SendRequestAsync, Client.submits, hfound,
            hm, hopen, hf]
  | response confirmation => simp [Op.isSend] at hs
  | error protoError => simp [Op.isSend] at hs
  | onRequestTimeout rID action request => simp [Op.isSend] at hs
  | asyncCallbackHandler ready => simp [Op.isSend] at hs

/-- Sends performed one after the other while an entry is InFlight: the entries
they submit are appended to the buffer in the order of the sends. -/
theorem foldl_sends_inFlight (sends : List Op) (x : Execution) (e : QueueEntry)
    (hopen : x.station.callbacks.closed = false) (hf : x.station.main.inFlight = some e)
    (hs : ∀ op ∈ sends, op.isSend = true) :
    (sends.foldl Execution.perform x).station.main.inFlight = some e ∧
    writtenCalls (sends.foldl Execution.perform x).trace = writtenCalls x.trace ∧
    (sends.foldl Execution.perform x).station.main.buffer =
      x.station.main.buffer ++ sends.filterMap x.station.client.submits ∧
    submittedEntries (sends.foldl Execution.perform x).trace =
      submittedEntries x.trace ++ sends.filterMap x.station.client.submits ∧
    acceptedCallbacks (sends.foldl Execution.perform x).trace =
      acceptedCallbacks x.trace ++
        (sends.filterMap x.station.client.submits).map QueueEntry.callback := by
  induction sends generalizing x with
  | nil => exact ⟨hf, rfl, by simp, by simp, by simp⟩
  | cons op sends ih =>
    obtain ⟨h1, h2, h3, h4, h5, h6, h7⟩ :=
      perform_send_inFlight x op e hopen hf (hs op (List.mem_cons_self op sends))
    obtain ⟨k1, k2, k3, k4, k5⟩ :=
      ih (x.perform op) h1 h2 (fun o ho => hs o (List.mem_cons_of_mem op ho))
    rw [h3] at k3 k4 k5
    have hcons : (op :: sends).filterMap x.station.client.submits =
        (x.station.client.submits op).toList ++ sends.filterMap x.station.client.submits := by
      cases hsub : x.station.client.submits op <;> simp [List.filterMap_cons, hsub]
    refine ⟨k1, by rw [List.foldl_cons, k2, h4], ?_, ?_, ?_⟩
    · rw [List.foldl_cons, k3, h5, hcons, List.append_assoc]
    · rw [List.foldl_cons, k4, h6, hcons, List.append_assoc]
    · rw [List.foldl_cons, k5, h7, hcons, List.map_append, List.append_assoc]

/-- C9: on a station whose callback queue starts open with an idle, empty lane
"main", after every sequence of operations (1) every Call written to the
transport is resolved (its callback invoked), rejected at once, or the one
entry InFlight, so at most one written request is unresolved; (2) the send
functions have been invoked in submission order, for exactly the submitted
requests that are not in the buffer; (3) when sends are made while an entry is
InFlight, that entry stays InFlight, no Call is written, and each send that
passes the checks of its operation (a registered feature; for
`SendRequestAsync` also one of its switch) is accepted and its entry appended
to the buffer, in the order of the sends: N such sends give one entry in
flight and N more entries in the buffer. -/
theorem C9_single_flight (cs : chargingStation) (ops sends : List Op) (e : QueueEntry)
    (hopen : cs.callbacks.closed = false) (hidle : cs.main = ⟨none, []⟩)
    (hsends : ∀ op ∈ sends, op.isSend = true) :
    (writtenCalls (cs.execute ops).trace).length =
      (invokedCallbacks (cs.execute ops).trace).length +
        (rejectedRequests (cs.execute ops).trace).length +
        (cs.execute ops).station.main.inFlight.toList.length ∧
    (writtenCalls (cs.execute ops).trace).length ≤
      (invokedCallbacks (cs.execute ops).trace).length +
        (rejectedRequests (cs.execute ops).trace).length + 1 ∧
    submittedRequests (cs.execute ops).trace =
      writtenCalls (cs.execute ops).trace ++
        (cs.execute ops).station.main.buffer.map QueueEntry.send ∧
    ((cs.execute ops).station.main.inFlight = some e →
      (cs.execute (ops ++ sends)).station.main.inFlight = some e ∧
      writtenCalls (cs.execute (ops ++ sends)).trace = writtenCalls (cs.execute ops).trace ∧
      (cs.execute (ops ++ sends)).station.main.buffer =
        (cs.execute ops).station.main.buffer ++
          sends.filterMap (cs.execute ops).station.client.submits ∧
      submittedEntries (cs.execute (ops ++ sends)).trace =
        submittedEntries (cs.execute ops).trace ++
          sends.filterMap (cs.execute ops).station.client.submits ∧
      acceptedCallbacks (cs.execute (ops ++ sends)).trace =
        acceptedCallbacks (cs.execute ops).trace ++
          (sends.filterMap (cs.execute ops).station.client.submits).map
            QueueEntry.callback ∧
      ((∀ op ∈ sends, ((cs.execute ops).station.client.submits op).isSome = true) →
        (cs.execute (ops ++ sends)).station.main.buffer.length =
          (cs.execute ops).station.main.buffer.length + sends.length)) := by
  have hc := Consistent_execute cs ops hopen hidle
  refine ⟨hc.flight, ?_, hc.order, ?_⟩
  · have h := hc.flight
    have hl : (cs.execute ops).station.main.inFlight.toList.length ≤ 1 := by
      cases (cs.execute ops).station.main.inFlight <;> simp
    omega
  · intro hf
    have hsplit : cs.execute (ops ++ sends) =
        sends.foldl Execution.perform (cs.execute ops) := by
      simp [chargingStation.execute, List.foldl_append]
    rw [hsplit]
    obtain ⟨k1, k2, k3, k4, k5⟩ :=
      foldl_sends_inFlight sends (cs.execute ops) e hc.isOpen hf hsends
    refine ⟨k1, k2, k3, k4, k5, ?_⟩
    intro hall
    rw [k3, List.length_append]
    congr 1
    clear k1 k2 k3 k4 k5 hsplit hsends
    induction sends with
    | nil => rfl
    | cons op rest ih =>
      have hop := hall op (List.mem_cons_self op rest)
      cases hsub : (cs.execute ops).station.client.submits op with
      | none => simp [hsub] at hop
      | some entry =>
        simp only [List.filterMap_cons, hsub, List.length_cons]
        rw [ih (fun o ho => hall o (List.mem_cons_of_mem op ho))]

/-- Witness for C9: after `Examples.history` the second Authorize is InFlight;
two more sends are then submitted, both are accepted and both sit in the
buffer, in the order of the sends. -/
theorem C9_single_flight_witness :
    Examples.authorizeStation.callbacks.closed = false ∧
    Examples.authorizeStation.main = ⟨none, []⟩ ∧
    (∀ op ∈ Examples.burst, op.isSend = true) ∧
    (Examples.authorizeStation.execute Examples.history).station.main.inFlight =
      some ⟨Examples.request "Authorize", Callback.asyncResponseC 2⟩ ∧
    Examples.burst.filterMap
        (Examples.authorizeStation.execute Examples.history).station.client.submits =
      [⟨Examples.request "Authorize", Callback.async 3⟩,
       ⟨Examples.request "Authorize", Callback.asyncResponseC 4⟩] ∧
    (writtenCalls (Examples.authorizeStation.execute Examples.history).trace).length ≤
      (invokedCallbacks (Examples.authorizeStation.execute Examples.history).trace).length +
        (rejectedRequests (Examples.authorizeStation.execute Examples.history).trace).length
        + 1 ∧
    (Examples.authorizeStation.execute (Examples.history ++ Examples.burst)).station.main.inFlight
        = some ⟨Examples.request "Authorize", Callback.asyncResponseC 2⟩ ∧
    writtenCalls (Examples.authorizeStation.execute (Examples.history ++ Examples.burst)).trace
        = writtenCalls (Examples.authorizeStation.execute Examples.history).trace ∧
    (Examples.authorizeStation.execute (Examples.history ++ Examples.burst)).station.main.buffer
        = (Examples.authorizeStation.execute Examples.history).station.main.buffer ++
          Examples.burst.filterMap
            (Examples.authorizeStation.execute Examples.history).station.client.submits :=
  ⟨rfl, by decide, by decide, by decide, by decide,
    (C9_single_flight Examples.authorizeStation Examples.history Examples.burst
      ⟨Examples.request "Authorize", Callback.asyncResponseC 2⟩ rfl (by decide)
      (by decide)).2.1,
    ((C9_single_flight Examples.authorizeStation Examples.history Examples.burst
      ⟨Examples.request "Authorize", Callback.asyncResponseC 2⟩ rfl (by decide)
      (by decide)).2.2.2 (by decide)).1,
    ((C9_single_flight Examples.authorizeStation Examples.history Examples.burst
      ⟨Examples.request "Authorize", Callback.asyncResponseC 2⟩ rfl (by decide)
      (by decide)).2.2.2 (by decide)).2.1,
    ((C9_single_flight Examples.authorizeStation Examples.history Examples.burst
      ⟨Examples.request "Authorize", Callback.asyncResponseC 2⟩ rfl (by decide)
      (by decide)).2.2.2 (by decide)).2.2.1⟩

/-- The runs of the witness of C9, evaluated: one Call is written for each of
the first two sends, the second only after the first is resolved, and the two
sends of the burst sit in the buffer in submission order. -/
theorem burst_evaluated :
    (Examples.authorizeStation.execute Examples.history).trace =
      [Effect.TryQueue "main" (Examples.request "Authorize") (Callback.async 1) none,
       Effect.write (Frame.Call "1" (Examples.request "Authorize")) none,
       Effect.TryQueue "main" (Examples.request "Authorize") (Callback.asyncResponseC 2) none,
       Effect.write (Frame.Call "2" (Examples.request "Authorize")) none,
       Effect.callback (Callback.async 1) (some Examples.authorizeResponse) none] ∧
    (Examples.authorizeStation.execute (Examples.history ++ Examples.burst)).station.main =
      ⟨some ⟨Examples.request "Authorize", Callback.asyncResponseC 2⟩,
       [⟨Examples.request "Authorize", Callback.async 3⟩,
        ⟨Examples.request "Authorize", Callback.asyncResponseC 4⟩]⟩ := by
  decide

/-- C11, counterexample: one request is InFlight and two are buffered when
`Stop` is called. After `Stop` the three entries are still queued, in
submission order, no callback has been invoked, and no case of the loop of
`asyncCallbackHandler` is ready, so no callback is invoked next either: none
of the three callbacks receives a cancellation outcome. -/
theorem C11_counterexample :
    Examples.stoppedStation.main =
      ⟨some ⟨Examples.request "Authorize", Callback.async 1⟩,
       [⟨Examples.request "Authorize", Callback.async 2⟩,
        ⟨Examples.request "Authorize", Callback.async 3⟩]⟩ ∧
    invokedCallbacks (Examples.authorizeStation.execute Examples.threeSends).trace = [] ∧
    (Examples.stoppedStation.asyncCallbackHandler SelectCase.responseHandler).isNone = true ∧
    (Examples.stoppedStation.asyncCallbackHandler SelectCase.errorHandler).isNone = true ∧
    (Examples.stoppedStation.asyncCallbackHandler SelectCase.stopC).isNone = true := by
  decide

/-- The cases of the loop of `asyncCallbackHandler` that are ready depend on
the three channels only. -/
theorem asyncCallbackHandler_ready (cs : chargingStation) (ready : SelectCase) :
    (cs.asyncCallbackHandler ready).isSome =
      (match ready with
       | .responseHandler => !cs.responseHandler.isEmpty
       | .errorHandler => !cs.errorHandler.isEmpty
       | .stopC => !cs.stopC.isEmpty) := by
  cases ready with
  | responseHandler =>
    cases hch : cs.responseHandler with
    | nil => simp [chargingStation.asyncCallbackHandler, hch]
    | cons confirmation pending =>
      simp only [chargingStation.asyncCallbackHandler, hch]
      split <;> simp
  | errorHandler =>
    cases hch : cs.errorHandler with
    | nil => simp [chargingStation.asyncCallbackHandler, hch]
    | cons protoError pending =>
      simp only [chargingStation.asyncCallbackHandler, hch]
      split <;> simp
  | stopC =>
    cases hch : cs.stopC with
    | nil => simp [chargingStation.asyncCallbackHandler, hch]
    | cons signal pending => simp [chargingStation.asyncCallbackHandler, hch]

/-- C11, amended: `Stop` is the single call `client.Stop()`. It invokes no
callback and resolves no entry: the callback queue of the station is left as
it was, so the InFlight entry and the buffered entries stay queued in
submission order, and the channels read by `asyncCallbackHandler` are left
as they were, so a case of its loop is ready after `Stop` exactly when it
was ready before. What a send issued after `Stop` returns is not stated. -/
theorem C11_Stop_leaves_queue (cs : chargingStation) (clientStop : Client → Client)
    (ready : SelectCase) :
    (cs.Stop clientStop).callbacks = cs.callbacks ∧
    (cs.Stop clientStop).main = cs.main ∧
    (cs.Stop clientStop).responseHandler = cs.responseHandler ∧
    (cs.Stop clientStop).errorHandler = cs.errorHandler ∧
    (cs.Stop clientStop).stopC = cs.stopC ∧
    (cs.Stop clientStop).errC = cs.errC ∧
    ((cs.Stop clientStop).asyncCallbackHandler ready).isSome =
      (cs.asyncCallbackHandler ready).isSome := by
  refine ⟨rfl, rfl, rfl, rfl, rfl, rfl, ?_⟩
  rw [asyncCallbackHandler_ready, asyncCallbackHandler_ready]
  rfl

/-- The trace of `Dequeue` delivers nothing to a callback. -/
theorem Dequeue_delivered (q : CallbackQueue) (c : Client) (id : String) (chan : Nat)
    (rest : List Effect) :
    delivered chan ((q.Dequeue c id).trace ++ rest) = delivered chan rest := by
  unfold CallbackQueue.Dequeue
  cases (q.lanes id).inFlight with
  | none => simp
  | some e =>
    cases (q.lanes id).buffer with
    | nil => simp
    | cons next more =>
      simp [delivered, Client.SendRequest, Client.writeFrame]

/-- Each typed operation is `typedReturn` at its own response type. -/
theorem typedOperations_spec (responseType : String)
    (op : Option Response → Option GoError → TypedReturn)
    (h : (responseType, op) ∈ typedOperations) : op = typedReturn responseType := by
  simp only [typedOperations, List.mem_cons, Prod.mk.injEq, List.mem_singleton,
    List.not_mem_nil, or_false] at h
  rcases h with h | h | h | h | h | h | h <;> (obtain ⟨h1, h2⟩ := h; subst h1; subst h2; rfl)

/-- C12, counterexample: `BootNotification` sends its request with
`SendRequest`; a response of type Authorize is received; the loop delivers
`(that response, nil)` to the callback of the request, so `SendRequest`
returns it with a nil error, and the type assertion of `BootNotification`
panics. -/
theorem C12_counterexample :
    (Examples.bootStation.SendRequest (Examples.request "BootNotification") 0).state =
      SendRequestState.awaiting 0 ∧
    delivered 0 (Examples.bootStation.execute Examples.crossedReply).trace =
      some (some Examples.authorizeResponse, none) ∧
    chargingStation.SendRequest.returned (Examples.request "BootNotification")
      (SendRequestState.awaiting 0)
      (delivered 0 (Examples.bootStation.execute Examples.crossedReply).trace) =
      (some Examples.authorizeResponse, none) ∧
    chargingStation.BootNotification (some Examples.authorizeResponse) none =
      TypedReturn.panicked := by
  decide

/-- C12, amended: for each of the seven typed operations, when the callback of
its request is at the head of the queue, (a) the iteration of
`asyncCallbackHandler` that consumes a response of the operation's own
response type makes the operation return that response with a nil error; (b)
the iteration that consumes an error makes it return a nil response with that
error; (c) an error returned by `SendRequest` before queueing is returned
with a nil response. In these cases the type assertion does not fail. -/
theorem C12_typed_operations_return (cs : chargingStation) (responseType : String)
    (op : Option Response → Option GoError → TypedReturn) (request : Request) (chan : Nat)
    (confirmation : Response) (pendingResponses : List Response)
    (protoError : GoError) (pendingErrors : List GoError) (early : GoError)
    (hop : (responseType, op) ∈ typedOperations)
    (hhead : cs.main.inFlight = some ⟨request, Callback.asyncResponseC chan⟩) :
    (cs.responseHandler = confirmation :: pendingResponses →
      confirmation.GetFeatureName = responseType →
      ∃ it, cs.asyncCallbackHandler SelectCase.responseHandler = some it ∧
        chargingStation.SendRequest.returned request (SendRequestState.awaiting chan)
          (delivered chan it.trace) = (some confirmation, none) ∧
        op (some confirmation) none = TypedReturn.returned (some confirmation) none) ∧
    (cs.errorHandler = protoError :: pendingErrors →
      ∃ it, cs.asyncCallbackHandler SelectCase.errorHandler = some it ∧
        chargingStation.SendRequest.returned request (SendRequestState.awaiting chan)
          (delivered chan it.trace) = (none, some protoError) ∧
        op none (some protoError) = TypedReturn.returned none (some protoError)) ∧
    op (chargingStation.SendRequest.returned request
        (SendRequestState.returned none (some early)) none).1
       (chargingStation.SendRequest.returned request
        (SendRequestState.returned none (some early)) none).2 =
      TypedReturn.returned none (some early) := by
  have hspec := typedOperations_spec responseType op hop
  subst hspec
  refine ⟨?_, ?_, ?_⟩
  · intro hch htype
    obtain ⟨it, h1, h2, _⟩ :=
      asyncCallbackHandler_response_inFlight cs _ confirmation pendingResponses hhead hch
    refine ⟨it, h1, ?_, ?_⟩
    · rw [h2, Dequeue_delivered]
      simp [delivered, chargingStation.SendRequest.returned,
        chargingStation.SendRequest.receive]
    · simp [typedReturn, htype]
  · intro hch
    obtain ⟨it, h1, h2, _⟩ :=
      asyncCallbackHandler_error_inFlight cs _ protoError pendingErrors hhead hch
    refine ⟨it, h1, ?_, ?_⟩
    · rw [h2, Dequeue_delivered]
      simp [delivered, chargingStation.SendRequest.returned,
        chargingStation.SendRequest.receive]
    · simp [typedReturn]
  · simp [typedReturn, chargingStation.SendRequest.returned]

/-- Witness for C12: `BootNotification` waiting on channel 0 while a
BootNotification response and an error are on the channels. -/
theorem C12_typed_operations_return_witness :
    (∃ it, Examples.bootWaiting.asyncCallbackHandler SelectCase.responseHandler = some it ∧
        chargingStation.SendRequest.returned (Examples.request "BootNotification")
          (SendRequestState.awaiting 0) (delivered 0 it.trace) =
          (some ⟨"BootNotification", "accepted"⟩, none) ∧
        chargingStation.BootNotification (some ⟨"BootNotification", "accepted"⟩) none =
          TypedReturn.returned (some ⟨"BootNotification", "accepted"⟩) none) ∧
    (∃ it, Examples.bootWaiting.asyncCallbackHandler SelectCase.errorHandler = some it ∧
        chargingStation.SendRequest.returned (Examples.request "BootNotification")
          (SendRequestState.awaiting 0) (delivered 0 it.trace) =
          (none, some Examples.strayError) ∧
        chargingStation.BootNotification none (some Examples.strayError) =
          TypedReturn.returned none (some Examples.strayError)) :=
  ⟨(C12_typed_operations_return Examples.bootWaiting provisioning.BootNotificationFeatureName
      chargingStation.BootNotification (Examples.request "BootNotification") 0
      ⟨"BootNotification", "accepted"⟩ [] Examples.strayError [] Examples.strayError
      (by simp [typedOperations]) (by decide)).1 rfl rfl,
   (C12_typed_operations_return Examples.bootWaiting provisioning.BootNotificationFeatureName
      chargingStation.BootNotification (Examples.request "BootNotification") 0
      ⟨"BootNotification", "accepted"⟩ [] Examples.strayError [] Examples.strayError
      (by simp [typedOperations]) (by decide)).2.1 rfl⟩

/-- The callback handed to `TryQueue` changes neither the error it returns,
nor the client, nor the effects. -/
theorem TryQueue_callback_irrelevant (q : CallbackQueue) (c : Client) (id : String)
    (send : Request) (cb1 cb2 : Callback) :
    (q.TryQueue c id send cb1).err = (q.TryQueue c id send cb2).err ∧
    (q.TryQueue c id send cb1).client = (q.TryQueue c id send cb2).client ∧
    (q.TryQueue c id send cb1).trace = (q.TryQueue c id send cb2).trace := by
  unfold CallbackQueue.TryQueue
  by_cases hc : q.closed = true
  · simp [hc]
  · simp only [hc, if_false]
    cases (q.lanes id).inFlight with
    | some e => exact ⟨rfl, rfl, rfl⟩
    | none =>
      cases hw : c.transport c.writes (Frame.Call (c.messageId c.writes) send) with
      | none => simp [Client.SendRequest, Client.writeFrame, hw]
      | some err => simp [Client.SendRequest, Client.writeFrame, hw]

/-- C13, counterexample: the feature NotifyEVChargingNeeds is registered on the
station but is not one of the seven names of the switch of `SendRequestAsync`.
`SendRequest` accepts the request (it is queued, the Call is written, the
caller waits), `SendRequestAsync` returns an error without queueing. -/
theorem C13_counterexample :
    (Examples.notifyStation.SendRequest (Examples.request "NotifyEVChargingNeeds") 0).state =
      SendRequestState.awaiting 0 ∧
    (Examples.notifyStation.SendRequest (Examples.request "NotifyEVChargingNeeds") 0).trace =
      [Effect.TryQueue "main" (Examples.request "NotifyEVChargingNeeds")
        (Callback.asyncResponseC 0) none,
       Effect.write (Frame.Call "1" (Examples.request "NotifyEVChargingNeeds")) none] ∧
    (Examples.notifyStation.SendRequestAsync (Examples.request "NotifyEVChargingNeeds")
      (Callback.async 1)).err =
      some (GoError.errorf
        "unsupported action NotifyEVChargingNeeds on charging station, cannot send request") ∧
    (Examples.notifyStation.SendRequestAsync (Examples.request "NotifyEVChargingNeeds")
      (Callback.async 1)).trace = [] := by
  decide

/-- C13, amended: for a request whose feature name is one of the seven names of
the switch of `SendRequestAsync`, the two operations agree: one returns an
error exactly when the other does, with the same error, one is accepted
exactly when the other is, and either both perform no effect or both call
`TryQueue` under the key "main" with the same send function, the same result
and the same effects, each with its own callback. For a request whose feature
name is not one of the seven, `SendRequestAsync` returns an error without
queueing, whatever `SendRequest` does. -/
theorem C13_async_matches_sync (cs : chargingStation) (request : Request)
    (callback : Callback) (chan : Nat) :
    (request.GetFeatureName ∈ SendRequestAsync.featureNames →
      ((cs.SendRequestAsync request callback).err = none ↔
        (cs.SendRequest request chan).state = SendRequestState.awaiting chan) ∧
      (∀ err, (cs.SendRequestAsync request callback).err = some err ↔
        (cs.SendRequest request chan).state = SendRequestState.returned none (some err)) ∧
      (((cs.SendRequestAsync request callback).trace = [] ∧
          (cs.SendRequest request chan).trace = []) ∨
        ∃ err rest,
          (cs.SendRequestAsync request callback).trace =
            Effect.TryQueue "main" request callback err :: rest ∧
          (cs.SendRequest request chan).trace =
            Effect.TryQueue "main" request (Callback.asyncResponseC chan) err :: rest)) ∧
    (request.GetFeatureName ∉ SendRequestAsync.featureNames →
      (∃ err, (cs.SendRequestAsync request callback).err = some err) ∧
      (cs.SendRequestAsync request callback).trace = [] ∧
      (cs.SendRequestAsync request callback).station = cs) := by
  constructor
  · intro hm
    cases hfound : cs.client.GetProfileForFeature request.GetFeatureName with
    | none =>
      simp [chargingStation.SendRequestAsync, chargingStation.SendRequest, hfound]
    | some profile =>
      obtain ⟨herr, _, htrace⟩ := TryQueue_callback_irrelevant cs.callbacks cs.client "main"
        request callback (Callback.asyncResponseC chan)
      have hasync : (cs.SendRequestAsync request callback).err =
          (cs.callbacks.TryQueue cs.client "main" request callback).err := by
        simp [chargingStation.SendRequestAsync, hfound, hm]
      have hatrace : (cs.SendRequestAsync request callback).trace =
          Effect.TryQueue "main" request callback
            (cs.callbacks.TryQueue cs.client "main" request callback).err ::
          (cs.callbacks.TryQueue cs.client "main" request callback).trace := by
        simp [chargingStation.SendRequestAsync, hfound, hm]
      obtain ⟨_, hstrace⟩ := SendRequest_found cs request chan profile hfound
      rw [hasync, hatrace, hstrace, herr, htrace]
      refine ⟨?_, ?_, Or.inr ⟨_, _, rfl, rfl⟩⟩
      · simp only [chargingStation.SendRequest, hfound]
        cases (cs.callbacks.TryQueue cs.client "main" request
          (Callback.asyncResponseC chan)).err <;> simp
      · intro err
        simp only [chargingStation.SendRequest, hfound]
        cases (cs.callbacks.TryQueue cs.client "main" request
          (Callback.asyncResponseC chan)).err <;> simp
  · intro hm
    cases hfound : cs.client.GetProfileForFeature request.GetFeatureName with
    | none => simp [chargingStation.SendRequestAsync, hfound]
    | some profile => simp [chargingStation.SendRequestAsync, hfound, hm]

/-- Witness for C13: an Authorize request on `Examples.authorizeStation`. -/
theorem C13_async_matches_sync_witness :
    Examples.authorizeStation.client.GetProfileForFeature "Authorize" =
      some ⟨"authorization", ["Authorize"]⟩ ∧
    ((Examples.authorizeStation.SendRequestAsync (Examples.request "Authorize")
        (Callback.async 1)).err = none ↔
      (Examples.authorizeStation.SendRequest (Examples.request "Authorize") 0).state =
        SendRequestState.awaiting 0) :=
  ⟨by decide,
    ((C13_async_matches_sync Examples.authorizeStation (Examples.request "Authorize")
      (Callback.async 1) 0).1 (by decide)).1⟩

/-- C14: an inbound call whose action resolves to a registered profile but has
no case in the dispatch switch gets exactly one reply, the CallError with the
call's id and the code NotSupported, whether or not the handler of the
profile is installed; no handler is called, no CallResult is written, and
there is no panic. -/
theorem C14_undispatched_action_not_supported (cs : chargingStation) (request : Request)
    (requestId action : String) (profile : Profile)
    (hfound : cs.client.GetProfileForFeature action = some profile)
    (hdefault : handleIncomingRequest.actionCase action = none) :
    (cs.handleIncomingRequest request requestId action).trace =
      [Effect.write
        (Frame.CallError requestId ocppj.NotSupported
          ("unsupported action " ++ action ++ " on charging station"))
        (cs.client.transport cs.client.writes
          (Frame.CallError requestId ocppj.NotSupported
            ("unsupported action " ++ action ++ " on charging station")))] ∧
    (cs.handleIncomingRequest request requestId action).panicked = false := by
  simp only [chargingStation.handleIncomingRequest, hfound, hdefault]
  split <;> exact notSupportedError_run cs requestId action

/-- Witness for C14: `Call(id "1", NotifyEVChargingNeeds)` received by a
station on which the smart charging profile lists the action and the smart
charging handler is installed. -/
theorem C14_undispatched_action_not_supported_witness :
    (Examples.notifyHandled.handler HandlerField.smartChargingHandler).isSome = true ∧
    (Examples.notifyHandled.handleIncomingRequest
        (Examples.request "NotifyEVChargingNeeds") "1" "NotifyEVChargingNeeds").trace =
      [Effect.write
        (Frame.CallError "1" ocppj.NotSupported
          ("unsupported action " ++ "NotifyEVChargingNeeds" ++ " on charging station"))
        (Examples.notifyHandled.client.transport Examples.notifyHandled.client.writes
          (Frame.CallError "1" ocppj.NotSupported
            ("unsupported action " ++ "NotifyEVChargingNeeds" ++ " on charging station")))] ∧
    (Examples.notifyHandled.handleIncomingRequest
        (Examples.request "NotifyEVChargingNeeds") "1" "NotifyEVChargingNeeds").panicked
      = false :=
  ⟨by decide,
    C14_undispatched_action_not_supported Examples.notifyHandled
      (Examples.request "NotifyEVChargingNeeds") "1" "NotifyEVChargingNeeds"
      ⟨"smartCharging", ["NotifyEVChargingNeeds"]⟩ (by decide) (by decide)⟩

/-- Every case of the dispatch switch calls a method on the handler field that
the profile switch inspects for the profile name of the package declaring
the action of the case. -/
theorem actionCase_profileCase (action : String) (field : HandlerField) (method : String)
    (h : handleIncomingRequest.actionCase action = some (field, method)) :
    (handleIncomingRequest.actionProfile action).bind handleIncomingRequest.profileCase =
      some field := by
  by_cases h1 : action = reservation.CancelReservationFeatureName
  · subst h1
    have hc : handleIncomingRequest.actionCase reservation.CancelReservationFeatureName =
        some (HandlerField.reservationHandler, "OnCancelReservation") := by decide
    rw [hc] at h
    cases h
    decide
  by_cases h2 : action = security.CertificateSignedFeatureName
  · subst h2
    have hc : handleIncomingRequest.actionCase security.CertificateSignedFeatureName =
        some (HandlerField.securityHandler, "OnCertificateSigned") := by decide
    rw [hc] at h
    cases h
    decide
  by_cases h3 : action = availability.ChangeAvailabilityFeatureName
  · subst h3
    have hc : handleIncomingRequest.actionCase availability.ChangeAvailabilityFeatureName =
        some (HandlerField.availabilityHandler, "OnChangeAvailability") := by decide
    rw [hc] at h
    cases h
    decide
  by_cases h4 : action = authorization.ClearCacheFeatureName
  · subst h4
    have hc : handleIncomingRequest.actionCase authorization.ClearCacheFeatureName =
        some (HandlerField.authorizationHandler, "OnClearCache") := by decide
    rw [hc] at h
    cases h
    decide
  by_cases h5 : action = smartcharging.ClearChargingProfileFeatureName
  · subst h5
    have hc : handleIncomingRequest.actionCase smartcharging.ClearChargingProfileFeatureName =
        some (HandlerField.smartChargingHandler, "OnClearChargingProfile") := by decide
    rw [hc] at h
    cases h
    decide
  by_cases h6 : action = display.ClearDisplayFeatureName
  · subst h6
    have hc : handleIncomingRequest.actionCase display.ClearDisplayFeatureName =
        some (HandlerField.displayHandler, "OnClearDisplay") := by decide
    rw [hc] at h
    cases h
    decide
  by_cases h7 : action = diagnostics.ClearVariableMonitoringFeatureName
  · subst h7
    have hc : handleIncomingRequest.actionCase diagnostics.ClearVariableMonitoringFeatureName =
        some (HandlerField.diagnosticsHandler, "OnClearVariableMonitoring") := by decide
    rw [hc] at h
    cases h
    decide
  by_cases h8 : action = tariffcost.CostUpdatedFeatureName
  · subst h8
    have hc : handleIncomingRequest.actionCase tariffcost.CostUpdatedFeatureName =
        some (HandlerField.tariffCostHandler, "OnCostUpdated") := by decide
    rw [hc] at h
    cases h
    decide
  by_cases h9 : action = diagnostics.CustomerInformationFeatureName
  · subst h9
    have hc : handleIncomingRequest.actionCase diagnostics.CustomerInformationFeatureName =
        some (HandlerField.diagnosticsHandler, "OnCustomerInformation") := by decide
    rw [hc] at h
    cases h
    decide
  by_cases h10 : action = data.DataTransferFeatureName
  · subst h10
    have hc : handleIncomingRequest.actionCase data.DataTransferFeatureName =
        some (HandlerField.dataHandler, "OnDataTransfer") := by decide
    rw [hc] at h
    cases h
    decide
  by_cases h11 : action = iso15118.DeleteCertificateFeatureName
  · subst h11
    have hc : handleIncomingRequest.actionCase iso15118.DeleteCertificateFeatureName =
        some (HandlerField.iso15118Handler, "OnDeleteCertificate") := by decide
    rw [hc] at h
    cases h
    decide
  by_cases h12 : action = provisioning.GetBaseReportFeatureName
  · subst h12
    have hc : handleIncomingRequest.actionCase provisioning.GetBaseReportFeatureName =
        some (HandlerField.provisioningHandler, "OnGetBaseReport") := by decide
    rw [hc] at h
    cases h
    decide
  by_cases h13 : action = smartcharging.GetChargingProfilesFeatureName
  · subst h13
    have hc : handleIncomingRequest.actionCase smartcharging.GetChargingProfilesFeatureName =
        some (HandlerField.smartChargingHandler, "OnGetChargingProfiles") := by decide
    rw [hc] at h
    cases h
    decide
  by_cases h14 : action = smartcharging.GetCompositeScheduleFeatureName
  · subst h14
    have hc : handleIncomingRequest.actionCase smartcharging.GetCompositeScheduleFeatureName =
        some (HandlerField.smartChargingHandler, "OnGetCompositeSchedule") := by decide
    rw [hc] at h
    cases h
    decide
  by_cases h15 : action = display.GetDisplayMessagesFeatureName
  · subst h15
    have hc : handleIncomingRequest.actionCase display.GetDisplayMessagesFeatureName =
        some (HandlerField.displayHandler, "OnGetDisplayMessages") := by decide
    rw [hc] at h
    cases h
    decide
  by_cases h16 : action = iso15118.GetInstalledCertificateIdsFeatureName
  · subst h16
    have hc : handleIncomingRequest.actionCase iso15118.GetInstalledCertificateIdsFeatureName =
        some (HandlerField.iso15118Handler, "OnGetInstalledCertificateIds") := by decide
    rw [hc] at h
    cases h
    decide
  by_cases h17 : action = localauth.GetLocalListVersionFeatureName
  · subst h17
    have hc : handleIncomingRequest.actionCase localauth.GetLocalListVersionFeatureName =
        some (HandlerField.localAuthListHandler, "OnGetLocalListVersion") := by decide
    rw [hc] at h
    cases h
    decide
  by_cases h18 : action = diagnostics.GetLogFeatureName
  · subst h18
    have hc : handleIncomingRequest.actionCase diagnostics.GetLogFeatureName =
        some (HandlerField.diagnosticsHandler, "OnGetLog") := by decide
    rw [hc] at h
    cases h
    decide
  by_cases h19 : action = diagnostics.GetMonitoringReportFeatureName
  · subst h19
    have hc : handleIncomingRequest.actionCase diagnostics.GetMonitoringReportFeatureName =
        some (HandlerField.diagnosticsHandler, "OnGetMonitoringReport") := by decide
    rw [hc] at h
    cases h
    decide
  simp [handleIncomingRequest.actionCase, h1, h2, h3, h4, h5, h6, h7, h8, h9, h10, h11, h12, h13, h14, h15, h16, h17, h18, h19] at h

/-- The effects of `sendResponse` hold no handler call. -/
theorem sendResponse_no_handler (cs : chargingStation) (response : ResponseInterface)
    (err : Option GoError) (requestId : String) (field : HandlerField) (method : String)
    (r : Request) :
    Effect.handler field method r ∉ (cs.sendResponse response err requestId).trace := by
  unfold chargingStation.sendResponse
  cases err with
  | some e =>
    simp only [Client.SendError, Client.writeFrame]
    split <;> simp
  | none =>
    cases response with
    | nil => simp
    | pointer p =>
      cases p with
      | none => simp [Client.SendResponse]
      | some resp =>
        simp only [Client.SendResponse, Client.writeFrame]
        split <;> simp

/-- The method `sendResponse` does not panic. -/
theorem sendResponse_not_panicked (cs : chargingStation) (response : ResponseInterface)
    (err : Option GoError) (requestId : String) :
    (cs.sendResponse response err requestId).panicked = false := by
  unfold chargingStation.sendResponse
  cases err with
  | some e =>
    simp only [Client.SendError, Client.writeFrame]
    split <;> simp
  | none =>
    cases response with
    | nil => simp
    | pointer p =>
      cases p with
      | none => simp [Client.SendResponse]
      | some resp =>
        simp only [Client.SendResponse, Client.writeFrame]
        split <;> simp

/-- C20: when the action of an inbound call resolves to the profile that
carries the standard name of the package declaring the action, then (a) the
case of the dispatch switch for the action calls its method on the handler
field that the profile check inspected; (b) once the profile check has
passed, that field is not nil; (c) for a request of the action's request type
`handleIncomingRequest` does not panic; (d) every handler method it calls is
called on an installed handler, the one of the profile. -/
theorem C20_dispatch_handler_installed (cs : chargingStation) (request : Request)
    (requestId action : String) (profile : Profile)
    (hfound : cs.client.GetProfileForFeature action = some profile)
    (hstandard : ∀ name, handleIncomingRequest.actionProfile action = some name →
      profile.Name = name) :
    (∀ field method, handleIncomingRequest.actionCase action = some (field, method) →
      handleIncomingRequest.profileCase profile.Name = some field) ∧
    (∀ field method, handleIncomingRequest.actionCase action = some (field, method) →
      cs.supported profile = true → (cs.handler field).isSome = true) ∧
    (request.GetFeatureName = action →
      (cs.handleIncomingRequest request requestId action).panicked = false) ∧
    (∀ field method r,
      Effect.handler field method r ∈ (cs.handleIncomingRequest request requestId action).trace →
      (cs.handler field).isSome = true ∧
      handleIncomingRequest.profileCase profile.Name = some field) := by
  have ha : ∀ field method, handleIncomingRequest.actionCase action = some (field, method) →
      handleIncomingRequest.profileCase profile.Name = some field := by
    intro field method hcase
    have hb := actionCase_profileCase action field method hcase
    cases hp : handleIncomingRequest.actionProfile action with
    | none => simp [hp] at hb
    | some name =>
      rw [hp] at hb
      rw [hstandard name hp]
      simpa using hb
  have hb : ∀ field method, handleIncomingRequest.actionCase action = some (field, method) →
      cs.supported profile = true → (cs.handler field).isSome = true := by
    intro field method hcase hs
    simpa [chargingStation.supported, ha field method hcase] using hs
  refine ⟨ha, hb, ?_, ?_⟩
  · intro htype
    simp only [chargingStation.handleIncomingRequest, hfound]
    by_cases hs : cs.supported profile = true
    · simp only [hs, Bool.not_true, Bool.false_eq_true, if_false]
      cases hcase : handleIncomingRequest.actionCase action with
      | none => exact (notSupportedError_run cs requestId action).2
      | some fm =>
        obtain ⟨field, method⟩ := fm
        have hi := hb field method hcase hs
        cases hh : cs.handler field with
        | none => simp [hh] at hi
        | some h =>
          simp only [hh, htype, if_true]
          exact sendResponse_not_panicked cs _ _ requestId
    · simp only [Bool.not_eq_true] at hs
      simp only [hs, Bool.not_false, if_true]
      exact (notSupportedError_run cs requestId action).2
  · intro field method r hmem
    simp only [chargingStation.handleIncomingRequest, hfound] at hmem
    by_cases hs : cs.supported profile = true
    · simp only [hs, Bool.not_true, Bool.false_eq_true, if_false] at hmem
      cases hcase : handleIncomingRequest.actionCase action with
      | none =>
        rw [hcase] at hmem
        rw [(notSupportedError_run cs requestId action).1] at hmem
        simp at hmem
      | some fm =>
        obtain ⟨field1, method1⟩ := fm
        rw [hcase] at hmem
        have hi := hb field1 method1 hcase hs
        cases hh : cs.handler field1 with
        | none => simp [hh] at hi
        | some h =>
          simp only [hh] at hmem
          by_cases htype : request.GetFeatureName = action
          · simp only [htype, if_true, List.mem_cons] at hmem
            rcases hmem with hmem | hmem
            · obtain ⟨h1, _, _⟩ := Effect.handler.inj hmem
              rw [h1]
              exact ⟨by simp [hh], ha field1 method1 hcase⟩
            · exact absurd hmem (sendResponse_no_handler cs _ _ requestId field method r)
          · simp [htype] at hmem
    · simp only [Bool.not_eq_true] at hs
      simp only [hs, Bool.not_false, if_true] at hmem
      rw [(notSupportedError_run cs requestId action).1] at hmem
      simp at hmem

/-- Witness for C20: the reservation profile under its standard name, with its
handler installed, receiving `Call(id "7", CancelReservation)`. -/
theorem C20_dispatch_handler_installed_witness :
    (Examples.station [Examples.reservationProfile]
        (Examples.onlyReservation Examples.okHandler)).client.GetProfileForFeature
        "CancelReservation" = some Examples.reservationProfile ∧
    handleIncomingRequest.actionProfile "CancelReservation" = some "reservation" ∧
    handleIncomingRequest.profileCase Examples.reservationProfile.Name =
      some HandlerField.reservationHandler ∧
    ((Examples.station [Examples.reservationProfile]
        (Examples.onlyReservation Examples.okHandler)).handleIncomingRequest
        (Examples.request "CancelReservation") "7" "CancelReservation").panicked = false :=
  ⟨by decide, by decide,
    (C20_dispatch_handler_installed
      (Examples.station [Examples.reservationProfile]
        (Examples.onlyReservation Examples.okHandler))
      (Examples.request "CancelReservation") "7" "CancelReservation"
      Examples.reservationProfile (by decide)
      (fun name h => Option.some.inj
        ((show handleIncomingRequest.actionProfile "CancelReservation" = some "reservation"
          by decide).symm.trans h))).1
      HandlerField.reservationHandler "OnCancelReservation" (by decide),
    (C20_dispatch_handler_installed
      (Examples.station [Examples.reservationProfile]
        (Examples.onlyReservation Examples.okHandler))
      (Examples.request "CancelReservation") "7" "CancelReservation"
      Examples.reservationProfile (by decide)
      (fun name h => Option.some.inj
        ((show handleIncomingRequest.actionProfile "CancelReservation" = some "reservation"
          by decide).symm.trans h))).2.2.1 rfl⟩

/-- The function `isValidEnergyTransferMode` accepts exactly the four modes. -/
theorem isValidEnergyTransferMode_iff (field : String) :
    smartcharging.isValidEnergyTransferMode field = true ↔
      field ∈ ["DC", "AC_single_phase", "AC_two_phase", "AC_three_phase"] := by
  simp only [smartcharging.isValidEnergyTransferMode, smartcharging.EnergyTransferModeDC,
    smartcharging.EnergyTransferModeACSinglePhase, smartcharging.EnergyTransferModeACTwoPhase,
    smartcharging.EnergyTransferModeACThreePhase, List.mem_cons, List.mem_singleton,
    List.not_mem_nil, or_false]
  split_ifs <;> simp_all

/-- The function `isValidNotifyEVChargingNeedsStatus` accepts exactly the three statuses. -/
theorem isValidNotifyEVChargingNeedsStatus_iff (field : String) :
    smartcharging.isValidNotifyEVChargingNeedsStatus field = true ↔
      field ∈ ["Accepted", "Rejected", "Processing"] := by
  simp only [smartcharging.isValidNotifyEVChargingNeedsStatus,
    smartcharging.NotifyEVChargingNeedsStatusAccepted,
    smartcharging.NotifyEVChargingNeedsStatusRejected,
    smartcharging.NotifyEVChargingNeedsStatusProcessing, List.mem_cons, List.mem_singleton,
    List.not_mem_nil, or_false]
  split_ifs <;> simp_all

/-- An optional integer under the tag `omitempty,gte=0`. -/
theorem validateField_omitempty_gte (v : Option Int) :
    validateField [Rule.omitempty, Rule.gte 0] (Field.intPtr v) = true ↔
      absentOrAtLeast 0 v := by
  cases v with
  | none => simp [validateField, validateNil, absentOrAtLeast]
  | some x => simp [validateField, validateInt, absentOrAtLeast]

/-- An optional integer under the tag `omitempty,min=0,max=100`. -/
theorem validateField_omitempty_min_max (v : Option Int) :
    validateField [Rule.omitempty, Rule.min 0, Rule.max 100] (Field.intPtr v) = true ↔
      absentOrWithin 0 100 v := by
  cases v with
  | none => simp [validateField, validateNil, absentOrWithin]
  | some x => simp [validateField, validateInt, absentOrWithin]

/-- An integer under the tag `gte=0`. -/
theorem validateField_gte (v : Int) :
    validateField [Rule.gte 0] (Field.int v) = true ↔ 0 ≤ v := by
  simp [validateField, validateInt]

/-- An integer under the tag `gt=0`. -/
theorem validateField_gt (v : Int) :
    validateField [Rule.gt 0] (Field.int v) = true ↔ 0 < v := by
  simp [validateField, validateInt]

/-- A struct field is valid exactly when the struct is, whatever its tag. -/
theorem validateField_nested (rules : List Rule) (valid : Bool) :
    validateField rules (Field.nested valid) = valid := rfl

/-- An optional struct under the tag `omitempty`. -/
theorem validateField_omitempty_nested (valid : Option Bool) :
    validateField [Rule.omitempty] (Field.nestedPtr valid) = true ↔
      ∀ b, valid = some b → b = true := by
  cases valid with
  | none => simp [validateField, validateNil]
  | some b => simp [validateField]

/-- C17: an `ACChargingParameters` value passes validation if and only if each
of its four fields is at least 0; so the all-zero value is valid and the
values of the test table with one negative field are not. -/
theorem C17_ac_parameters_validation (p : smartcharging.ACChargingParameters) :
    (p.Validate = true ↔
      0 ≤ p.EnergyAmount ∧ 0 ≤ p.EvMinCurrent ∧ 0 ≤ p.EvMaxCurrent ∧ 0 ≤ p.EvMaxVoltage) ∧
    (⟨0, 0, 0, 0⟩ : smartcharging.ACChargingParameters).Validate = true ∧
    (⟨42, 6, 42, -1⟩ : smartcharging.ACChargingParameters).Validate = false ∧
    (⟨42, 6, -1, 240⟩ : smartcharging.ACChargingParameters).Validate = false ∧
    (⟨42, -1, 42, 240⟩ : smartcharging.ACChargingParameters).Validate = false ∧
    (⟨-1, 6, 42, 240⟩ : smartcharging.ACChargingParameters).Validate = false := by
  refine ⟨?_, by decide, by decide, by decide, by decide, by decide⟩
  simp only [smartcharging.ACChargingParameters.Validate, validateStruct,
    smartcharging.ACChargingParameters.fields, List.all_cons, List.all_nil, Bool.and_true,
    Bool.and_eq_true, validateField_gte]

/-- C16: a `DCChargingParameters` value passes validation if and only if
`EvMaxCurrent` and `EvMaxVoltage` are at least 0, each of `EnergyAmount`,
`EvMaxPower`, `EvEnergyCapacity` is absent or at least 0, and each of
`StateOfCharge`, `FullSoC`, `BulkSoC` is absent or within 0..100; a value
whose optional fields are all present and equal to 0 is valid. -/
theorem C16_dc_parameters_validation (p : smartcharging.DCChargingParameters) :
    (p.Validate = true ↔
      0 ≤ p.EvMaxCurrent ∧ 0 ≤ p.EvMaxVoltage ∧
      absentOrAtLeast 0 p.EnergyAmount ∧ absentOrAtLeast 0 p.EvMaxPower ∧
      absentOrWithin 0 100 p.StateOfCharge ∧ absentOrAtLeast 0 p.EvEnergyCapacity ∧
      absentOrWithin 0 100 p.FullSoC ∧ absentOrWithin 0 100 p.BulkSoC) ∧
    (⟨0, 0, some 0, some 0, some 0, some 0, some 0, some 0⟩ :
      smartcharging.DCChargingParameters).Validate = true ∧
    (⟨0, 0, none, none, none, none, none, none⟩ :
      smartcharging.DCChargingParameters).Validate = true ∧
    (⟨42, 240, none, none, some 101, none, none, none⟩ :
      smartcharging.DCChargingParameters).Validate = false := by
  refine ⟨?_, by decide, by decide, by decide⟩
  simp only [smartcharging.DCChargingParameters.Validate, validateStruct,
    smartcharging.DCChargingParameters.fields, List.all_cons, List.all_nil, Bool.and_true,
    Bool.and_eq_true, validateField_gte, validateField_omitempty_gte,
    validateField_omitempty_min_max]

/-- C15: a `NotifyEVChargingNeedsRequest` passes validation if and only if
`EvseID` is greater than 0, `MaxScheduleTuples` is absent or at least 0,
`RequestedEnergyTransfer` is one of the four energy transfer modes, and each
of `ACChargingParameters` and `DCChargingParameters` is absent or valid; the
departure time plays no part. The empty mode is rejected. -/
theorem C15_request_validation {DateTime : Type}
    (r : smartcharging.NotifyEVChargingNeedsRequest DateTime) :
    (r.Validate = true ↔
      0 < r.EvseID ∧ absentOrAtLeast 0 r.MaxScheduleTuples ∧
      r.ChargingNeeds.RequestedEnergyTransfer ∈
        ["DC", "AC_single_phase", "AC_two_phase", "AC_three_phase"] ∧
      (∀ p, r.ChargingNeeds.ACChargingParameters = some p → p.Validate = true) ∧
      (∀ p, r.ChargingNeeds.DCChargingParameters = some p → p.Validate = true)) ∧
    (r.ChargingNeeds.RequestedEnergyTransfer = "" → r.Validate = false) := by
  have hiff : r.Validate = true ↔
      0 < r.EvseID ∧ absentOrAtLeast 0 r.MaxScheduleTuples ∧
      r.ChargingNeeds.RequestedEnergyTransfer ∈
        ["DC", "AC_single_phase", "AC_two_phase", "AC_three_phase"] ∧
      (∀ p, r.ChargingNeeds.ACChargingParameters = some p → p.Validate = true) ∧
      (∀ p, r.ChargingNeeds.DCChargingParameters = some p → p.Validate = true) := by
    have hmode : validateField [Rule.required, Rule.energyTransferMode]
        (Field.string r.ChargingNeeds.RequestedEnergyTransfer) = true ↔
        r.ChargingNeeds.RequestedEnergyTransfer ∈
          ["DC", "AC_single_phase", "AC_two_phase", "AC_three_phase"] := by
      simp only [validateField, validateString, Bool.and_true, Bool.and_eq_true,
        decide_eq_true_eq, isValidEnergyTransferMode_iff]
      constructor
      · exact fun h => h.2
      · intro h
        refine ⟨?_, h⟩
        intro hempty
        rw [hempty] at h
        simp at h
    simp only [smartcharging.NotifyEVChargingNeedsRequest.Validate, validateStruct,
      smartcharging.NotifyEVChargingNeedsRequest.fields, List.all_cons, List.all_nil,
      Bool.and_true, Bool.and_eq_true, validateField_omitempty_gte, validateField_gt,
      validateField_nested,
      smartcharging.ChargingNeeds.Validate, smartcharging.ChargingNeeds.fields, hmode,
      validateField_omitempty_nested, Option.map_eq_some',
      forall_exists_index, and_imp, forall_apply_eq_imp_iff₂, implies_true, true_and]
    tauto
  refine ⟨hiff, ?_⟩
  intro hempty
  cases hv : r.Validate with
  | false => rfl
  | true =>
    have h := (hiff.mp hv).2.2.1
    rw [hempty] at h
    simp at h

/-- C18: a `NotifyEVChargingNeedsResponse` passes validation if and only if
`Status` is one of "Accepted", "Rejected", "Processing" and `StatusInfo` is
absent or a valid `StatusInfo`; the empty status is rejected. -/
theorem C18_response_validation {StatusInfo : Type} (validStatusInfo : StatusInfo → Bool)
    (r : smartcharging.NotifyEVChargingNeedsResponse StatusInfo) :
    (r.Validate validStatusInfo = true ↔
      r.Status ∈ ["Accepted", "Rejected", "Processing"] ∧
      (∀ s, r.StatusInfo = some s → validStatusInfo s = true)) ∧
    (r.Status = "" → r.Validate validStatusInfo = false) := by
  have hstatus : validateField [Rule.required, Rule.notifyEvChargingNeedsStatus]
      (Field.string r.Status) = true ↔ r.Status ∈ ["Accepted", "Rejected", "Processing"] := by
    simp only [validateField, validateString, Bool.and_true, Bool.and_eq_true,
      decide_eq_true_eq, isValidNotifyEVChargingNeedsStatus_iff]
    constructor
    · exact fun h => h.2
    · intro h
      refine ⟨?_, h⟩
      intro hempty
      rw [hempty] at h
      simp at h
  have hiff : r.Validate validStatusInfo = true ↔
      r.Status ∈ ["Accepted", "Rejected", "Processing"] ∧
      (∀ s, r.StatusInfo = some s → validStatusInfo s = true) := by
    simp only [smartcharging.NotifyEVChargingNeedsResponse.Validate, validateStruct,
      smartcharging.NotifyEVChargingNeedsResponse.fields, List.all_cons, List.all_nil,
      Bool.and_true, Bool.and_eq_true, hstatus, validateField_omitempty_nested,
      Option.map_eq_some', forall_exists_index, and_imp, forall_apply_eq_imp_iff₂]
  refine ⟨hiff, ?_⟩
  intro hempty
  cases hv : r.Validate validStatusInfo with
  | false => rfl
  | true =>
    have h := (hiff.mp hv).1
    rw [hempty] at h
    simp at h

/-- The values assigned to a field that no member matches. -/
theorem fieldValues_of_filter_nil (name : String) (members : List (String × Json))
    (h : members.filter (matchesField name) = []) : fieldValues name members = [] := by
  simp [fieldValues, h, lastOfEachKey, sortByKey]

/-- The values assigned to a field that one member matches. -/
theorem fieldValues_of_filter_single (name : String) (members : List (String × Json))
    (m : String × Json) (h : members.filter (matchesField name) = [m]) :
    fieldValues name members = [m.2] := by
  obtain ⟨key, value⟩ := m
  simp [fieldValues, h, lastOfEachKey, sortByKey, insertByKey]

/-- The values assigned to a field that an optional member matches alone. -/
theorem fieldValues_of_filter_omitempty (name key : String) (members : List (String × Json))
    (value : Option Json) (h : members.filter (matchesField name) = omitempty key value) :
    fieldValues name members = value.toList := by
  cases value with
  | none => exact fieldValues_of_filter_nil name members h
  | some v => exact fieldValues_of_filter_single name members (key, v) h

/-- Filtering past a member written under `omitempty`. -/
theorem filter_omitempty (name key : String) (value : Option Json) :
    (omitempty key value).filter (matchesField name) =
      if foldName key = foldName name then omitempty key value else [] := by
  cases value with
  | none => simp [omitempty]
  | some v => simp [omitempty, matchesField, List.filter_cons]

/-- An integer within `2^53` in magnitude comes through `float64` as it is. -/
theorem viaFloat64_exact (n : Int) (h : n.natAbs ≤ 2 ^ 53) : viaFloat64 n = some n := by
  unfold viaFloat64
  rw [if_pos h]

/-- An integer within `2^53` in magnitude is finite as a JSON number. -/
theorem finite_num (n : Int) (h : n.natAbs ≤ 2 ^ 53) : (Json.num n).finite = true := by
  have h1 : n.natAbs >>> 970 ≤ n.natAbs := by
    rw [Nat.shiftRight_eq_div_pow]
    exact Nat.div_le_self _ _
  simp only [Json.finite, decide_eq_true_eq]
  omega

/-- An `int` field is decoded from its number. -/
theorem decodeInt_single (current n : Int) (h : n.natAbs ≤ 2 ^ 53) :
    decodeInt current [Json.num n] = some n := by
  simp [decodeInt, viaFloat64_exact n h]

/-- A `*int` field is decoded from its number, or from its absence. -/
theorem decodeIntPtr_toList (v : Option Int) (h : ∀ n, v = some n → n.natAbs ≤ 2 ^ 53) :
    decodeIntPtr none (v.map Json.num).toList = some v := by
  cases v with
  | none => simp [decodeIntPtr]
  | some n => simp [decodeIntPtr, viaFloat64_exact n (h n rfl)]

/-- Decoding the object of an `ACChargingParameters` into any value gives the
encoded one back, when its integers are within `2^53` in magnitude. -/
theorem ACChargingParameters_roundtrip (current p : smartcharging.ACChargingParameters)
    (h : ∀ n ∈ p.integers, n.natAbs ≤ 2 ^ 53) :
    smartcharging.ACChargingParameters.decode current p.toJson = some p := by
  simp only [smartcharging.ACChargingParameters.integers, List.mem_cons, List.mem_singleton,
    List.not_mem_nil, or_false, forall_eq_or_imp, forall_eq] at h
  obtain ⟨b1, b2, b3, b4⟩ := h
  have h1 : fieldValues "energyAmount" p.members = [Json.num p.EnergyAmount] :=
    fieldValues_of_filter_single _ _ ("energyAmount", _) (by
      simp +decide [smartcharging.ACChargingParameters.members, List.filter_cons, matchesField])
  have h2 : fieldValues "evMinCurrent" p.members = [Json.num p.EvMinCurrent] :=
    fieldValues_of_filter_single _ _ ("evMinCurrent", _) (by
      simp +decide [smartcharging.ACChargingParameters.members, List.filter_cons, matchesField])
  have h3 : fieldValues "evMaxCurrent" p.members = [Json.num p.EvMaxCurrent] :=
    fieldValues_of_filter_single _ _ ("evMaxCurrent", _) (by
      simp +decide [smartcharging.ACChargingParameters.members, List.filter_cons, matchesField])
  have h4 : fieldValues "evMaxVoltage" p.members = [Json.num p.EvMaxVoltage] :=
    fieldValues_of_filter_single _ _ ("evMaxVoltage", _) (by
      simp +decide [smartcharging.ACChargingParameters.members, List.filter_cons, matchesField])
  simp [smartcharging.ACChargingParameters.decode, smartcharging.ACChargingParameters.toJson,
    h1, h2, h3, h4, decodeInt_single _ _ b1, decodeInt_single _ _ b2, decodeInt_single _ _ b3,
    decodeInt_single _ _ b4]

/-- Decoding the object of a `DCChargingParameters` into a new value gives the
encoded one back, when its integers are within `2^53` in magnitude. -/
theorem DCChargingParameters_roundtrip (p : smartcharging.DCChargingParameters)
    (h : ∀ n ∈ p.integers, n.natAbs ≤ 2 ^ 53) :
    smartcharging.DCChargingParameters.decode smartcharging.DCChargingParameters.zero p.toJson =
      some p := by
  have b1 : p.EvMaxCurrent.natAbs ≤ 2 ^ 53 :=
    h _ (by simp [smartcharging.DCChargingParameters.integers])
  have b2 : p.EvMaxVoltage.natAbs ≤ 2 ^ 53 :=
    h _ (by simp [smartcharging.DCChargingParameters.integers])
  have b3 : ∀ n, p.EnergyAmount = some n → n.natAbs ≤ 2 ^ 53 := fun n hn =>
    h n (by simp [smartcharging.DCChargingParameters.integers, hn])
  have b4 : ∀ n, p.EvMaxPower = some n → n.natAbs ≤ 2 ^ 53 := fun n hn =>
    h n (by simp [smartcharging.DCChargingParameters.integers, hn])
  have b5 : ∀ n, p.StateOfCharge = some n → n.natAbs ≤ 2 ^ 53 := fun n hn =>
    h n (by simp [smartcharging.DCChargingParameters.integers, hn])
  have b6 : ∀ n, p.EvEnergyCapacity = some n → n.natAbs ≤ 2 ^ 53 := fun n hn =>
    h n (by simp [smartcharging.DCChargingParameters.integers, hn])
  have b7 : ∀ n, p.FullSoC = some n → n.natAbs ≤ 2 ^ 53 := fun n hn =>
    h n (by simp [smartcharging.DCChargingParameters.integers, hn])
  have b8 : ∀ n, p.BulkSoC = some n → n.natAbs ≤ 2 ^ 53 := fun n hn =>
    h n (by simp [smartcharging.DCChargingParameters.integers, hn])
  have h1 : fieldValues "evMaxCurrent" p.members = [Json.num p.EvMaxCurrent] :=
    fieldValues_of_filter_single _ _ ("evMaxCurrent", _) (by
      simp +decide [smartcharging.DCChargingParameters.members, List.filter_cons,
        List.filter_append, filter_omitempty, matchesField])
  have h2 : fieldValues "evMaxVoltage" p.members = [Json.num p.EvMaxVoltage] :=
    fieldValues_of_filter_single _ _ ("evMaxVoltage", _) (by
      simp +decide [smartcharging.DCChargingParameters.members, List.filter_cons,
        List.filter_append, filter_omitempty, matchesField])
  have h3 : fieldValues "energyAmount" p.members = (p.EnergyAmount.map Json.num).toList :=
    fieldValues_of_filter_omitempty _ "energyAmount" _ _ (by
      simp +decide [smartcharging.DCChargingParameters.members, List.filter_cons,
        List.filter_append, filter_omitempty, matchesField])
  have h4 : fieldValues "evMaxPower" p.members = (p.EvMaxPower.map Json.num).toList :=
    fieldValues_of_filter_omitempty _ "evMaxPower" _ _ (by
      simp +decide [smartcharging.DCChargingParameters.members, List.filter_cons,
        List.filter_append, filter_omitempty, matchesField])
  have h5 : fieldValues "stateOfCharge" p.members = (p.StateOfCharge.map Json.num).toList :=
    fieldValues_of_filter_omitempty _ "stateOfCharge" _ _ (by
      simp +decide [smartcharging.DCChargingParameters.members, List.filter_cons,
        List.filter_append, filter_omitempty, matchesField])
  have h6 : fieldValues "energyCapacity" p.members = (p.EvEnergyCapacity.map Json.num).toList :=
    fieldValues_of_filter_omitempty _ "energyCapacity" _ _ (by
      simp +decide [smartcharging.DCChargingParameters.members, List.filter_cons,
        List.filter_append, filter_omitempty, matchesField])
  have h7 : fieldValues "fullSoC" p.members = (p.FullSoC.map Json.num).toList :=
    fieldValues_of_filter_omitempty _ "fullSoC" _ _ (by
      simp +decide [smartcharging.DCChargingParameters.members, List.filter_cons,
        List.filter_append, filter_omitempty, matchesField])
  have h8 : fieldValues "bulkSoC" p.members = (p.BulkSoC.map Json.num).toList :=
    fieldValues_of_filter_omitempty _ "bulkSoC" _ _ (by
      simp +decide [smartcharging.DCChargingParameters.members, List.filter_cons,
        List.filter_append, filter_omitempty, matchesField])
  simp only [smartcharging.DCChargingParameters.decode, smartcharging.DCChargingParameters.toJson,
    smartcharging.DCChargingParameters.zero, h1, h2, h3, h4, h5, h6, h7, h8,
    decodeInt_single _ _ b1, decodeInt_single _ _ b2, decodeIntPtr_toList _ b3,
    decodeIntPtr_toList _ b4, decodeIntPtr_toList _ b5, decodeIntPtr_toList _ b6,
    decodeIntPtr_toList _ b7, decodeIntPtr_toList _ b8]
  rfl

/-- A pointer to a struct is decoded from the object of the pointed value, or
from its absence, when the pointed value itself decodes into a new value. -/
theorem decodePtr_toList {α : Type} (zero : α) (decode : α → Json → Option α)
    (encode : α → Json) (v : Option α) (hnull : ∀ x, encode x ≠ Json.null)
    (hdecode : ∀ x, v = some x → decode zero (encode x) = some x) :
    decodePtr zero decode none (v.map encode).toList = some v := by
  cases v with
  | none => simp [decodePtr]
  | some x =>
    have hd := hdecode x rfl
    have hn := hnull x
    simp only [Option.map, Option.toList]
    cases hx : encode x <;> simp_all [decodePtr]

/-- A departure time is decoded from its timestamp by `UnmarshalJSON`. -/
theorem decodeDateTime_toList {DateTime : Type} (FormatTimestamp : DateTime → String)
    (UnmarshalJSON : Json → Option DateTime) (v : Option DateTime) :
    decodeDateTime UnmarshalJSON none
        (v.map (fun t => Json.str (FormatTimestamp t))).toList =
      (match v with
       | none => some none
       | some t => (UnmarshalJSON (Json.str (FormatTimestamp t))).map some) := by
  cases v with
  | none => simp [decodeDateTime]
  | some t =>
    simp only [Option.map, Option.toList, decodeDateTime]
    cases UnmarshalJSON (Json.str (FormatTimestamp t)) <;> rfl

/-- Decoding the object of a `ChargingNeeds` into a new value gives the encoded
one back with the departure time that `UnmarshalJSON` reads from the timestamp,
when the integers of the parameters are within `2^53` in magnitude. -/
theorem ChargingNeeds_roundtrip {DateTime : Type} (FormatTimestamp : DateTime → String)
    (UnmarshalJSON : Json → Option DateTime) (n : smartcharging.ChargingNeeds DateTime)
    (hac : ∀ p, n.ACChargingParameters = some p → ∀ k ∈ p.integers, k.natAbs ≤ 2 ^ 53)
    (hdc : ∀ p, n.DCChargingParameters = some p → ∀ k ∈ p.integers, k.natAbs ≤ 2 ^ 53) :
    smartcharging.ChargingNeeds.decode UnmarshalJSON smartcharging.ChargingNeeds.zero
        (n.toJson FormatTimestamp) =
      (match n.DepartureTime with
       | none => some n
       | some t => (UnmarshalJSON (Json.str (FormatTimestamp t))).map
           (fun back => ⟨n.RequestedEnergyTransfer, some back, n.ACChargingParameters,
             n.DCChargingParameters⟩)) := by
  have h1 : fieldValues "requestedEnergyTransfer" (n.members FormatTimestamp) =
      [Json.str n.RequestedEnergyTransfer] :=
    fieldValues_of_filter_single _ _ ("requestedEnergyTransfer", _) (by
      simp +decide [smartcharging.ChargingNeeds.members, List.filter_cons,
        List.filter_append, filter_omitempty, matchesField])
  have h2 : fieldValues "departureTime" (n.members FormatTimestamp) =
      (n.DepartureTime.map (fun t => Json.str (FormatTimestamp t))).toList :=
    fieldValues_of_filter_omitempty _ "departureTime" _ _ (by
      simp +decide [smartcharging.ChargingNeeds.members, List.filter_cons,
        List.filter_append, filter_omitempty, matchesField])
  have h3 : fieldValues "acChargingParameters" (n.members FormatTimestamp) =
      (n.ACChargingParameters.map smartcharging.ACChargingParameters.toJson).toList :=
    fieldValues_of_filter_omitempty _ "acChargingParameters" _ _ (by
      simp +decide [smartcharging.ChargingNeeds.members, List.filter_cons,
        List.filter_append, filter_omitempty, matchesField])
  have h4 : fieldValues "dcChargingParameters" (n.members FormatTimestamp) =
      (n.DCChargingParameters.map smartcharging.DCChargingParameters.toJson).toList :=
    fieldValues_of_filter_omitempty _ "dcChargingParameters" _ _ (by
      simp +decide [smartcharging.ChargingNeeds.members, List.filter_cons,
        List.filter_append, filter_omitempty, matchesField])
  have d3 := decodePtr_toList smartcharging.ACChargingParameters.zero
    smartcharging.ACChargingParameters.decode smartcharging.ACChargingParameters.toJson
    n.ACChargingParameters (by intro x; simp [smartcharging.ACChargingParameters.toJson])
    (fun x hx => ACChargingParameters_roundtrip _ x (hac x hx))
  have d4 := decodePtr_toList smartcharging.DCChargingParameters.zero
    smartcharging.DCChargingParameters.decode smartcharging.DCChargingParameters.toJson
    n.DCChargingParameters (by intro x; simp [smartcharging.DCChargingParameters.toJson])
    (fun x hx => DCChargingParameters_roundtrip x (hdc x hx))
  have d2 := decodeDateTime_toList FormatTimestamp UnmarshalJSON n.DepartureTime
  simp only [smartcharging.ChargingNeeds.decode, smartcharging.ChargingNeeds.toJson,
    smartcharging.ChargingNeeds.zero, h1, h2, h3, h4, d2, d3, d4, decodeString]
  cases ht : n.DepartureTime with
  | none =>
    obtain ⟨a, b, c, d⟩ := n
    simp only at ht
    subst ht
    rfl
  | some t =>
    cases hu : UnmarshalJSON (Json.str (FormatTimestamp t)) <;> simp [hu]

/-- An object is finite when its members are. -/
theorem finite_obj (members : List (String × Json)) :
    (Json.obj members).finite = Json.finiteMembers members := by
  simp [Json.finite]

/-- A string is finite. -/
theorem finite_str (text : String) : (Json.str text).finite = true := by
  simp [Json.finite]

/-- The members of a list are finite when the first and the others are. -/
theorem finiteMembers_cons (key : String) (value : Json) (rest : List (String × Json)) :
    Json.finiteMembers ((key, value) :: rest) = (value.finite && Json.finiteMembers rest) := by
  simp [Json.finiteMembers]

/-- No member is not finite in the empty list. -/
theorem finiteMembers_nil : Json.finiteMembers [] = true := by
  simp [Json.finiteMembers]

/-- The members of two lists are finite when those of each are. -/
theorem finiteMembers_append (a b : List (String × Json)) :
    Json.finiteMembers (a ++ b) = (Json.finiteMembers a && Json.finiteMembers b) := by
  induction a with
  | nil => simp [Json.finiteMembers]
  | cons m rest ih =>
    obtain ⟨key, value⟩ := m
    simp [Json.finiteMembers, ih, Bool.and_assoc]

/-- An optional integer member is finite within `2^53` in magnitude. -/
theorem finiteMembers_omitempty_num (key : String) (v : Option Int)
    (h : ∀ n, v = some n → n.natAbs ≤ 2 ^ 53) :
    Json.finiteMembers (omitempty key (v.map Json.num)) = true := by
  cases v with
  | none => simp [omitempty, Json.finiteMembers]
  | some n => simp [omitempty, Json.finiteMembers, finite_num n (h n rfl)]

/-- An optional member is finite when its value, if any, is. -/
theorem finiteMembers_omitempty {α : Type} (key : String) (encode : α → Json) (v : Option α)
    (h : ∀ x, v = some x → (encode x).finite = true) :
    Json.finiteMembers (omitempty key (v.map encode)) = true := by
  cases v with
  | none => simp [omitempty, Json.finiteMembers]
  | some x => simp [omitempty, Json.finiteMembers, h x rfl]

/-- The object of an `ACChargingParameters` within `2^53` has only finite numbers. -/
theorem ACChargingParameters_finite (p : smartcharging.ACChargingParameters)
    (h : ∀ n ∈ p.integers, n.natAbs ≤ 2 ^ 53) : p.toJson.finite = true := by
  simp only [smartcharging.ACChargingParameters.integers, List.mem_cons, List.mem_singleton,
    List.not_mem_nil, or_false, forall_eq_or_imp, forall_eq] at h
  obtain ⟨b1, b2, b3, b4⟩ := h
  simp only [smartcharging.ACChargingParameters.toJson,
    smartcharging.ACChargingParameters.members, finite_obj, finiteMembers_cons,
    finiteMembers_nil, finite_num _ b1, finite_num _ b2, finite_num _ b3, finite_num _ b4,
    Bool.and_self]

/-- The object of a `DCChargingParameters` within `2^53` has only finite numbers. -/
theorem DCChargingParameters_finite (p : smartcharging.DCChargingParameters)
    (h : ∀ n ∈ p.integers, n.natAbs ≤ 2 ^ 53) : p.toJson.finite = true := by
  have b1 : p.EvMaxCurrent.natAbs ≤ 2 ^ 53 :=
    h _ (by simp [smartcharging.DCChargingParameters.integers])
  have b2 : p.EvMaxVoltage.natAbs ≤ 2 ^ 53 :=
    h _ (by simp [smartcharging.DCChargingParameters.integers])
  have b3 : ∀ n, p.EnergyAmount = some n → n.natAbs ≤ 2 ^ 53 := fun n hn =>
    h n (by simp [smartcharging.DCChargingParameters.integers, hn])
  have b4 : ∀ n, p.EvMaxPower = some n → n.natAbs ≤ 2 ^ 53 := fun n hn =>
    h n (by simp [smartcharging.DCChargingParameters.integers, hn])
  have b5 : ∀ n, p.StateOfCharge = some n → n.natAbs ≤ 2 ^ 53 := fun n hn =>
    h n (by simp [smartcharging.DCChargingParameters.integers, hn])
  have b6 : ∀ n, p.EvEnergyCapacity = some n → n.natAbs ≤ 2 ^ 53 := fun n hn =>
    h n (by simp [smartcharging.DCChargingParameters.integers, hn])
  have b7 : ∀ n, p.FullSoC = some n → n.natAbs ≤ 2 ^ 53 := fun n hn =>
    h n (by simp [smartcharging.DCChargingParameters.integers, hn])
  have b8 : ∀ n, p.BulkSoC = some n → n.natAbs ≤ 2 ^ 53 := fun n hn =>
    h n (by simp [smartcharging.DCChargingParameters.integers, hn])
  simp only [smartcharging.DCChargingParameters.toJson,
    smartcharging.DCChargingParameters.members, finite_obj, finiteMembers_cons,
    finiteMembers_nil, finiteMembers_append, finite_num _ b1, finite_num _ b2,
    finiteMembers_omitempty_num _ _ b3, finiteMembers_omitempty_num _ _ b4,
    finiteMembers_omitempty_num _ _ b5, finiteMembers_omitempty_num _ _ b6,
    finiteMembers_omitempty_num _ _ b7, finiteMembers_omitempty_num _ _ b8, Bool.and_self]

/-- The payload of a request whose integers are within `2^53` in magnitude has
only finite numbers. -/
theorem NotifyEVChargingNeedsRequest_finite {DateTime : Type}
    (FormatTimestamp : DateTime → String)
    (r : smartcharging.NotifyEVChargingNeedsRequest DateTime)
    (h : ∀ n ∈ r.integers, n.natAbs ≤ 2 ^ 53) :
    (r.toJson FormatTimestamp).finite = true := by
  have b1 : ∀ n, r.MaxScheduleTuples = some n → n.natAbs ≤ 2 ^ 53 := fun n hn =>
    h n (by simp [smartcharging.NotifyEVChargingNeedsRequest.integers, hn])
  have b2 : r.EvseID.natAbs ≤ 2 ^ 53 :=
    h _ (by simp [smartcharging.NotifyEVChargingNeedsRequest.integers])
  have b3 : ∀ p, r.ChargingNeeds.ACChargingParameters = some p → p.toJson.finite = true :=
    fun p hp => ACChargingParameters_finite p (fun n hn =>
      h n (by simp [smartcharging.NotifyEVChargingNeedsRequest.integers, hp, hn]))
  have b4 : ∀ p, r.ChargingNeeds.DCChargingParameters = some p → p.toJson.finite = true :=
    fun p hp => DCChargingParameters_finite p (fun n hn =>
      h n (by simp [smartcharging.NotifyEVChargingNeedsRequest.integers, hp, hn]))
  have b5 : ∀ t, r.ChargingNeeds.DepartureTime = some t →
      (Json.str (FormatTimestamp t)).finite = true := fun _ _ => rfl
  simp only [smartcharging.NotifyEVChargingNeedsRequest.toJson,
    smartcharging.NotifyEVChargingNeedsRequest.members, smartcharging.ChargingNeeds.toJson,
    smartcharging.ChargingNeeds.members, finite_obj, finite_str, finiteMembers_cons,
    finiteMembers_nil, finiteMembers_append, finite_num _ b2, finiteMembers_omitempty_num _ _ b1,
    finiteMembers_omitempty _ _ _ b3, finiteMembers_omitempty _ _ _ b4,
    finiteMembers_omitempty _ (fun t => Json.str (FormatTimestamp t)) _ b5, Bool.and_self]

/-- A struct field is decoded from the one object assigned to it. -/
theorem decodeStruct_single {α : Type} (decode : α → Json → Option α) (current : α)
    (value : Json) : decodeStruct decode current [value] = decode current value := by
  simp only [decodeStruct]
  cases decode current value <;> rfl

/-- Replacing the departure time of a request by itself changes nothing. -/
theorem withDepartureTime_self {DateTime : Type}
    (r : smartcharging.NotifyEVChargingNeedsRequest DateTime) :
    r.withDepartureTime r.ChargingNeeds.DepartureTime = r := rfl

/-- The request that the receiver builds from the payload of a request whose
integers are within `2^53` in magnitude: the request itself, with the
departure time that `UnmarshalJSON` reads from the timestamp; none when it
reads none. -/
theorem NotifyEVChargingNeedsRequest_roundtrip {DateTime : Type}
    (FormatTimestamp : DateTime → String) (UnmarshalJSON : Json → Option DateTime)
    (r : smartcharging.NotifyEVChargingNeedsRequest DateTime)
    (h : ∀ n ∈ r.integers, n.natAbs ≤ 2 ^ 53) :
    smartcharging.NotifyEVChargingNeedsRequest.fromJson UnmarshalJSON
        (r.toJson FormatTimestamp) =
      (match r.ChargingNeeds.DepartureTime with
       | none => some r
       | some t => (UnmarshalJSON (Json.str (FormatTimestamp t))).map
           (fun back => r.withDepartureTime (some back))) := by
  have hfinite := NotifyEVChargingNeedsRequest_finite FormatTimestamp r h
  have b1 : ∀ n, r.MaxScheduleTuples = some n → n.natAbs ≤ 2 ^ 53 := fun n hn =>
    h n (by simp [smartcharging.NotifyEVChargingNeedsRequest.integers, hn])
  have b2 : r.EvseID.natAbs ≤ 2 ^ 53 :=
    h _ (by simp [smartcharging.NotifyEVChargingNeedsRequest.integers])
  have b3 : ∀ p, r.ChargingNeeds.ACChargingParameters = some p →
      ∀ k ∈ p.integers, k.natAbs ≤ 2 ^ 53 := fun p hp n hn =>
    h n (by simp [smartcharging.NotifyEVChargingNeedsRequest.integers, hp, hn])
  have b4 : ∀ p, r.ChargingNeeds.DCChargingParameters = some p →
      ∀ k ∈ p.integers, k.natAbs ≤ 2 ^ 53 := fun p hp n hn =>
    h n (by simp [smartcharging.NotifyEVChargingNeedsRequest.integers, hp, hn])
  have h1 : fieldValues "maxScheduleTuples" (r.members FormatTimestamp) =
      (r.MaxScheduleTuples.map Json.num).toList :=
    fieldValues_of_filter_omitempty _ "maxScheduleTuples" _ _ (by
      simp +decide [smartcharging.NotifyEVChargingNeedsRequest.members, List.filter_cons,
        List.filter_append, filter_omitempty, matchesField])
  have h2 : fieldValues "evseId" (r.members FormatTimestamp) = [Json.num r.EvseID] :=
    fieldValues_of_filter_single _ _ ("evseId", _) (by
      simp +decide [smartcharging.NotifyEVChargingNeedsRequest.members, List.filter_cons,
        List.filter_append, filter_omitempty, matchesField])
  have h3 : fieldValues "chargingNeeds" (r.members FormatTimestamp) =
      [r.ChargingNeeds.toJson FormatTimestamp] :=
    fieldValues_of_filter_single _ _
      ("chargingNeeds", r.ChargingNeeds.toJson FormatTimestamp) (by
      simp +decide [smartcharging.NotifyEVChargingNeedsRequest.members, List.filter_cons,
        List.filter_append, filter_omitempty, matchesField])
  have h4 := ChargingNeeds_roundtrip FormatTimestamp UnmarshalJSON r.ChargingNeeds b3 b4
  unfold smartcharging.NotifyEVChargingNeedsRequest.fromJson
  rw [if_pos hfinite]
  simp only [smartcharging.NotifyEVChargingNeedsRequest.decode,
    smartcharging.NotifyEVChargingNeedsRequest.toJson,
    smartcharging.NotifyEVChargingNeedsRequest.zero, h1, h2, h3, decodeStruct_single, h4,
    decodeInt_single _ _ b2, decodeIntPtr_toList _ b1]
  cases ht : r.ChargingNeeds.DepartureTime with
  | none =>
    obtain ⟨m, evse, ⟨mode, time, ac, dc⟩⟩ := r
    simp only at ht
    subst ht
    rfl
  | some t =>
    cases hu : UnmarshalJSON (Json.str (FormatTimestamp t)) <;>
      simp [hu, smartcharging.NotifyEVChargingNeedsRequest.withDepartureTime]

/-- The receiver builds the request itself exactly when a departure time that
is set is read back from its timestamp. -/
theorem NotifyEVChargingNeedsRequest_roundtrip_iff {DateTime : Type}
    (FormatTimestamp : DateTime → String) (UnmarshalJSON : Json → Option DateTime)
    (r : smartcharging.NotifyEVChargingNeedsRequest DateTime)
    (h : ∀ n ∈ r.integers, n.natAbs ≤ 2 ^ 53) :
    smartcharging.NotifyEVChargingNeedsRequest.fromJson UnmarshalJSON
        (r.toJson FormatTimestamp) = some r ↔
      ∀ t, r.ChargingNeeds.DepartureTime = some t →
        UnmarshalJSON (Json.str (FormatTimestamp t)) = some t := by
  rw [NotifyEVChargingNeedsRequest_roundtrip FormatTimestamp UnmarshalJSON r h]
  cases ht : r.ChargingNeeds.DepartureTime with
  | none => simp
  | some t =>
    cases hu : UnmarshalJSON (Json.str (FormatTimestamp t)) with
    | none => simp [hu]
    | some back =>
      constructor
      · intro heq t2 ht2
        cases ht2
        simp only [hu, Option.map] at heq
        have h1 := congrArg (fun q => q.ChargingNeeds.DepartureTime) (Option.some.inj heq)
        simp only [smartcharging.NotifyEVChargingNeedsRequest.withDepartureTime, ht] at h1
        rw [hu]
        exact h1
      · intro hall
        have h1 := hall t rfl
        rw [hu] at h1
        cases h1
        simp only [hu, Option.map]
        rw [← ht]
        rfl

/-- Lookup past a member written under `omitempty`. -/
theorem lookupMember_omitempty (name key : String) (value : Option Json)
    (rest : List (String × Json)) :
    lookupMember name (omitempty key value ++ rest) =
      if key = name then
        (match value with
         | some v => some v
         | none => lookupMember name rest)
      else lookupMember name rest := by
  cases value with
  | none => simp [omitempty]
  | some v => simp [omitempty, lookupMember]

/-- Lookup in a single member written under `omitempty`. -/
theorem lookupMember_omitempty_last (name key : String) (value : Option Json) :
    lookupMember name (omitempty key value) =
      if key = name then
        (match value with
         | some v => some v
         | none => none)
      else none := by
  cases value with
  | none => simp [omitempty, lookupMember]
  | some v => simp [omitempty, lookupMember]

/-- Lookup in a list that starts with a plain member. -/
theorem lookupMember_cons (name key : String) (value : Json) (rest : List (String × Json)) :
    lookupMember name ((key, value) :: rest) =
      if key = name then some value else lookupMember name rest := rfl

/-- The optional members of the object of a `DCChargingParameters` are present
exactly when their field is set. -/
theorem DCChargingParameters_members_present (p : smartcharging.DCChargingParameters) :
    p.toJson.has "evMaxCurrent" = true ∧
    p.toJson.has "evMaxVoltage" = true ∧
    p.toJson.has "energyAmount" = p.EnergyAmount.isSome ∧
    p.toJson.has "evMaxPower" = p.EvMaxPower.isSome ∧
    p.toJson.has "stateOfCharge" = p.StateOfCharge.isSome ∧
    p.toJson.has "energyCapacity" = p.EvEnergyCapacity.isSome ∧
    p.toJson.has "fullSoC" = p.FullSoC.isSome ∧
    p.toJson.has "bulkSoC" = p.BulkSoC.isSome := by
  refine ⟨?_, ?_, ?_, ?_, ?_, ?_, ?_, ?_⟩
  · simp [Json.has, smartcharging.DCChargingParameters.toJson,
      smartcharging.DCChargingParameters.members, lookupMember_cons]
  · simp [Json.has, smartcharging.DCChargingParameters.toJson,
      smartcharging.DCChargingParameters.members, lookupMember_cons]
  · cases h : p.EnergyAmount <;>
      simp [Json.has, smartcharging.DCChargingParameters.toJson,
        smartcharging.DCChargingParameters.members, lookupMember_cons,
        lookupMember_omitempty, lookupMember_omitempty_last, h]
  · cases h : p.EvMaxPower <;>
      simp [Json.has, smartcharging.DCChargingParameters.toJson,
        smartcharging.DCChargingParameters.members, lookupMember_cons,
        lookupMember_omitempty, lookupMember_omitempty_last, h]
  · cases h : p.StateOfCharge <;>
      simp [Json.has, smartcharging.DCChargingParameters.toJson,
        smartcharging.DCChargingParameters.members, lookupMember_cons,
        lookupMember_omitempty, lookupMember_omitempty_last, h]
  · cases h : p.EvEnergyCapacity <;>
      simp [Json.has, smartcharging.DCChargingParameters.toJson,
        smartcharging.DCChargingParameters.members, lookupMember_cons,
        lookupMember_omitempty, lookupMember_omitempty_last, h]
  · cases h : p.FullSoC <;>
      simp [Json.has, smartcharging.DCChargingParameters.toJson,
        smartcharging.DCChargingParameters.members, lookupMember_cons,
        lookupMember_omitempty, lookupMember_omitempty_last, h]
  · cases h : p.BulkSoC <;>
      simp [Json.has, smartcharging.DCChargingParameters.toJson,
        smartcharging.DCChargingParameters.members, lookupMember_cons,
        lookupMember_omitempty, lookupMember_omitempty_last, h]

/-- The members of the object of a `ChargingNeeds`: the energy transfer mode
is always present, each optional member exactly when its field is set. -/
theorem ChargingNeeds_members_present {DateTime : Type}
    (FormatTimestamp : DateTime → String) (n : smartcharging.ChargingNeeds DateTime) :
    (n.toJson FormatTimestamp).member? "requestedEnergyTransfer" =
      some (Json.str n.RequestedEnergyTransfer) ∧
    (n.toJson FormatTimestamp).has "departureTime" = n.DepartureTime.isSome ∧
    (n.toJson FormatTimestamp).has "acChargingParameters" = n.ACChargingParameters.isSome ∧
    (n.toJson FormatTimestamp).has "dcChargingParameters" = n.DCChargingParameters.isSome := by
  refine ⟨?_, ?_, ?_, ?_⟩
  · simp [Json.member?, smartcharging.ChargingNeeds.toJson,
      smartcharging.ChargingNeeds.members, lookupMember_cons]
  · cases h : n.DepartureTime <;>
      simp [Json.has, smartcharging.ChargingNeeds.toJson,
        smartcharging.ChargingNeeds.members, lookupMember_cons,
        lookupMember_omitempty, lookupMember_omitempty_last, h]
  · cases h : n.ACChargingParameters <;>
      simp [Json.has, smartcharging.ChargingNeeds.toJson,
        smartcharging.ChargingNeeds.members, lookupMember_cons,
        lookupMember_omitempty, lookupMember_omitempty_last, h]
  · cases h : n.DCChargingParameters <;>
      simp [Json.has, smartcharging.ChargingNeeds.toJson,
        smartcharging.ChargingNeeds.members, lookupMember_cons,
        lookupMember_omitempty, lookupMember_omitempty_last, h]

/-- C19: for every `NotifyEVChargingNeedsRequest` and message id, (1) the
encoded Call is the array [2, id, "NotifyEVChargingNeeds", payload], from
which id, action and payload are read back; (2) the payload object always
holds `evseId` and `chargingNeeds`, the latter always with
`requestedEnergyTransfer`, and holds `maxScheduleTuples`, `departureTime`,
`acChargingParameters`, `dcChargingParameters` and the six optional members of
the DC parameters exactly when the field is set; (3) when every integer of the
request is within `2^53` in magnitude, the receiver builds from the payload
the request itself with the departure time that `UnmarshalJSON` of
`types.DateTime` reads from the timestamp, so that it builds a request equal
to the one sent, field for field and unset fields unset, exactly when a
departure time that is set is read back from its timestamp. -/
theorem C19_call_roundtrip {DateTime : Type} (FormatTimestamp : DateTime → String)
    (UnmarshalJSON : Json → Option DateTime)
    (r : smartcharging.NotifyEVChargingNeedsRequest DateTime) (id : String) :
    ocppj.Call.toJson id smartcharging.NotifyEVChargingNeedsFeatureName
        (r.toJson FormatTimestamp) =
      Json.arr [Json.num 2, Json.str id, Json.str "NotifyEVChargingNeeds",
        r.toJson FormatTimestamp] ∧
    ocppj.Call.fromJson (ocppj.Call.toJson id smartcharging.NotifyEVChargingNeedsFeatureName
        (r.toJson FormatTimestamp)) =
      some (id, "NotifyEVChargingNeeds", r.toJson FormatTimestamp) ∧
    (r.toJson FormatTimestamp).member? "evseId" = some (Json.num r.EvseID) ∧
    (r.toJson FormatTimestamp).member? "chargingNeeds" =
      some (r.ChargingNeeds.toJson FormatTimestamp) ∧
    (r.ChargingNeeds.toJson FormatTimestamp).member? "requestedEnergyTransfer" =
      some (Json.str r.ChargingNeeds.RequestedEnergyTransfer) ∧
    (r.toJson FormatTimestamp).has "maxScheduleTuples" = r.MaxScheduleTuples.isSome ∧
    (r.ChargingNeeds.toJson FormatTimestamp).has "departureTime" =
      r.ChargingNeeds.DepartureTime.isSome ∧
    (r.ChargingNeeds.toJson FormatTimestamp).has "acChargingParameters" =
      r.ChargingNeeds.ACChargingParameters.isSome ∧
    (r.ChargingNeeds.toJson FormatTimestamp).has "dcChargingParameters" =
      r.ChargingNeeds.DCChargingParameters.isSome ∧
    (∀ dc, r.ChargingNeeds.DCChargingParameters = some dc →
      dc.toJson.has "energyAmount" = dc.EnergyAmount.isSome ∧
      dc.toJson.has "evMaxPower" = dc.EvMaxPower.isSome ∧
      dc.toJson.has "stateOfCharge" = dc.StateOfCharge.isSome ∧
      dc.toJson.has "energyCapacity" = dc.EvEnergyCapacity.isSome ∧
      dc.toJson.has "fullSoC" = dc.FullSoC.isSome ∧
      dc.toJson.has "bulkSoC" = dc.BulkSoC.isSome) ∧
    ((∀ n ∈ r.integers, n.natAbs ≤ 2 ^ 53) →
      smartcharging.NotifyEVChargingNeedsRequest.fromJson UnmarshalJSON
          (r.toJson FormatTimestamp) =
        (match r.ChargingNeeds.DepartureTime with
         | none => some r
         | some t => (UnmarshalJSON (Json.str (FormatTimestamp t))).map
             (fun back => r.withDepartureTime (some back))) ∧
      (smartcharging.NotifyEVChargingNeedsRequest.fromJson UnmarshalJSON
          (r.toJson FormatTimestamp) = some r ↔
        ∀ t, r.ChargingNeeds.DepartureTime = some t →
          UnmarshalJSON (Json.str (FormatTimestamp t)) = some t)) := by
  obtain ⟨n1, n2, n3, n4⟩ := ChargingNeeds_members_present FormatTimestamp r.ChargingNeeds
  refine ⟨rfl, rfl, ?_, ?_, n1, ?_, n2, n3, n4, ?_, fun h =>
    ⟨NotifyEVChargingNeedsRequest_roundtrip FormatTimestamp UnmarshalJSON r h,
      NotifyEVChargingNeedsRequest_roundtrip_iff FormatTimestamp UnmarshalJSON r h⟩⟩
  · simp [Json.member?, smartcharging.NotifyEVChargingNeedsRequest.toJson,
      smartcharging.NotifyEVChargingNeedsRequest.members, lookupMember_cons,
      lookupMember_omitempty]
  · simp [Json.member?, smartcharging.NotifyEVChargingNeedsRequest.toJson,
      smartcharging.NotifyEVChargingNeedsRequest.members, lookupMember_cons,
      lookupMember_omitempty]
  · cases h : r.MaxScheduleTuples <;>
      simp [Json.has, smartcharging.NotifyEVChargingNeedsRequest.toJson,
        smartcharging.NotifyEVChargingNeedsRequest.members, lookupMember_cons,
        lookupMember_omitempty, lookupMember, h]
  · intro dc _
    exact (DCChargingParameters_members_present dc).2.2

/-- Witness for C19: the request of the test `TestNotifyEVChargingNeedsE2EMocked`
with message id "1234"; the departure time is held as its timestamp string,
written and read as it is. Its integers are within `2^53`, the Call is read
back, and the receiver builds the request that was sent. -/
theorem C19_call_roundtrip_witness :
    (∀ n ∈ Examples.needsRequest.integers, n.natAbs ≤ 2 ^ 53) ∧
    (∀ t, Examples.needsRequest.ChargingNeeds.DepartureTime = some t →
      Examples.UnmarshalJSON (Json.str t) = some t) ∧
    ocppj.Call.fromJson (ocppj.Call.toJson "1234" smartcharging.NotifyEVChargingNeedsFeatureName
        (Examples.needsRequest.toJson (fun s => s))) =
      some ("1234", "NotifyEVChargingNeeds", Examples.needsRequest.toJson (fun s => s)) ∧
    (Examples.needsRequest.toJson (fun s => s)).has "maxScheduleTuples" =
      Examples.needsRequest.MaxScheduleTuples.isSome ∧
    smartcharging.NotifyEVChargingNeedsRequest.fromJson Examples.UnmarshalJSON
        (Examples.needsRequest.toJson (fun s => s)) = some Examples.needsRequest :=
  ⟨by decide, fun _ _ => rfl,
    (C19_call_roundtrip (fun s => s) Examples.UnmarshalJSON Examples.needsRequest "1234").2.1,
    (C19_call_roundtrip (fun s => s) Examples.UnmarshalJSON Examples.needsRequest
      "1234").2.2.2.2.2.1,
    ((C19_call_roundtrip (fun s => s) Examples.UnmarshalJSON Examples.needsRequest
      "1234").2.2.2.2.2.2.2.2.2.2 (by decide)).2.mpr (fun _ _ => rfl)⟩

/-- C19, counterexample to the claim as written: the request of the test with
the EVSE id `2^53 + 1`, an `int` of a 64-bit platform. The payload carries the
id as it is, and the receiver, which reads every number as a `float64` before
it fills the request, builds a request whose `EvseID` is `2^53`: not the
request that was sent. -/
theorem C19_counterexample :
    (Examples.wideRequest.toJson (fun s => s)).member? "evseId" =
      some (Json.num 9007199254740993) ∧
    Examples.wideRequest.EvseID = 9007199254740993 ∧
    (smartcharging.NotifyEVChargingNeedsRequest.fromJson Examples.UnmarshalJSON
        (Examples.wideRequest.toJson (fun s => s))).map (fun r => r.EvseID) =
      some 9007199254740992 ∧
    smartcharging.NotifyEVChargingNeedsRequest.fromJson Examples.UnmarshalJSON
        (Examples.wideRequest.toJson (fun s => s)) ≠ some Examples.wideRequest :=
  ⟨rfl, rfl, by decide,
    fun h => absurd (congrArg (Option.map (fun r => r.EvseID)) h) (by decide)⟩

/-- The receiver on payloads that no sender of this package writes: a `null`
member leaves the zero value of an `int` field; of two members of one key the
later counts; a key matches the tag of a field in any case of its letters, and
of two such keys the greater in byte order counts; a member of the wrong type
is an error; `2^62` comes back in the 16 digits of its `float64`, and the
greatest `int64` is refused. -/
theorem fromJson_examples :
    (smartcharging.NotifyEVChargingNeedsRequest.fromJson Examples.UnmarshalJSON
      (Json.obj [("evseId", Json.null)])).map (fun r => r.EvseID) = some 0 ∧
    (smartcharging.NotifyEVChargingNeedsRequest.fromJson Examples.UnmarshalJSON
      (Json.obj [("evseId", Json.num 1), ("evseId", Json.num 2)])).map (fun r => r.EvseID) =
        some 2 ∧
    (smartcharging.NotifyEVChargingNeedsRequest.fromJson Examples.UnmarshalJSON
      (Json.obj [("EVSEID", Json.num 7)])).map (fun r => r.EvseID) = some 7 ∧
    (smartcharging.NotifyEVChargingNeedsRequest.fromJson Examples.UnmarshalJSON
      (Json.obj [("evseid", Json.num 1), ("EVSEID", Json.num 2)])).map (fun r => r.EvseID) =
        some 1 ∧
    (smartcharging.NotifyEVChargingNeedsRequest.fromJson Examples.UnmarshalJSON
      (Json.obj [("evseId", Json.str "1")])).map (fun r => r.EvseID) = none ∧
    (smartcharging.NotifyEVChargingNeedsRequest.fromJson Examples.UnmarshalJSON
      (Json.obj [("evseId", Json.num 4611686018427387904)])).map (fun r => r.EvseID) =
        some 4611686018427388000 ∧
    (smartcharging.NotifyEVChargingNeedsRequest.fromJson Examples.UnmarshalJSON
      (Json.obj [("evseId", Json.num 9223372036854775807)])).map (fun r => r.EvseID) =
        none := by
  decide

/-- The payload of the witness of C19, written out: the members of the test's
expected JSON, in the same order. -/
theorem needsRequest_payload :
    Examples.needsRequest.toJson (fun s => s) =
      Json.obj [("maxScheduleTuples", Json.num 2), ("evseId", Json.num 1),
        ("chargingNeeds", Json.obj [("requestedEnergyTransfer", Json.str "DC"),
          ("departureTime", Json.str "2020-06-01T10:00:00Z"),
          ("dcChargingParameters", Json.obj [("evMaxCurrent", Json.num 42),
            ("evMaxVoltage", Json.num 240), ("stateOfCharge", Json.num 46)])])] := rfl

end Ocpp2
